import Mathlib

/-!
# The Typesense filter-query builder (`typesense_query_builder.go`)

A shallow embedding of the Go program and theorems about it.

Conventions of the embedding.

* Go strings are Lean `String`s; `fmt.Sprintf` with `%s` verbs is concatenation.
* A runtime panic (the only one the program can raise is an index out of range in
  `handleNumberConditions`) is the `none` of an `Option`.
* `time.Now()` is read once by every call of `convertHumanDateToTypesenseDatetime`.
  The wall clock is a sequence of readings `Clock = Nat → Time`; the functions that
  may read it take the number of readings made so far and return the new number.
* `log.Printf` only writes to the log and has no influence on any returned value;
  it is left out.
* The error result of `GenerateTypesenseQuery` is the constant `nil`; the embedding
  returns the string alone.
* A `time.Location` is given by its zone lookup, so that locations with zone transitions
  (daylight saving time) are instants' locations like any other; the theorems on calendar
  intervals are stated for wall-clock readings clear of zone transitions
  (`Location.steadyAt`), as every reading is in a location with a fixed UTC offset.
-/

namespace TypesenseQuery

/-! ## Go `float64` and the verb `%.2f` -/

/-- A Go `float64`: a signed dyadic number `(-1)^neg * mant * 2^exp` (signed zeros
included), an infinity, or a NaN. -/
inductive Float64 where
  | finite (neg : Bool) (mant : Nat) (exp : Int)
  | inf (neg : Bool)
  | nan
  deriving DecidableEq, Repr

/-- The float64 value of a natural number (exact for the small literals used here). -/
def Float64.ofNat (n : Nat) : Float64 := .finite false n 0

/-- Whether the value is neither an infinity nor a NaN. -/
def Float64.isFinite : Float64 → Bool
  | .finite _ _ _ => true
  | _ => false

/-- Quotient `num / den` rounded to the nearest integer, ties to the even one: the
rounding `strconv` applies to the exact decimal expansion (`decimal.Round`). -/
def roundHalfEven (num den : Nat) : Nat :=
  let q := num / den
  let r := num % den
  if den < 2 * r ∨ (2 * r = den ∧ q % 2 = 1) then q + 1 else q

/-- The magnitude `mant * 2^exp` in hundredths, rounded half to even. -/
def hundredths (mant : Nat) (exp : Int) : Nat :=
  if 0 ≤ exp then mant * 100 * 2 ^ exp.toNat
  else roundHalfEven (mant * 100) (2 ^ (-exp).toNat)

/-- Two decimal digits of a number below 100. -/
def pad2 (n : Nat) : String :=
  String.mk [Nat.digitChar (n / 10 % 10), Nat.digitChar (n % 10)]

/-- The unsigned fixed-point text of a number of hundredths: integer part, a point,
two fraction digits. -/
def fixed2 (q : Nat) : String :=
  Nat.repr (q / 100) ++ "." ++ pad2 (q % 100)

/-- Go's `fmt.Sprintf("%.2f", x)` for a `float64`. -/
def fmtFloat2 : Float64 → String
  | .nan => "NaN"
  | .inf false => "+Inf"
  | .inf true => "-Inf"
  | .finite neg mant exp =>
    (if neg then "-" else "") ++ fixed2 (hundredths mant exp)

/-! ## Constants and the filter record -/

abbrev TextType : String := "text"
abbrev NumberType : String := "number"
abbrev DateType : String := "date"
abbrev DateTimeType : String := "datetime"

abbrev OperatorIs : String := "is"
abbrev OperatorIsNot : String := "isnot"
abbrev OperatorIn : String := "in"
abbrev OperatorContains : String := "contains"
abbrev OperatorLike : String := "like"
abbrev OperatorNoData : String := "nodata"
abbrev OperatorHasData : String := "hasdata"
abbrev OperatorBetween : String := "between"

/-- The Go struct `FilterRequest`. -/
structure FilterRequest where
  Field : String
  Operator : String
  TextValue : String
  TextArray : List String
  NumberValue : Float64
  NumberRange : List Float64
  CustomDateRange : List Float64
  HumanDate : String
  deriving DecidableEq, Repr

/-! ## Go `strings.Join` -/

/-- The loop of `strings.Join` that appends the separator and each further element. -/
def joinRest (sep : String) : List String → String → String
  | [], b => b
  | s :: rest, b => joinRest sep rest (b ++ sep ++ s)

/-- Go's `strings.Join(elems, sep)`. -/
def stringsJoin (elems : List String) (sep : String) : String :=
  match elems with
  | [] => ""
  | [e] => e
  | e :: rest => joinRest sep rest e

/-! ## Text and number conditions -/

/-- The Go function `handleTextConditions`. -/
def handleTextConditions (filter : FilterRequest) : String :=
  if filter.Operator = OperatorIs ∨ filter.Operator = OperatorIsNot ∨
      filter.Operator = OperatorIn ∨ filter.Operator = OperatorContains ∨
      filter.Operator = OperatorLike ∨ filter.Operator = OperatorNoData ∨
      filter.Operator = OperatorHasData then
    filter.Field ++ ":" ++ filter.Operator ++ ":" ++ filter.TextValue
  else
    ""

/-- The Go function `handleNumberConditions`; `none` is the index-out-of-range panic
of `filter.NumberRange[0]` or `filter.NumberRange[1]`. -/
def handleNumberConditions (filter : FilterRequest) : Option String :=
  if filter.Operator = OperatorBetween ∨ filter.Operator = OperatorHasData ∨
      filter.Operator = OperatorNoData then
    if filter.Operator = OperatorBetween then
      match filter.NumberRange[0]?, filter.NumberRange[1]? with
      | some low, some high =>
        some (filter.Field ++ ":" ++ filter.Operator ++ ":[" ++ fmtFloat2 low ++ "," ++
          fmtFloat2 high ++ "]")
      | _, _ => none
    else
      some (filter.Field ++ filter.Operator ++ fmtFloat2 filter.NumberValue)
  else
    some ""

/-! ## Go `time`: locations, instants, calendar arithmetic

The functions below follow the Go standard library (`time.Date`, `Time.AddDate`,
`Time.Add`, `Time.Weekday`, `Time.Format` with the layout `time.RFC3339`).  Seconds are
counted from 0001-01-01T00:00:00 of the proleptic Gregorian calendar (a Monday, and
the first year of a 400-year cycle, as Go's absolute epoch is); integers are unbounded,
which agrees with Go's `int64` arithmetic for every instant a wall clock can report. -/

/-- What `Location.lookup` reports for an instant: the offset east of UTC in seconds
and the span `[start, stop)` of Unix seconds in which that offset is in force. -/
structure ZoneSpan where
  offset : Int
  start : Int
  stop : Int
  deriving DecidableEq, Repr

/-- A Go `*time.Location`, given by its `lookup` on Unix seconds. -/
structure Location where
  lookup : Int → ZoneSpan

/-- Go's `alpha`: the beginning of time for zone spans. -/
def alpha : Int := -(2 ^ 63)

/-- Go's `omega`: the end of time for zone spans. -/
def omega : Int := 2 ^ 63 - 1

/-- Go's `time.FixedZone(_, offset)`: one offset, in force always. -/
def FixedZone (offset : Int) : Location := ⟨fun _ => ⟨offset, alpha, omega⟩⟩

/-- Go's `time.UTC`. -/
def UTC : Location := FixedZone 0

/-- A Go `time.Time`: Unix seconds, nanoseconds within the second, location. -/
structure Time where
  unix : Int
  nsec : Int
  loc : Location

/-- Seconds from 0001-01-01T00:00:00Z to the Unix epoch. -/
def unixToInternal : Int := 62135596800

def secondsPerMinute : Int := 60
def secondsPerHour : Int := 3600
def secondsPerDay : Int := 86400
def secondsPerWeek : Int := 604800
def daysPer400Years : Int := 146097
def daysPer100Years : Int := 36524
def daysPer4Years : Int := 1461

/-- Go's `time.Second` as a `Duration` in nanoseconds. -/
def Second : Int := 1000000000

/-- Go's `isLeap`. -/
def isLeap (year : Int) : Bool :=
  year % 4 = 0 && (year % 100 != 0 || year % 400 = 0)

/-- Go's table `daysBefore`: days of a non-leap year before month `m + 1`. -/
def daysBefore (m : Int) : Int :=
  if m = 0 then 0
  else if m = 1 then 31
  else if m = 2 then 59
  else if m = 3 then 90
  else if m = 4 then 120
  else if m = 5 then 151
  else if m = 6 then 181
  else if m = 7 then 212
  else if m = 8 then 243
  else if m = 9 then 273
  else if m = 10 then 304
  else if m = 11 then 334
  else 365

/-- Go's `norm`: `(hi, lo)` with `lo` brought into `[0, base)`. The divisions act on
non-negative operands only, where Go's truncated division is the floor. -/
def norm (hi lo base : Int) : Int × Int :=
  let n1 := if lo < 0 then (-lo - 1) / base + 1 else 0
  let hi1 := hi - n1
  let lo1 := lo + n1 * base
  let n2 := if lo1 ≥ base then lo1 / base else 0
  (hi1 + n2, lo1 - n2 * base)

/-- Go's `daysSinceEpoch`: days from 0001-01-01 to January 1 of `year`. -/
def daysSinceEpoch (year : Int) : Int :=
  let y := year - 1
  let n400 := y / 400
  let y1 := y - 400 * n400
  let n100 := y1 / 100
  let y2 := y1 - 100 * n100
  let n4 := y2 / 4
  let y3 := y2 - 4 * n4
  daysPer400Years * n400 + daysPer100Years * n100 + daysPer4Years * n4 + 365 * y3

/-- The local seconds since 0001-01-01 of an instant (Go's `Time.abs`). -/
def Time.abs (t : Time) : Int :=
  t.unix + (t.loc.lookup t.unix).offset + unixToInternal

/-- Go's `absDate`: year and zero-based day of the year of a count of local seconds. -/
def absYearDay (abs : Int) : Int × Int :=
  let d := abs / secondsPerDay
  let n400 := d / daysPer400Years
  let d1 := d - daysPer400Years * n400
  let n100 := d1 / daysPer100Years
  let n100 := n100 - n100 / 4
  let d2 := d1 - daysPer100Years * n100
  let n4 := d2 / daysPer4Years
  let d3 := d2 - daysPer4Years * n4
  let n := d3 / 365
  let n := n - n / 4
  let d4 := d3 - 365 * n
  (400 * n400 + 100 * n100 + 4 * n4 + n + 1, d4)

/-- Go's `absDate`, second half: month and day of the month from the year and the
zero-based day of the year. -/
def monthDay (year yday : Int) : Int × Int :=
  if isLeap year ∧ yday = 31 + 29 - 1 then (2, 29)
  else
    let day := if isLeap year ∧ yday > 31 + 29 - 1 then yday - 1 else yday
    let month := day / 31
    let stop := daysBefore (month + 1)
    if day ≥ stop then (month + 2, day - stop + 1)
    else (month + 1, day - daysBefore month + 1)

/-- Go's `Time.Year`. -/
def Time.Year (t : Time) : Int := (absYearDay t.abs).1

/-- Go's `Time.Month` (January is 1). -/
def Time.Month (t : Time) : Int :=
  (monthDay (absYearDay t.abs).1 (absYearDay t.abs).2).1

/-- Go's `Time.Day`. -/
def Time.Day (t : Time) : Int :=
  (monthDay (absYearDay t.abs).1 (absYearDay t.abs).2).2

/-- Go's `Time.Hour`. -/
def Time.Hour (t : Time) : Int := t.abs % secondsPerDay / secondsPerHour

/-- Go's `Time.Minute`. -/
def Time.Minute (t : Time) : Int := t.abs % secondsPerHour / secondsPerMinute

/-- Go's `Time.Second`. -/
def Time.Sec (t : Time) : Int := t.abs % secondsPerMinute

/-- Go's `Time.Weekday`: Sunday is 0; the epoch day is a Monday. -/
def Time.Weekday (t : Time) : Int :=
  (t.abs + 1 * secondsPerDay) % secondsPerWeek / secondsPerDay

/-- Go's `Time.Location`. -/
def Time.Location (t : Time) : Location := t.loc

/-- Go's `time.Date`. -/
def Date (year month day hour min sec nsec : Int) (loc : Location) : Time :=
  let ym := norm year (month - 1) 12
  let year := ym.1
  let month := ym.2 + 1
  let sn := norm sec nsec 1000000000
  let ms := norm min sn.1 60
  let hm := norm hour ms.1 60
  let dh := norm day hm.1 24
  let d := daysSinceEpoch year + daysBefore (month - 1) +
    (if isLeap year ∧ month ≥ 3 then 1 else 0) + (dh.1 - 1)
  let abs := d * secondsPerDay + (dh.2 * secondsPerHour + hm.2 * secondsPerMinute + ms.2)
  let unix := abs - unixToInternal
  let z := loc.lookup unix
  let offset :=
    if z.offset ≠ 0 then
      let utc := unix - z.offset
      if utc < z.start ∨ utc ≥ z.stop then (loc.lookup utc).offset else z.offset
    else 0
  ⟨unix - offset, sn.2, loc⟩

/-- Go's `Time.AddDate`. -/
def Time.AddDate (t : Time) (years months days : Int) : Time :=
  Date (t.Year + years) (t.Month + months) (t.Day + days) t.Hour t.Minute t.Sec t.nsec
    t.Location

/-- Go's `Time.Add` for a duration `d` in nanoseconds. -/
def Time.Add (t : Time) (d : Int) : Time :=
  let dsec := Int.tdiv d 1000000000
  let nsec := t.nsec + Int.tmod d 1000000000
  if nsec ≥ 1000000000 then ⟨t.unix + (dsec + 1), nsec - 1000000000, t.loc⟩
  else if nsec < 0 then ⟨t.unix + (dsec - 1), nsec + 1000000000, t.loc⟩
  else ⟨t.unix + dsec, nsec, t.loc⟩

/-- Zeros that pad a text of `len` characters to `width`. -/
def zeroPad (width len : Nat) : String :=
  String.mk (List.replicate (width - len) '0')

/-- Go's `appendInt`: the decimal text of `x`, zero-padded to `width` digits, after a
minus sign when `x` is negative. -/
def appendInt (x : Int) (width : Nat) : String :=
  (if x < 0 then "-" else "") ++
    zeroPad width (Nat.repr x.natAbs).length ++ Nat.repr x.natAbs

/-- The zone suffix of the layout `Z07:00`. -/
def formatZone (offset : Int) : String :=
  if offset = 0 then "Z"
  else
    let zone := Int.tdiv offset 60
    (if zone < 0 then "-" else "+") ++
      appendInt (Int.tdiv (Int.ofNat zone.natAbs) 60) 2 ++ ":" ++
      appendInt (Int.tmod (Int.ofNat zone.natAbs) 60) 2

/-- Go's `t.Format(time.RFC3339)`, the layout `2006-01-02T15:04:05Z07:00`. -/
def Time.FormatRFC3339 (t : Time) : String :=
  appendInt t.Year 4 ++ "-" ++ appendInt t.Month 2 ++ "-" ++ appendInt t.Day 2 ++ "T" ++
    appendInt t.Hour 2 ++ ":" ++ appendInt t.Minute 2 ++ ":" ++ appendInt t.Sec 2 ++
    formatZone (t.loc.lookup t.unix).offset

/-! ## Date conditions -/

/-- The Go function `generateDatetimeCondition`. -/
def generateDatetimeCondition (field : String) (start stop : Time) : String :=
  field ++ ":>=:" ++ start.FormatRFC3339 ++ " AND " ++ field ++ ":<=:" ++ stop.FormatRFC3339

/-- The Go function `getStartOfWeek`. -/
def getStartOfWeek (t : Time) : Time :=
  let weekday := t.Weekday
  let startOfWeek := t.AddDate 0 0 (-weekday)
  Date startOfWeek.Year startOfWeek.Month startOfWeek.Day 0 0 0 0 startOfWeek.Location

/-- The Go function `convertHumanDateToTypesenseDatetime`, with `currentTime`, the
reading of `time.Now()` the function makes on entry, as a parameter. -/
def convertHumanDateToTypesenseDatetime (field humanDate : String) (currentTime : Time) :
    String :=
  if humanDate = "yesterday" then
    let yesterday := currentTime.AddDate 0 0 (-1)
    generateDatetimeCondition field yesterday (yesterday.AddDate 0 0 1)
  else if humanDate = "tomorrow" then
    let tomorrow := currentTime.AddDate 0 0 1
    generateDatetimeCondition field (tomorrow.AddDate 0 0 (-1)) tomorrow
  else if humanDate = "last_week" then
    let startOfWeek := getStartOfWeek currentTime
    let endOfWeek := (startOfWeek.AddDate 0 0 7).Add (-Second)
    generateDatetimeCondition field startOfWeek endOfWeek
  else if humanDate = "next_week" then
    let startOfWeek := getStartOfWeek (currentTime.AddDate 0 0 7)
    let endOfWeek := (startOfWeek.AddDate 0 0 7).Add (-Second)
    generateDatetimeCondition field startOfWeek endOfWeek
  else if humanDate = "last_month" then
    let startOfMonth :=
      Date currentTime.Year (currentTime.Month - 1) 1 0 0 0 0 currentTime.Location
    let endOfMonth := (startOfMonth.AddDate 0 1 0).Add (-Second)
    generateDatetimeCondition field startOfMonth endOfMonth
  else if humanDate = "next_month" then
    let startOfMonth :=
      Date currentTime.Year (currentTime.Month + 1) 1 0 0 0 0 currentTime.Location
    let endOfMonth := (startOfMonth.AddDate 0 1 0).Add (-Second)
    generateDatetimeCondition field startOfMonth endOfMonth
  else if humanDate = "last_year" then
    let startOfYear := Date (currentTime.Year - 1) 1 1 0 0 0 0 currentTime.Location
    let endOfYear := (startOfYear.AddDate 1 0 0).Add (-Second)
    generateDatetimeCondition field startOfYear endOfYear
  else if humanDate = "next_year" then
    let startOfYear := Date (currentTime.Year + 1) 1 1 0 0 0 0 currentTime.Location
    let endOfYear := (startOfYear.AddDate 1 0 0).Add (-Second)
    generateDatetimeCondition field startOfYear endOfYear
  else if humanDate = "today" then
    let startOfDay :=
      Date currentTime.Year currentTime.Month currentTime.Day 0 0 0 0 currentTime.Location
    let endOfDay := (startOfDay.AddDate 0 0 1).Add (-Second)
    generateDatetimeCondition field startOfDay endOfDay
  else if humanDate = "this_week" then
    let startOfWeek := getStartOfWeek currentTime
    let endOfWeek := (startOfWeek.AddDate 0 0 7).Add (-Second)
    generateDatetimeCondition field startOfWeek endOfWeek
  else if humanDate = "this_month" then
    let startOfMonth :=
      Date currentTime.Year currentTime.Month 1 0 0 0 0 currentTime.Location
    let endOfMonth := (startOfMonth.AddDate 0 1 0).Add (-Second)
    generateDatetimeCondition field startOfMonth endOfMonth
  else if humanDate = "this_year" then
    let startOfYear := Date currentTime.Year 1 1 0 0 0 0 currentTime.Location
    let endOfYear := (startOfYear.AddDate 1 0 0).Add (-Second)
    generateDatetimeCondition field startOfYear endOfYear
  else
    ""

/-- The wall clock: the `k`-th reading of `time.Now()`, counted from 0. -/
abbrev Clock := Nat → Time

/-- The Go function `handleDateConditions`. The argument `k` counts the clock readings
made before the call, the second component of the result those made after it. -/
def handleDateConditions (clock : Clock) (filter : FilterRequest) (k : Nat) : String × Nat :=
  if filter.Operator = OperatorNoData ∨ filter.Operator = OperatorHasData then
    (filter.Field ++ ":" ++ filter.Operator, k)
  else
    let datetimeCondition :=
      convertHumanDateToTypesenseDatetime filter.Field filter.HumanDate (clock k)
    if datetimeCondition ≠ "" then (datetimeCondition, k + 1)
    else ("", k + 1)

/-- The Go function `generateCondition`; `none` is a panic. -/
def generateCondition (clock : Clock) (filter : FilterRequest) (k : Nat) :
    Option (String × Nat) :=
  if filter.Field = TextType then
    some (handleTextConditions filter, k)
  else if filter.Field = NumberType then
    match handleNumberConditions filter with
    | some condition => some (condition, k)
    | none => none
  else if filter.Field = DateType ∨ filter.Field = DateTimeType then
    some (handleDateConditions clock filter k)
  else
    some ("", k)

/-! ## The query -/

/-- The loop of `GenerateTypesenseQuery`: the conditions collected so far, extended by
the non-empty condition of each further filter. -/
def collectConditions (clock : Clock) :
    List FilterRequest → List String → Nat → Option (List String × Nat)
  | [], conditions, k => some (conditions, k)
  | filter :: rest, conditions, k =>
    match generateCondition clock filter k with
    | none => none
    | some (condition, k1) =>
      if condition ≠ "" then collectConditions clock rest (conditions ++ [condition]) k1
      else collectConditions clock rest conditions k1

/-- The Go function `GenerateTypesenseQuery`: `some q` when it returns `(q, nil)`,
`none` when it panics. -/
def GenerateTypesenseQuery (clock : Clock) (filterRequests : List FilterRequest) :
    Option String :=
  match collectConditions clock filterRequests [] 0 with
  | none => none
  | some (conditions, _) => some (stringsJoin conditions " AND ")

/-! ## Vocabulary of the specification -/

/-- The conditions `generateCondition` yields for the filters of a list, in input
order, each call starting from the clock readings its predecessors left; `none` when
one of the calls panics. -/
def perFilterConditions (clock : Clock) : List FilterRequest → Nat → Option (List String)
  | [], _ => some []
  | filter :: rest, k =>
    match generateCondition clock filter k with
    | none => none
    | some (condition, k1) => (perFilterConditions clock rest k1).map (condition :: ·)

/-- The operators the text category accepts. -/
def textOperators : List String :=
  [OperatorIs, OperatorIsNot, OperatorIn, OperatorContains, OperatorLike, OperatorNoData,
    OperatorHasData]

/-- The operators the number category accepts. -/
def numberOperators : List String := [OperatorBetween, OperatorHasData, OperatorNoData]

/-- The field categories the dispatcher recognises. -/
def fieldCategories : List String := [TextType, NumberType, DateType, DateTimeType]

/-- The twelve relative-date tokens the resolver recognises. -/
def recognisedTokens : List String :=
  ["yesterday", "tomorrow", "today", "this_week", "last_week", "next_week", "this_month",
    "last_month", "next_month", "this_year", "last_year", "next_year"]

/-- A filter that contributes nothing without consulting the date resolver: its field
category is unrecognised, or its operator is unsupported for the text or the number
category. -/
def contributesNothing (f : FilterRequest) : Prop :=
  f.Field ∉ fieldCategories ∨
    (f.Field = TextType ∧ f.Operator ∉ textOperators) ∨
    (f.Field = NumberType ∧ f.Operator ∉ numberOperators)

instance : DecidablePred contributesNothing := fun f => by
  unfold contributesNothing; infer_instance

/-- An invalid filter: unrecognised field category, operator unsupported for its
(text or number) category, or, for a date or datetime filter whose operator asks for
date resolution, an unrecognised date token. -/
def invalidFilter (f : FilterRequest) : Prop :=
  contributesNothing f ∨
    ((f.Field = DateType ∨ f.Field = DateTimeType) ∧ f.Operator ≠ OperatorNoData ∧
      f.Operator ≠ OperatorHasData ∧ f.HumanDate ∉ recognisedTokens)

instance : DecidablePred invalidFilter := fun f => by
  unfold invalidFilter; infer_instance

/-- Whether the characters are a point followed by exactly two decimal digits. -/
def isFraction2 (cs : List Char) : Bool :=
  match cs with
  | [p, d1, d2] => p = '.' && d1.isDigit && d2.isDigit
  | _ => false

/-- Whether the characters are one or more decimal digits, a point, and exactly two
decimal digits. -/
def digitsThenFraction : List Char → Bool
  | [] => false
  | c :: rest => c.isDigit && (isFraction2 rest || digitsThenFraction rest)

/-- Whether a text is a fixed-point decimal with exactly two fraction digits: an
optional minus sign, one or more integer digits, a point, two digits. -/
def isFixedPoint2 (s : String) : Bool :=
  if s.data.head? = some '-' then digitsThenFraction s.data.tail
  else digitsThenFraction s.data

/-- A number filter with a presence operator and the given value; its range is empty. -/
def numberPresence (operator : String) (value : Float64) : FilterRequest :=
  ⟨"number", operator, "", [], value, [], [], ""⟩

/-- A clock that always reads 1970-01-01T00:00:00Z. -/
def epochClock : Clock := fun _ => ⟨0, 0, UTC⟩

/-- The filter `field: text, operator: is, textValue: foo`. -/
def textIsFoo : FilterRequest := ⟨"text", "is", "foo", [], .ofNat 0, [], [], ""⟩

/-- The filter `field: date, operator: hasdata`. -/
def dateHasData : FilterRequest := ⟨"date", "hasdata", "", [], .ofNat 0, [], [], ""⟩

/-- A number filter with operator `between` and the given range. -/
def numberBetween (range : List Float64) : FilterRequest :=
  ⟨"number", "between", "", [], .ofNat 0, range, [], ""⟩

/-! ## Vocabulary of the calendar -/

/-- The number of days of a year. -/
def yearLength (year : Int) : Int := if isLeap year then 366 else 365

/-- Go's `daysIn`: the number of days of a month of a year. -/
def daysIn (year month : Int) : Int :=
  if month = 2 ∧ isLeap year then 29 else daysBefore month - daysBefore (month - 1)

/-- The zero-based day of the year of a day of a month, as `time.Date` counts it. -/
def yearDayOf (year month day : Int) : Int :=
  daysBefore (month - 1) + (if isLeap year ∧ month ≥ 3 then 1 else 0) + (day - 1)

/-- The local seconds since 0001-01-01 of a civil date and time of day. -/
def civilSeconds (y m d h mi s : Int) : Int :=
  (daysSinceEpoch y + yearDayOf y m d) * 86400 + (h * 3600 + mi * 60 + s)

/-- A location that keeps one offset from UTC at every instant (no zone transition). -/
def Location.fixedOffset (loc : Location) (off : Int) : Prop :=
  ∀ s : Int, (loc.lookup s).offset = off

/-- The invariant of Go's `Time` on the nanoseconds field. -/
def Time.validNsec (t : Time) : Prop := 0 ≤ t.nsec ∧ t.nsec < 1000000000

instance : DecidablePred Time.validNsec := fun t => by
  unfold Time.validNsec; infer_instance

/-- The text of the layout `2006-01-02T15:04:05Z07:00` for the given calendar fields and
zone offset. -/
def rfc3339 (year month day hour min sec offset : Int) : String :=
  appendInt year 4 ++ "-" ++ appendInt month 2 ++ "-" ++ appendInt day 2 ++ "T" ++
    appendInt hour 2 ++ ":" ++ appendInt min 2 ++ ":" ++ appendInt sec 2 ++
    formatZone offset

/-- The two instants `convertHumanDateToTypesenseDatetime` passes to
`generateDatetimeCondition` for a token, branch by branch as in the Go function; `none`
for a token it does not recognise. -/
def resolveInterval (humanDate : String) (currentTime : Time) : Option (Time × Time) :=
  if humanDate = "yesterday" then
    let yesterday := currentTime.AddDate 0 0 (-1)
    some (yesterday, yesterday.AddDate 0 0 1)
  else if humanDate = "tomorrow" then
    let tomorrow := currentTime.AddDate 0 0 1
    some (tomorrow.AddDate 0 0 (-1), tomorrow)
  else if humanDate = "last_week" then
    let startOfWeek := getStartOfWeek currentTime
    some (startOfWeek, (startOfWeek.AddDate 0 0 7).Add (-Second))
  else if humanDate = "next_week" then
    let startOfWeek := getStartOfWeek (currentTime.AddDate 0 0 7)
    some (startOfWeek, (startOfWeek.AddDate 0 0 7).Add (-Second))
  else if humanDate = "last_month" then
    let startOfMonth :=
      Date currentTime.Year (currentTime.Month - 1) 1 0 0 0 0 currentTime.Location
    some (startOfMonth, (startOfMonth.AddDate 0 1 0).Add (-Second))
  else if humanDate = "next_month" then
    let startOfMonth :=
      Date currentTime.Year (currentTime.Month + 1) 1 0 0 0 0 currentTime.Location
    some (startOfMonth, (startOfMonth.AddDate 0 1 0).Add (-Second))
  else if humanDate = "last_year" then
    let startOfYear := Date (currentTime.Year - 1) 1 1 0 0 0 0 currentTime.Location
    some (startOfYear, (startOfYear.AddDate 1 0 0).Add (-Second))
  else if humanDate = "next_year" then
    let startOfYear := Date (currentTime.Year + 1) 1 1 0 0 0 0 currentTime.Location
    some (startOfYear, (startOfYear.AddDate 1 0 0).Add (-Second))
  else if humanDate = "today" then
    let startOfDay :=
      Date currentTime.Year currentTime.Month currentTime.Day 0 0 0 0 currentTime.Location
    some (startOfDay, (startOfDay.AddDate 0 0 1).Add (-Second))
  else if humanDate = "this_week" then
    let startOfWeek := getStartOfWeek currentTime
    some (startOfWeek, (startOfWeek.AddDate 0 0 7).Add (-Second))
  else if humanDate = "this_month" then
    let startOfMonth :=
      Date currentTime.Year currentTime.Month 1 0 0 0 0 currentTime.Location
    some (startOfMonth, (startOfMonth.AddDate 0 1 0).Add (-Second))
  else if humanDate = "this_year" then
    let startOfYear := Date currentTime.Year 1 1 0 0 0 0 currentTime.Location
    some (startOfYear, (startOfYear.AddDate 1 0 0).Add (-Second))
  else
    none

/-- A location with one zone transition, the one the tz database records for
America/Sao_Paulo on 2018-11-04: UTC-3 before 03:00:00Z of that day, UTC-2 from then
on, so that local clocks went from 23:59:59 to 01:00:00 and the local midnight of
2018-11-04 never occurred. -/
def saoPaulo : Location :=
  ⟨fun s => if s < 1541300400 then ⟨-10800, alpha, 1541300400⟩
    else ⟨-7200, 1541300400, omega⟩⟩

/-- A location with one zone transition, the one the tz database records for
America/Asuncion on 2017-10-01: UTC-4 before 04:00:00Z of that day, UTC-3 from then
on, so that the local midnight of 2017-10-01 never occurred. -/
def asuncion : Location :=
  ⟨fun s => if s < 1506830400 then ⟨-14400, alpha, 1506830400⟩
    else ⟨-10800, 1506830400, omega⟩⟩

/-- A location with one zone transition, the one the tz database records for
Pacific/Kiritimati at the end of 1994: UTC-10 before 1994-12-31T10:00:00Z, UTC+14 from
then on, so that the local day 1994-12-31 never occurred. -/
def kiritimati : Location :=
  ⟨fun s => if s < 788868000 then ⟨-36000, alpha, 788868000⟩
    else ⟨50400, 788868000, omega⟩⟩

/-- A filter that makes the date resolver resolve a recognised token: a date or
datetime filter whose operator is neither `nodata` nor `hasdata` and whose HumanDate is
one of the 12 tokens. -/
def resolvesToken (f : FilterRequest) : Prop :=
  (f.Field = DateType ∨ f.Field = DateTimeType) ∧ f.Operator ≠ OperatorNoData ∧
    f.Operator ≠ OperatorHasData ∧ f.HumanDate ∈ recognisedTokens

instance : DecidablePred resolvesToken := fun f => by
  unfold resolvesToken; infer_instance

/-- The year and month that precede a month. -/
def prevMonth (year month : Int) : Int × Int :=
  if month = 1 then (year - 1, 12) else (year, month - 1)

/-- The year and month that follow a month. -/
def nextMonth (year month : Int) : Int × Int :=
  if month = 12 then (year + 1, 1) else (year, month + 1)

/-- The last step of `time.Date`: the instant returned for a wall-clock reading of `abs`
local seconds since 0001-01-01 in `loc`, found by looking the zone up at the reading
taken as UTC and correcting once. -/
def zoned (abs nsec : Int) (loc : Location) : Time :=
  let unix := abs - unixToInternal
  let z := loc.lookup unix
  let offset :=
    if z.offset ≠ 0 then
      let utc := unix - z.offset
      if utc < z.start ∨ utc ≥ z.stop then (loc.lookup utc).offset else z.offset
    else 0
  ⟨unix - offset, nsec, loc⟩

/-- The wall-clock reading of `c` local seconds since 0001-01-01 is clear of zone
transitions in `loc`, at the offset `off`: `off` is in force at the instant that shows
the reading, at the instant whose UTC reading it is (where `time.Date` looks the zone
up), and at every instant between the two. -/
def Location.steadyAt (loc : Location) (c off : Int) : Prop :=
  ∀ s : Int, min (c - unixToInternal - off) (c - unixToInternal) ≤ s →
    s ≤ max (c - unixToInternal - off) (c - unixToInternal) → (loc.lookup s).offset = off

/-- The wall-clock reading `c` is clear of zone transitions in `loc`, at some offset. -/
def Location.steady (loc : Location) (c : Int) : Prop := ∃ off : Int, loc.steadyAt c off

/-- The instant `t` is clear of zone transitions: its own wall-clock reading is, at the
offset in force at `t`. -/
def Time.steady (t : Time) : Prop := t.loc.steadyAt t.abs (t.loc.lookup t.unix).offset

/-- A location with two zone transitions, the ones the tz database records for
Europe/Berlin in 2024: UTC+1 before 2024-03-31T01:00:00Z, UTC+2 from then until
2024-10-27T01:00:00Z, UTC+1 from then on. -/
def berlin : Location :=
  ⟨fun s => if s < 1711846800 then ⟨3600, alpha, 1711846800⟩
    else if s < 1729990800 then ⟨7200, 1711846800, 1729990800⟩
    else ⟨3600, 1729990800, omega⟩⟩

/-- A location with one zone transition, the one the tz database records for Asia/Gaza
on 2017-10-28: UTC+3 before 2017-10-27T22:00:00Z, UTC+2 from then on, so that local
clocks went from 00:59:59 back to 00:00:00 and the local times from 00:00:00 to 00:59:59
of 2017-10-28 occurred twice. -/
def gaza : Location :=
  ⟨fun s => if s < 1509141600 then ⟨10800, alpha, 1509141600⟩
    else ⟨7200, 1509141600, omega⟩⟩

/-- The wall-clock readings, in local seconds since 0001-01-01, that the date resolver
asks `time.Date` for when it resolves a token at the instant `t`: those of the
intermediate steps, then the start of the interval and the instant that follows its end
(for `yesterday` and `tomorrow`, the neighbouring day and the way back). The list of
`last_week` is that of `this_week`, since the two branches make the same calls. -/
def readingsOf (humanDate : String) (t : Time) : List Int :=
  if humanDate = "yesterday" then [t.abs - 86400, t.abs]
  else if humanDate = "tomorrow" then [t.abs + 86400, t.abs]
  else if humanDate = "last_week" ∨ humanDate = "this_week" then
    [t.abs - 86400 * t.Weekday, (t.abs / 86400 - t.Weekday) * 86400,
      (t.abs / 86400 - t.Weekday + 7) * 86400]
  else if humanDate = "next_week" then
    [t.abs + 86400 * 7, t.abs + 86400 * 7 - 86400 * t.Weekday,
      (t.abs / 86400 - t.Weekday + 7) * 86400, (t.abs / 86400 - t.Weekday + 14) * 86400]
  else if humanDate = "last_month" then
    [civilSeconds (prevMonth t.Year t.Month).1 (prevMonth t.Year t.Month).2 1 0 0 0,
      civilSeconds t.Year t.Month 1 0 0 0]
  else if humanDate = "this_month" then
    [civilSeconds t.Year t.Month 1 0 0 0,
      civilSeconds (nextMonth t.Year t.Month).1 (nextMonth t.Year t.Month).2 1 0 0 0]
  else if humanDate = "next_month" then
    [civilSeconds (nextMonth t.Year t.Month).1 (nextMonth t.Year t.Month).2 1 0 0 0,
      civilSeconds
        (nextMonth (nextMonth t.Year t.Month).1 (nextMonth t.Year t.Month).2).1
        (nextMonth (nextMonth t.Year t.Month).1 (nextMonth t.Year t.Month).2).2 1 0 0 0]
  else if humanDate = "last_year" then
    [civilSeconds (t.Year - 1) 1 1 0 0 0, civilSeconds t.Year 1 1 0 0 0]
  else if humanDate = "this_year" then
    [civilSeconds t.Year 1 1 0 0 0, civilSeconds (t.Year + 1) 1 1 0 0 0]
  else if humanDate = "next_year" then
    [civilSeconds (t.Year + 1) 1 1 0 0 0, civilSeconds (t.Year + 2) 1 1 0 0 0]
  else if humanDate = "today" then
    [civilSeconds t.Year t.Month t.Day 0 0 0, civilSeconds t.Year t.Month (t.Day + 1) 0 0 0]
  else []

/-! ## Lemmas on the query loop -/

theorem joinRest_eq_go (sep : String) (rest : List String) (b : String) :
    joinRest sep rest b = String.intercalate.go b sep rest := by
  induction rest generalizing b with
  | nil => simp [joinRest, String.intercalate.go]
  | cons s rest ih => simp [joinRest, String.intercalate.go, ih]

theorem stringsJoin_eq_intercalate (elems : List String) (sep : String) :
    stringsJoin elems sep = sep.intercalate elems := by
  cases elems with
  | nil => rfl
  | cons e rest =>
    cases rest with
    | nil => simp [stringsJoin, String.intercalate, String.intercalate.go]
    | cons s rest => simp [stringsJoin, String.intercalate, joinRest_eq_go]

theorem collectConditions_eq (clock : Clock) (fs : List FilterRequest) (acc : List String)
    (k : Nat) :
    (collectConditions clock fs acc k).map Prod.fst =
      (perFilterConditions clock fs k).map (fun cs => acc ++ cs.filter (fun c => c ≠ "")) := by
  induction fs generalizing acc k with
  | nil => simp [collectConditions, perFilterConditions]
  | cons f rest ih =>
    simp only [collectConditions, perFilterConditions]
    cases hg : generateCondition clock f k with
    | none => simp
    | some p =>
      obtain ⟨c, k1⟩ := p
      by_cases hc : c = ""
      · simp [hc, ih, Option.map_map, Function.comp_def]
      · simp [hc, ih, Option.map_map, Function.comp_def]

theorem collectConditions_append (clock : Clock) (xs ys : List FilterRequest)
    (acc : List String) (k : Nat) :
    collectConditions clock (xs ++ ys) acc k =
      (collectConditions clock xs acc k).bind (fun p => collectConditions clock ys p.1 p.2) := by
  induction xs generalizing acc k with
  | nil => simp [collectConditions]
  | cons f rest ih =>
    simp only [List.cons_append, collectConditions]
    cases hg : generateCondition clock f k with
    | none => simp
    | some p =>
      obtain ⟨c, k1⟩ := p
      by_cases hc : c = ""
      · simp [hc, ih]
      · simp [hc, ih]

theorem GenerateTypesenseQuery_eq (clock : Clock) (fs : List FilterRequest) :
    GenerateTypesenseQuery clock fs =
      (perFilterConditions clock fs 0).map
        (fun cs => " AND ".intercalate (cs.filter (fun c => c ≠ ""))) := by
  have h := collectConditions_eq clock fs [] 0
  unfold GenerateTypesenseQuery
  cases hc : collectConditions clock fs [] 0 with
  | none =>
    rw [hc] at h
    cases hp : perFilterConditions clock fs 0 with
    | none => simp
    | some cs => rw [hp] at h; simp at h
  | some p =>
    rw [hc] at h
    cases hp : perFilterConditions clock fs 0 with
    | none => rw [hp] at h; simp at h
    | some cs =>
      rw [hp] at h
      simp at h
      simp [stringsJoin_eq_intercalate, h]

theorem generateCondition_of_contributesNothing (clock : Clock) (f : FilterRequest) (k : Nat)
    (h : contributesNothing f) : generateCondition clock f k = some ("", k) := by
  unfold contributesNothing at h
  simp only [fieldCategories, textOperators, numberOperators, List.mem_cons,
    List.mem_singleton, List.not_mem_nil, or_false, not_or] at h
  unfold generateCondition
  rcases h with h | h | h
  · simp [h.1, h.2.1, h.2.2.1, h.2.2.2]
  · simp [h.1, handleTextConditions, h.2]
  · have hne : ¬ NumberType = TextType := by decide
    simp [hne, h.1, handleNumberConditions, h.2]

theorem convert_of_unrecognised (field humanDate : String) (now : Time)
    (h : humanDate ∉ recognisedTokens) :
    convertHumanDateToTypesenseDatetime field humanDate now = "" := by
  simp only [recognisedTokens, List.mem_cons, List.mem_singleton, List.not_mem_nil,
    or_false, not_or] at h
  obtain ⟨h1, h2, h3, h4, h5, h6, h7, h8, h9, h10, h11, h12⟩ := h
  simp [convertHumanDateToTypesenseDatetime, h1, h2, h3, h4, h5, h6, h7, h8, h9, h10, h11, h12]

theorem handleDateConditions_of_unrecognised (clock : Clock) (f : FilterRequest) (k : Nat)
    (ho1 : f.Operator ≠ OperatorNoData) (ho2 : f.Operator ≠ OperatorHasData)
    (h : f.HumanDate ∉ recognisedTokens) :
    handleDateConditions clock f k = ("", k + 1) := by
  simp [handleDateConditions, ho1, ho2, convert_of_unrecognised f.Field f.HumanDate (clock k) h]

theorem generateCondition_of_invalid (clock : Clock) (f : FilterRequest) (k : Nat)
    (h : invalidFilter f) : ∃ k1, generateCondition clock f k = some ("", k1) := by
  rcases h with h | ⟨hf, ho1, ho2, ht⟩
  · exact ⟨k, generateCondition_of_contributesNothing clock f k h⟩
  · refine ⟨k + 1, ?_⟩
    have h1 : ¬ f.Field = TextType := by rcases hf with hf | hf <;> rw [hf] <;> decide
    have h2 : ¬ f.Field = NumberType := by rcases hf with hf | hf <;> rw [hf] <;> decide
    simp only [generateCondition, h1, h2, hf, if_true, if_false,
      handleDateConditions_of_unrecognised clock f k ho1 ho2 ht]

theorem collectConditions_of_invalid (clock : Clock) (fs : List FilterRequest)
    (h : ∀ f ∈ fs, invalidFilter f) (acc : List String) (k : Nat) :
    ∃ k1, collectConditions clock fs acc k = some (acc, k1) := by
  induction fs generalizing k with
  | nil => exact ⟨k, rfl⟩
  | cons f rest ih =>
    obtain ⟨k1, hk1⟩ := generateCondition_of_invalid clock f k (h f (List.mem_cons_self f rest))
    obtain ⟨k2, hk2⟩ := ih (fun g hg => h g (List.mem_cons_of_mem f hg)) k1
    exact ⟨k2, by simp [collectConditions, hk1, hk2]⟩

/-! ## Lemmas on fixed-point texts -/

theorem digitChar_isDigit : ∀ d : Nat, d < 10 → (Nat.digitChar d).isDigit = true := by
  decide

theorem toDigitsCore_digits (fuel n : Nat) (ds : List Char)
    (h : ∀ c ∈ ds, c.isDigit = true) :
    ∀ c ∈ Nat.toDigitsCore 10 fuel n ds, c.isDigit = true := by
  induction fuel generalizing n ds with
  | zero => simpa [Nat.toDigitsCore] using h
  | succ fuel ih =>
    have hd : (Nat.digitChar (n % 10)).isDigit = true :=
      digitChar_isDigit _ (Nat.mod_lt _ (by decide))
    have h2 : ∀ c ∈ Nat.digitChar (n % 10) :: ds, c.isDigit = true := by
      intro c hc
      rcases List.mem_cons.mp hc with hc | hc
      · rw [hc]; exact hd
      · exact h c hc
    simp only [Nat.toDigitsCore]
    split
    · exact h2
    · exact ih _ _ h2

theorem toDigitsCore_ne_nil (fuel n : Nat) (ds : List Char) (h : ds ≠ [] ∨ 0 < fuel) :
    Nat.toDigitsCore 10 fuel n ds ≠ [] := by
  induction fuel generalizing n ds with
  | zero =>
    rcases h with h | h
    · simpa [Nat.toDigitsCore] using h
    · omega
  | succ fuel ih =>
    simp only [Nat.toDigitsCore]
    split
    · simp
    · exact ih _ _ (Or.inl (by simp))

theorem repr_digits (n : Nat) : ∀ c ∈ (Nat.repr n).data, c.isDigit = true := by
  simp only [Nat.repr, Nat.toDigits]
  exact toDigitsCore_digits _ _ _ (by simp)

theorem repr_ne_nil (n : Nat) : (Nat.repr n).data ≠ [] := by
  simp only [Nat.repr, Nat.toDigits]
  exact toDigitsCore_ne_nil _ _ _ (Or.inr (by omega))

theorem digitsThenFraction_append (ds : List Char) (d1 d2 : Char) (hne : ds ≠ [])
    (hds : ∀ c ∈ ds, c.isDigit = true) (h1 : d1.isDigit = true) (h2 : d2.isDigit = true) :
    digitsThenFraction (ds ++ ['.', d1, d2]) = true := by
  induction ds with
  | nil => exact absurd rfl hne
  | cons c rest ih =>
    have hc : c.isDigit = true := hds c (List.mem_cons_self c rest)
    cases rest with
    | nil => simp [digitsThenFraction, isFraction2, hc, h1, h2]
    | cons c2 rest2 =>
      have := ih (by simp) (fun x hx => hds x (List.mem_cons_of_mem c hx))
      simp only [List.cons_append, digitsThenFraction, hc, Bool.true_and, Bool.or_eq_true]
      right
      simpa [digitsThenFraction] using this

theorem digitsThenFraction_head (cs : List Char) (h : digitsThenFraction cs = true) :
    ∃ c rest, cs = c :: rest ∧ c.isDigit = true := by
  cases cs with
  | nil => simp [digitsThenFraction] at h
  | cons c rest =>
    simp only [digitsThenFraction, Bool.and_eq_true] at h
    exact ⟨c, rest, rfl, h.1⟩

theorem fixed2_data (q : Nat) :
    digitsThenFraction (fixed2 q).data = true := by
  have h := digitsThenFraction_append (Nat.repr (q / 100)).data
    (Nat.digitChar (q % 100 / 10 % 10)) (Nat.digitChar (q % 100 % 10)) (repr_ne_nil _)
    (repr_digits _) (digitChar_isDigit _ (Nat.mod_lt _ (by decide)))
    (digitChar_isDigit _ (Nat.mod_lt _ (by decide)))
  simpa [fixed2, pad2] using h

theorem isFixedPoint2_fmtFloat2 (x : Float64) (h : x.isFinite = true) :
    isFixedPoint2 (fmtFloat2 x) = true := by
  cases x with
  | nan => simp [Float64.isFinite] at h
  | inf neg => simp [Float64.isFinite] at h
  | finite neg mant exp =>
    have hq := fixed2_data (hundredths mant exp)
    obtain ⟨c, rest, hc, hd⟩ := digitsThenFraction_head _ hq
    cases neg with
    | true => simpa [fmtFloat2, isFixedPoint2] using hq
    | false =>
      have hne : c ≠ '-' := by
        intro hc2
        rw [hc2] at hd
        exact absurd hd (by decide)
      simp only [fmtFloat2, isFixedPoint2, Bool.false_eq_true, if_false, String.data_append]
      rw [List.nil_append, hc]
      simp only [List.head?_cons, Option.some.injEq, hne, if_false]
      rw [← hc]; exact hq

theorem Time.Add_loc (t : Time) (d : Int) : (t.Add d).loc = t.loc := by
  simp only [Time.Add]
  split_ifs <;> rfl

theorem Date_loc (y m d h mi sc n : Int) (loc : Location) :
    (Date y m d h mi sc n loc).loc = loc := rfl

theorem Time.AddDate_loc (t : Time) (y m d : Int) : (t.AddDate y m d).loc = t.loc := rfl

theorem getStartOfWeek_loc (t : Time) : (getStartOfWeek t).loc = t.loc := rfl

theorem convert_of_recognised (field token : String) (now : Time)
    (h : token ∈ recognisedTokens) :
    ∃ start stop : Time, start.loc = now.loc ∧ stop.loc = now.loc ∧
      convertHumanDateToTypesenseDatetime field token now =
        generateDatetimeCondition field start stop := by
  simp only [recognisedTokens, List.mem_cons, List.mem_singleton, List.not_mem_nil,
    or_false] at h
  rcases h with h | h | h | h | h | h | h | h | h | h | h | h
  all_goals
    subst h
    refine ⟨_, _, ?_, ?_, rfl⟩
    all_goals
      simp only [Time.Add_loc, Time.AddDate_loc, Date_loc, getStartOfWeek_loc, Time.Location]

theorem generateCondition_date (clock : Clock) (f : FilterRequest) (k : Nat)
    (hf : f.Field = DateType ∨ f.Field = DateTimeType)
    (ho1 : f.Operator ≠ OperatorNoData) (ho2 : f.Operator ≠ OperatorHasData) :
    generateCondition clock f k =
      some (convertHumanDateToTypesenseDatetime f.Field f.HumanDate (clock k), k + 1) := by
  have h1 : ¬ f.Field = TextType := by rcases hf with hf | hf <;> rw [hf] <;> decide
  have h2 : ¬ f.Field = NumberType := by rcases hf with hf | hf <;> rw [hf] <;> decide
  simp only [generateCondition, h1, h2, hf, if_true, if_false, handleDateConditions, ho1, ho2,
    or_self]
  by_cases hc : convertHumanDateToTypesenseDatetime f.Field f.HumanDate (clock k) = ""
  · simp [hc]
  · simp [hc]

/-! ## The aggregator and the dispatcher -/

/-- C1: for every list of filters, `GenerateTypesenseQuery` returns exactly the non-empty
per-filter conditions (the results of `generateCondition`), in input order, joined by the
separator `" AND "` (and panics exactly when one of the per-filter calls does); for two
filters A and B whose conditions are both non-empty, the output for `[A, B]` is
condition(A), then `" AND "`, then condition(B). -/
theorem C1_query_joins_nonempty_conditions (clock : Clock) :
    (∀ fs : List FilterRequest,
      GenerateTypesenseQuery clock fs =
        (perFilterConditions clock fs 0).map
          (fun cs => " AND ".intercalate (cs.filter (fun c => c ≠ "")))) ∧
    (∀ (A B : FilterRequest) (cA cB : String) (kA kB : Nat),
      generateCondition clock A 0 = some (cA, kA) →
      generateCondition clock B kA = some (cB, kB) →
      cA ≠ "" → cB ≠ "" →
      GenerateTypesenseQuery clock [A, B] = some (cA ++ " AND " ++ cB)) := by
  refine ⟨GenerateTypesenseQuery_eq clock, ?_⟩
  intro A B cA cB kA kB hA hB hcA hcB
  simp [GenerateTypesenseQuery, collectConditions, hA, hB, hcA, hcB, stringsJoin, joinRest]

/-- Witness of C1: a text filter followed by a date-presence filter. -/
theorem C1_query_joins_nonempty_conditions_witness :
    GenerateTypesenseQuery epochClock [textIsFoo, dateHasData] =
      some "text:is:foo AND date:hasdata" :=
  (C1_query_joins_nonempty_conditions epochClock).2 textIsFoo dateHasData
    "text:is:foo" "date:hasdata" 0 0 (by decide) (by decide) (by decide) (by decide)

/-- C2, evaluated on the code: a number filter with operator `between` whose range has
fewer than two elements makes the whole call panic (no string is returned, and the
filters around it are not rendered), and a range of three elements is rendered from its
first two. -/
theorem C2_malformed_range_panics (clock : Clock) :
    GenerateTypesenseQuery clock [numberBetween []] = none ∧
    GenerateTypesenseQuery clock [textIsFoo, numberBetween [.ofNat 1], dateHasData] = none ∧
    GenerateTypesenseQuery clock [numberBetween [.ofNat 1, .ofNat 5, .ofNat 9]] =
      some "number:between:[1.00,5.00]" := by
  refine ⟨rfl, rfl, ?_⟩
  rfl

/-- C3: for every list of filters (the empty list included) in which every filter is
invalid (unrecognised field category, operator not supported for its category, or
unrecognised date token), `GenerateTypesenseQuery` returns the empty string. -/
theorem C3_all_invalid_gives_empty (clock : Clock) (fs : List FilterRequest)
    (h : ∀ f ∈ fs, invalidFilter f) : GenerateTypesenseQuery clock fs = some "" := by
  obtain ⟨k1, hk1⟩ := collectConditions_of_invalid clock fs h [] 0
  simp [GenerateTypesenseQuery, hk1, stringsJoin]

/-- Witness of C3: one filter of each invalid kind (unknown category, unsupported text
operator, unsupported number operator, unrecognised date token). -/
theorem C3_all_invalid_gives_empty_witness :
    GenerateTypesenseQuery epochClock
      [⟨"boolean", "is", "x", [], .ofNat 0, [], [], ""⟩,
       ⟨"text", "between", "x", [], .ofNat 0, [], [], ""⟩,
       ⟨"number", "is", "", [], .ofNat 1, [], [], ""⟩,
       ⟨"date", "is", "", [], .ofNat 0, [], [], "next_decade"⟩] = some "" ∧
    GenerateTypesenseQuery epochClock [] = some "" :=
  ⟨C3_all_invalid_gives_empty epochClock _ (by decide),
    C3_all_invalid_gives_empty epochClock [] (by decide)⟩

/-- C4: a filter that contributes nothing (unrecognised field category, or unsupported
operator for the text or number category) does not short-circuit the rest: removing it
from anywhere in the list leaves the result of `GenerateTypesenseQuery` unchanged. -/
theorem C4_empty_contribution_is_skipped (clock : Clock) (xs ys : List FilterRequest)
    (f : FilterRequest) (h : contributesNothing f) :
    GenerateTypesenseQuery clock (xs ++ [f] ++ ys) = GenerateTypesenseQuery clock (xs ++ ys) := by
  have hf : ∀ acc k, collectConditions clock (f :: ys) acc k = collectConditions clock ys acc k := by
    intro acc k
    simp [collectConditions, generateCondition_of_contributesNothing clock f k h]
  unfold GenerateTypesenseQuery
  rw [List.append_assoc, collectConditions_append, collectConditions_append]
  simp only [List.singleton_append, hf]

/-- Witness of C4: a filter of unknown category between two rendered filters. -/
theorem C4_empty_contribution_is_skipped_witness :
    GenerateTypesenseQuery epochClock
        ([textIsFoo] ++ [⟨"boolean", "is", "x", [], .ofNat 0, [], [], ""⟩] ++ [dateHasData]) =
      GenerateTypesenseQuery epochClock ([textIsFoo] ++ [dateHasData]) :=
  C4_empty_contribution_is_skipped epochClock [textIsFoo] [dateHasData] _ (by decide)

/-! ## The text formatter -/

/-- C5: for every filter with Field `text` and Operator one of is, isnot, in, contains,
like, nodata, hasdata, the condition is exactly `"text:" ++ Operator ++ ":" ++ TextValue`,
with TextValue verbatim and whatever TextArray and the other fields are; for every other
operator the condition is empty. -/
theorem C5_text_condition (clock : Clock) (filter : FilterRequest) (k : Nat)
    (hf : filter.Field = TextType) :
    (filter.Operator ∈ textOperators →
      generateCondition clock filter k =
        some ("text:" ++ filter.Operator ++ ":" ++ filter.TextValue, k)) ∧
    (filter.Operator ∉ textOperators → generateCondition clock filter k = some ("", k)) ∧
    (∀ (clock2 : Clock) (g : FilterRequest) (k2 : Nat),
      g.Field = TextType → g.Operator = filter.Operator → g.TextValue = filter.TextValue →
      (generateCondition clock2 g k2).map Prod.fst =
        (generateCondition clock filter k).map Prod.fst) := by
  have key : ∀ (c : Clock) (g : FilterRequest) (j : Nat), g.Field = TextType →
      generateCondition c g j = some (handleTextConditions g, j) := by
    intro c g j hg
    simp [generateCondition, hg]
  refine ⟨?_, ?_, ?_⟩
  · intro ho
    rw [key clock filter k hf]
    simp only [textOperators, List.mem_cons, List.mem_singleton, List.not_mem_nil,
      or_false] at ho
    have hs : TextType ++ ":" = "text:" := rfl
    simp [handleTextConditions, ho, hf, hs]
  · intro ho
    rw [key clock filter k hf]
    simp only [textOperators, List.mem_cons, List.mem_singleton, List.not_mem_nil,
      or_false] at ho
    simp [handleTextConditions, ho]
  · intro clock2 g k2 hg hgo hgt
    rw [key clock filter k hf, key clock2 g k2 hg]
    simp [handleTextConditions, hg, hgo, hgt, hf]

/-- Witness of C5: operator `is` with text value `foo` gives `text:is:foo`, and the
operator `between` gives the empty condition. -/
theorem C5_text_condition_witness :
    generateCondition epochClock textIsFoo 0 = some ("text:is:foo", 0) ∧
    generateCondition epochClock ⟨"text", "between", "foo", [], .ofNat 0, [], [], ""⟩ 0 =
      some ("", 0) :=
  ⟨(C5_text_condition epochClock textIsFoo 0 rfl).1 (by decide),
    (C5_text_condition epochClock ⟨"text", "between", "foo", [], .ofNat 0, [], [], ""⟩ 0
      rfl).2.1 (by decide)⟩

/-! ## The number formatter -/

/-- C6: for every filter with Field `number`, Operator `between` and a 2-element
NumberRange `[low, high]`, the condition is
`"number:between:[" ++ low ++ "," ++ high ++ "]"` with each bound rendered by `%.2f`,
which for a finite bound (the numbers the specification admits) is a fixed-point decimal
with exactly two fraction digits. -/
theorem C6_between_condition (clock : Clock) (filter : FilterRequest) (low high : Float64)
    (k : Nat) (hf : filter.Field = NumberType) (ho : filter.Operator = OperatorBetween)
    (hr : filter.NumberRange = [low, high]) :
    generateCondition clock filter k =
      some ("number:between:[" ++ fmtFloat2 low ++ "," ++ fmtFloat2 high ++ "]", k) ∧
    (∀ x ∈ [low, high], x.isFinite = true → isFixedPoint2 (fmtFloat2 x) = true) := by
  refine ⟨?_, fun x _ hx => isFixedPoint2_fmtFloat2 x hx⟩
  have hne : ¬ NumberType = TextType := by decide
  have hs : NumberType ++ ":" ++ OperatorBetween ++ ":[" = "number:between:[" := rfl
  simp [generateCondition, hf, hne, handleNumberConditions, ho, hr, hs]

/-- Witness of C6: the range `[1, 5]` gives `number:between:[1.00,5.00]`, and the text
of the finite bound 5 is a fixed-point decimal with two fraction digits. -/
theorem C6_between_condition_witness :
    generateCondition epochClock (numberBetween [.ofNat 1, .ofNat 5]) 0 =
      some ("number:between:[1.00,5.00]", 0) ∧
    isFixedPoint2 (fmtFloat2 (.ofNat 5)) = true :=
  ⟨(C6_between_condition epochClock (numberBetween [.ofNat 1, .ofNat 5]) (.ofNat 1) (.ofNat 5)
      0 rfl rfl rfl).1,
    (C6_between_condition epochClock (numberBetween [.ofNat 1, .ofNat 5]) (.ofNat 1) (.ofNat 5)
      0 rfl rfl rfl).2 (.ofNat 5) (by decide) rfl⟩

/-- C7: for every filter with Field `number` and Operator `hasdata` or `nodata`, the
condition is the direct concatenation Field ++ Operator ++ NumberValue with no separators
and NumberValue rendered by `%.2f`, which for a finite value (the numbers the
specification admits) has exactly two fraction digits, and NumberRange is not read; for
every operator other than between, hasdata, nodata the condition is empty. -/
theorem C7_number_presence_condition (clock : Clock) (filter : FilterRequest) (k : Nat)
    (hf : filter.Field = NumberType) :
    (filter.Operator = OperatorHasData ∨ filter.Operator = OperatorNoData →
      generateCondition clock filter k =
        some ("number" ++ filter.Operator ++ fmtFloat2 filter.NumberValue, k) ∧
      (filter.NumberValue.isFinite = true →
        isFixedPoint2 (fmtFloat2 filter.NumberValue) = true) ∧
      (∀ range : List Float64,
        generateCondition clock { filter with NumberRange := range } k =
          generateCondition clock filter k)) ∧
    (filter.Operator ∉ numberOperators → generateCondition clock filter k = some ("", k)) := by
  have hne : ¬ NumberType = TextType := by decide
  refine ⟨?_, ?_⟩
  · intro ho
    have hb : ¬ filter.Operator = OperatorBetween := by
      rcases ho with ho | ho <;> rw [ho] <;> decide
    refine ⟨?_, isFixedPoint2_fmtFloat2 _, ?_⟩
    · simp [generateCondition, hf, hne, handleNumberConditions, ho, hb]
    · intro range
      simp [generateCondition, hf, hne, handleNumberConditions, ho, hb]
  · intro ho
    simp only [numberOperators, List.mem_cons, List.mem_singleton, List.not_mem_nil,
      or_false] at ho
    simp [generateCondition, hf, hne, handleNumberConditions, ho]

/-- Witness of C7: NumberValue 3 with `hasdata` gives `numberhasdata3.00` although the
range is empty, the text of 3 has two fraction digits, and the operator `is` gives the
empty condition. -/
theorem C7_number_presence_condition_witness :
    generateCondition epochClock (numberPresence "hasdata" (.ofNat 3)) 0 =
      some ("numberhasdata3.00", 0) ∧
    isFixedPoint2 (fmtFloat2 (.ofNat 3)) = true ∧
    generateCondition epochClock (numberPresence "is" (.ofNat 3)) 0 = some ("", 0) :=
  ⟨((C7_number_presence_condition epochClock (numberPresence "hasdata" (.ofNat 3)) 0 rfl).1
      (Or.inl rfl)).1,
    ((C7_number_presence_condition epochClock (numberPresence "hasdata" (.ofNat 3)) 0 rfl).1
      (Or.inl rfl)).2.1 rfl,
    (C7_number_presence_condition epochClock (numberPresence "is" (.ofNat 3)) 0 rfl).2
      (by decide)⟩

/-! ## The date formatter -/

/-- C8: for every filter with Field `date` or `datetime` and Operator `nodata` or
`hasdata`, the condition is exactly Field ++ ":" ++ Operator with no value, whatever
HumanDate and the current time are; the clock is not read. -/
theorem C8_date_presence_condition (clock : Clock) (filter : FilterRequest) (k : Nat)
    (hf : filter.Field = DateType ∨ filter.Field = DateTimeType)
    (ho : filter.Operator = OperatorNoData ∨ filter.Operator = OperatorHasData) :
    generateCondition clock filter k = some (filter.Field ++ ":" ++ filter.Operator, k) := by
  have h1 : ¬ filter.Field = TextType := by rcases hf with hf | hf <;> rw [hf] <;> decide
  have h2 : ¬ filter.Field = NumberType := by rcases hf with hf | hf <;> rw [hf] <;> decide
  simp only [generateCondition, h1, h2, hf, if_true, if_false, handleDateConditions, ho]

/-- Witness of C8: field `date` with operator `hasdata` gives `date:hasdata`. -/
theorem C8_date_presence_condition_witness :
    generateCondition epochClock dateHasData 0 = some ("date:hasdata", 0) :=
  C8_date_presence_condition epochClock dateHasData 0 (Or.inl rfl) (Or.inr rfl)

/-- C9: for every filter with Field `date` or `datetime` and any Operator other than
`nodata` and `hasdata`, the condition equals the Date Resolver's result for
(Field, HumanDate, now), where now is the one clock reading the call makes: it does not
depend on the Operator value, and it has the form
Field ++ ":>=:" ++ start ++ " AND " ++ Field ++ ":<=:" ++ end, with start and end two
instants in the location of now rendered by RFC 3339, whenever HumanDate is one of the 12
recognised tokens. -/
theorem C9_date_condition_is_resolver_result (clock : Clock) (filter : FilterRequest)
    (k : Nat) (hf : filter.Field = DateType ∨ filter.Field = DateTimeType)
    (ho1 : filter.Operator ≠ OperatorNoData) (ho2 : filter.Operator ≠ OperatorHasData) :
    generateCondition clock filter k =
      some (convertHumanDateToTypesenseDatetime filter.Field filter.HumanDate (clock k),
        k + 1) ∧
    (∀ operator : String, operator ≠ OperatorNoData → operator ≠ OperatorHasData →
      generateCondition clock { filter with Operator := operator } k =
        generateCondition clock filter k) ∧
    (filter.HumanDate ∈ recognisedTokens →
      ∃ start stop : Time,
        start.loc = (clock k).loc ∧ stop.loc = (clock k).loc ∧
        convertHumanDateToTypesenseDatetime filter.Field filter.HumanDate (clock k) =
          filter.Field ++ ":>=:" ++ start.FormatRFC3339 ++ " AND " ++ filter.Field ++ ":<=:" ++
            stop.FormatRFC3339) := by
  refine ⟨generateCondition_date clock filter k hf ho1 ho2, ?_, ?_⟩
  · intro operator h1 h2
    rw [generateCondition_date clock filter k hf ho1 ho2,
      generateCondition_date clock { filter with Operator := operator } k hf h1 h2]
  · intro ht
    obtain ⟨start, stop, h1, h2, h3⟩ :=
      convert_of_recognised filter.Field filter.HumanDate (clock k) ht
    exact ⟨start, stop, h1, h2, h3⟩

/-- Witness of C9: a `datetime` filter with the operator `is` and the token `today`, at
1970-01-01T00:00:00Z. -/
theorem C9_date_condition_is_resolver_result_witness :
    generateCondition epochClock ⟨"datetime", "is", "", [], .ofNat 0, [], [], "today"⟩ 0 =
      some (convertHumanDateToTypesenseDatetime "datetime" "today" (epochClock 0), 1) :=
  (C9_date_condition_is_resolver_result epochClock
    ⟨"datetime", "is", "", [], .ofNat 0, [], [], "today"⟩ 0 (Or.inr rfl)
    (by decide) (by decide)).1

/-- C10: for every field and every HumanDate token that is not one of the 12 recognised
tokens, the Date Resolver returns the empty string for every now, and a date or datetime
filter with such a token and an operator other than nodata and hasdata contributes
nothing: its condition is empty and the loop goes on with the conditions it had. -/
theorem C10_unrecognised_token_contributes_nothing (humanDate : String)
    (h : humanDate ∉ recognisedTokens) :
    (∀ (field : String) (now : Time),
      convertHumanDateToTypesenseDatetime field humanDate now = "") ∧
    (∀ (clock : Clock) (filter : FilterRequest) (k : Nat),
      filter.Field = DateType ∨ filter.Field = DateTimeType →
      filter.HumanDate = humanDate →
      filter.Operator ≠ OperatorNoData → filter.Operator ≠ OperatorHasData →
      generateCondition clock filter k = some ("", k + 1) ∧
      GenerateTypesenseQuery clock [filter] = some "" ∧
      ∀ (rest : List FilterRequest) (conditions : List String),
        collectConditions clock (filter :: rest) conditions k =
          collectConditions clock rest conditions (k + 1)) := by
  refine ⟨fun field now => convert_of_unrecognised field humanDate now h, ?_⟩
  intro clock filter k hf hh ho1 ho2
  have hg : ∀ j, generateCondition clock filter j = some ("", j + 1) := by
    intro j
    rw [generateCondition_date clock filter j hf ho1 ho2, hh,
      convert_of_unrecognised filter.Field humanDate (clock j) h]
  refine ⟨hg k, ?_, ?_⟩
  · simp [GenerateTypesenseQuery, collectConditions, hg 0, stringsJoin]
  · intro rest conditions
    simp [collectConditions, hg k]

/-- Witness of C10: the token `next_decade` on a `date` filter with the operator `is`. -/
theorem C10_unrecognised_token_contributes_nothing_witness :
    convertHumanDateToTypesenseDatetime "date" "next_decade" (epochClock 0) = "" ∧
    generateCondition epochClock ⟨"date", "is", "", [], .ofNat 0, [], [], "next_decade"⟩ 0 =
      some ("", 1) :=
  ⟨(C10_unrecognised_token_contributes_nothing "next_decade" (by decide)).1 "date"
      (epochClock 0),
    ((C10_unrecognised_token_contributes_nothing "next_decade" (by decide)).2 epochClock
      ⟨"date", "is", "", [], .ofNat 0, [], [], "next_decade"⟩ 0 (Or.inl rfl) rfl
      (by decide) (by decide)).1⟩

/-! ## Lemmas on the calendar -/

theorem isLeap_iff (year : Int) :
    isLeap year = true ↔ (year % 4 = 0 ∧ (year % 100 ≠ 0 ∨ year % 400 = 0)) := by
  simp [isLeap]

theorem daysSinceEpoch_decomp (q b c e : Int) (hb : 0 ≤ b ∧ b ≤ 3) (hc : 0 ≤ c ∧ c ≤ 24)
    (he : 0 ≤ e ∧ e ≤ 3) :
    daysSinceEpoch (400 * q + 100 * b + 4 * c + e + 1) =
      146097 * q + 36524 * b + 1461 * c + 365 * e := by
  have h1 : (400 * q + 100 * b + 4 * c + e + 1 - 1) / 400 = q := by omega
  have h2 : (400 * q + 100 * b + 4 * c + e + 1 - 1 - 400 * q) / 100 = b := by omega
  have h3 : (400 * q + 100 * b + 4 * c + e + 1 - 1 - 400 * q - 100 * b) / 4 = c := by omega
  simp only [daysSinceEpoch, daysPer400Years, daysPer100Years, daysPer4Years, h1, h2, h3]
  omega

theorem isLeap_decomp (q b c e : Int) (hb : 0 ≤ b ∧ b ≤ 3) (hc : 0 ≤ c ∧ c ≤ 24)
    (he : 0 ≤ e ∧ e ≤ 3) :
    isLeap (400 * q + 100 * b + 4 * c + e + 1) = true ↔ (e = 3 ∧ (c ≠ 24 ∨ b = 3)) := by
  rw [isLeap_iff]
  omega

theorem yearDay_decomp (d : Int) :
    ∃ q b c e k : Int, 0 ≤ b ∧ b ≤ 3 ∧ 0 ≤ c ∧ c ≤ 24 ∧ 0 ≤ e ∧ e ≤ 3 ∧ 0 ≤ k ∧
      (k < 365 ∨ (k = 365 ∧ e = 3 ∧ (c ≠ 24 ∨ b = 3))) ∧
      d = 146097 * q + 36524 * b + 1461 * c + 365 * e + k ∧
      absYearDay (d * 86400) = (400 * q + 100 * b + 4 * c + e + 1, k) := by
  have hd : d * 86400 / 86400 = d := by omega
  simp only [absYearDay, secondsPerDay, daysPer400Years, daysPer100Years, daysPer4Years, hd]
  generalize hq : d / 146097 = q
  have hd1 : 0 ≤ d - 146097 * q ∧ d - 146097 * q < 146097 := by omega
  have hdq : d = 146097 * q + (d - 146097 * q) := by omega
  generalize d - 146097 * q = d1 at hd1 hdq ⊢
  clear hq
  generalize hr : d1 / 36524 = r
  have hr5 : r = 0 ∨ r = 1 ∨ r = 2 ∨ r = 3 ∨ r = 4 := by omega
  obtain ⟨b, hb, hbr, hd2⟩ : ∃ b : Int, (0 ≤ b ∧ b ≤ 3) ∧ r - r / 4 = b ∧
      (0 ≤ d1 - 36524 * b ∧ (d1 - 36524 * b < 36524 ∨ (d1 - 36524 * b = 36524 ∧ b = 3))) := by
    rcases hr5 with h | h | h | h | h <;> subst h
    · exact ⟨0, by omega, by omega, by omega⟩
    · exact ⟨1, by omega, by omega, by omega⟩
    · exact ⟨2, by omega, by omega, by omega⟩
    · exact ⟨3, by omega, by omega, by omega⟩
    · exact ⟨3, by omega, by omega, by omega⟩
  rw [hbr]
  have hd12 : d1 = 36524 * b + (d1 - 36524 * b) := by omega
  generalize d1 - 36524 * b = d2 at hd2 hd12 ⊢
  generalize hc : d2 / 1461 = c
  have hc' : 0 ≤ c ∧ c ≤ 24 := by omega
  have hd3 : 0 ≤ d2 - 1461 * c ∧ d2 - 1461 * c ≤ 1460 ∧
      (d2 - 1461 * c = 1460 → c ≠ 24 ∨ b = 3) := by omega
  have hd23 : d2 = 1461 * c + (d2 - 1461 * c) := by omega
  generalize d2 - 1461 * c = d3 at hd3 hd23 ⊢
  generalize hr2 : d3 / 365 = r2
  have hr25 : r2 = 0 ∨ r2 = 1 ∨ r2 = 2 ∨ r2 = 3 ∨ r2 = 4 := by omega
  obtain ⟨e, he, her, hd4⟩ : ∃ e : Int, (0 ≤ e ∧ e ≤ 3) ∧ r2 - r2 / 4 = e ∧
      (0 ≤ d3 - 365 * e ∧ (d3 - 365 * e < 365 ∨ (d3 - 365 * e = 365 ∧ e = 3 ∧ d3 = 1460))) := by
    rcases hr25 with h | h | h | h | h <;> subst h
    · exact ⟨0, by omega, by omega, by omega⟩
    · exact ⟨1, by omega, by omega, by omega⟩
    · exact ⟨2, by omega, by omega, by omega⟩
    · exact ⟨3, by omega, by omega, by omega⟩
    · exact ⟨3, by omega, by omega, by omega⟩
  rw [her]
  refine ⟨q, b, c, e, d3 - 365 * e, hb.1, hb.2, hc'.1, hc'.2, he.1, he.2, hd4.1, ?_, ?_, rfl⟩
  · rcases hd4.2 with h | ⟨h1, h2, h3⟩
    · exact Or.inl h
    · exact Or.inr ⟨h1, h2, hd3.2.2 h3⟩
  · omega

theorem absYearDay_days (abs : Int) :
    absYearDay abs = absYearDay (abs / 86400 * 86400) := by
  have h : abs / 86400 * 86400 / 86400 = abs / 86400 := by omega
  simp only [absYearDay, secondsPerDay, h]

theorem year_decomp (Y : Int) :
    ∃ q b c e : Int, 0 ≤ b ∧ b ≤ 3 ∧ 0 ≤ c ∧ c ≤ 24 ∧ 0 ≤ e ∧ e ≤ 3 ∧
      Y = 400 * q + 100 * b + 4 * c + e + 1 :=
  ⟨(Y - 1) / 400, (Y - 1) % 400 / 100, (Y - 1) % 100 / 4, (Y - 1) % 4,
    by omega, by omega, by omega, by omega, by omega, by omega, by omega⟩

theorem decomp_bounds (b c e k : Int)
    (hb : 0 ≤ b ∧ b ≤ 3) (hc : 0 ≤ c ∧ c ≤ 24) (he : 0 ≤ e ∧ e ≤ 3) (hk : 0 ≤ k)
    (hkl : k < 365 ∨ (k = 365 ∧ e = 3 ∧ (c ≠ 24 ∨ b = 3))) :
    (365 * e + k ≤ 1459 ∨ (365 * e + k = 1460 ∧ (c ≠ 24 ∨ b = 3))) ∧
    (1461 * c + 365 * e + k ≤ 36523 ∨ (1461 * c + 365 * e + k = 36524 ∧ b = 3)) ∧
    36524 * b + 1461 * c + 365 * e + k ≤ 146096 := by
  rcases hkl with h | ⟨h1, h2, h3 | h3⟩
  · refine ⟨Or.inl (by omega), Or.inl (by omega), by omega⟩
  · refine ⟨Or.inr ⟨by omega, Or.inl h3⟩, Or.inl (by omega), by omega⟩
  · refine ⟨Or.inr ⟨by omega, Or.inr h3⟩, by omega, by omega⟩

theorem decomp_unique (q b c e k q' b' c' e' k' : Int)
    (hb : 0 ≤ b ∧ b ≤ 3) (hc : 0 ≤ c ∧ c ≤ 24) (he : 0 ≤ e ∧ e ≤ 3) (hk : 0 ≤ k)
    (hkl : k < 365 ∨ (k = 365 ∧ e = 3 ∧ (c ≠ 24 ∨ b = 3)))
    (hb' : 0 ≤ b' ∧ b' ≤ 3) (hc' : 0 ≤ c' ∧ c' ≤ 24) (he' : 0 ≤ e' ∧ e' ≤ 3) (hk' : 0 ≤ k')
    (hkl' : k' < 365 ∨ (k' = 365 ∧ e' = 3 ∧ (c' ≠ 24 ∨ b' = 3)))
    (h : 146097 * q + 36524 * b + 1461 * c + 365 * e + k =
      146097 * q' + 36524 * b' + 1461 * c' + 365 * e' + k') :
    q = q' ∧ b = b' ∧ c = c' ∧ e = e' ∧ k = k' := by
  obtain ⟨h1, h2, h3⟩ := decomp_bounds b c e k hb hc he hk hkl
  obtain ⟨h1', h2', h3'⟩ := decomp_bounds b' c' e' k' hb' hc' he' hk' hkl'
  have hq : q = q' := by clear h1 h2 h1' h2' hkl hkl'; omega
  subst hq
  have hb : b = b' := by clear h1 h1' h3 h3' hkl hkl'; omega
  subst hb
  have hc : c = c' := by clear h2 h2' h3 h3' hkl hkl'; omega
  subst hc
  have he : e = e' := by clear h2 h2' h3 h3' h1 h1'; omega
  subst he
  exact ⟨rfl, rfl, rfl, rfl, by omega⟩

theorem absYearDay_of_yearDay (Y k : Int) (hk : 0 ≤ k) (hk2 : k < yearLength Y) :
    absYearDay ((daysSinceEpoch Y + k) * 86400) = (Y, k) := by
  obtain ⟨q, b, c, e, hb1, hb2, hc1, hc2, he1, he2, hY⟩ := year_decomp Y
  subst hY
  have hleap := isLeap_decomp q b c e ⟨hb1, hb2⟩ ⟨hc1, hc2⟩ ⟨he1, he2⟩
  have hds := daysSinceEpoch_decomp q b c e ⟨hb1, hb2⟩ ⟨hc1, hc2⟩ ⟨he1, he2⟩
  have hkl : k < 365 ∨ (k = 365 ∧ e = 3 ∧ (c ≠ 24 ∨ b = 3)) := by
    unfold yearLength at hk2
    by_cases hl : isLeap (400 * q + 100 * b + 4 * c + e + 1) = true
    · rw [if_pos hl] at hk2
      have := hleap.mp hl
      clear hleap hds hl
      omega
    · rw [if_neg hl] at hk2
      exact Or.inl hk2
  rw [hds]
  obtain ⟨q', b', c', e', k', hb1', hb2', hc1', hc2', he1', he2', hk', hkk, hd, habs⟩ :=
    yearDay_decomp (146097 * q + 36524 * b + 1461 * c + 365 * e + k)
  obtain ⟨h1, h2, h3, h4, h5⟩ := decomp_unique q b c e k q' b' c' e' k' ⟨hb1, hb2⟩ ⟨hc1, hc2⟩
    ⟨he1, he2⟩ hk hkl ⟨hb1', hb2'⟩ ⟨hc1', hc2'⟩ ⟨he1', he2'⟩ hk' hkk hd
  rw [habs, h1, h2, h3, h4, h5]

theorem daysBefore_vals :
    daysBefore 0 = 0 ∧ daysBefore 1 = 31 ∧ daysBefore 2 = 59 ∧ daysBefore 3 = 90 ∧
    daysBefore 4 = 120 ∧ daysBefore 5 = 151 ∧ daysBefore 6 = 181 ∧ daysBefore 7 = 212 ∧
    daysBefore 8 = 243 ∧ daysBefore 9 = 273 ∧ daysBefore 10 = 304 ∧ daysBefore 11 = 334 ∧
    daysBefore 12 = 365 := by
  refine ⟨rfl, rfl, rfl, rfl, rfl, rfl, rfl, rfl, rfl, rfl, rfl, rfl, rfl⟩

theorem monthOfDay_exists (day : Int) (h0 : 0 ≤ day) (h1 : day < 365) :
    ∃ m dd : Int,
      (if day ≥ daysBefore (day / 31 + 1) then
          (day / 31 + 2, day - daysBefore (day / 31 + 1) + 1)
        else (day / 31 + 1, day - daysBefore (day / 31) + 1)) = (m, dd) ∧
      1 ≤ m ∧ m ≤ 12 ∧ 1 ≤ dd ∧ daysBefore (m - 1) + dd - 1 = day ∧
      daysBefore (m - 1) + dd ≤ daysBefore m := by
  obtain ⟨v0, v1, v2, v3, v4, v5, v6, v7, v8, v9, v10, v11, v12⟩ := daysBefore_vals
  have hm : day / 31 = 0 ∨ day / 31 = 1 ∨ day / 31 = 2 ∨ day / 31 = 3 ∨ day / 31 = 4 ∨
      day / 31 = 5 ∨ day / 31 = 6 ∨ day / 31 = 7 ∨ day / 31 = 8 ∨ day / 31 = 9 ∨
      day / 31 = 10 ∨ day / 31 = 11 := by omega
  rcases hm with h | h | h | h | h | h | h | h | h | h | h | h <;>
    rw [h] <;> norm_num only [v0, v1, v2, v3, v4, v5, v6, v7, v8, v9, v10, v11, v12] <;>
    split_ifs <;>
    refine ⟨_, _, rfl, ?_, ?_, ?_, ?_, ?_⟩ <;>
    norm_num only [v0, v1, v2, v3, v4, v5, v6, v7, v8, v9, v10, v11, v12] <;> omega

theorem daysBefore_eq (m : Int) (h0 : 0 ≤ m) (h12 : m ≤ 12) :
    daysBefore m = (367 * (m + 1) - 362) / 12 - (if 2 ≤ m then 2 else 0) := by
  obtain ⟨v0, v1, v2, v3, v4, v5, v6, v7, v8, v9, v10, v11, v12⟩ := daysBefore_vals
  have hm : m = 0 ∨ m = 1 ∨ m = 2 ∨ m = 3 ∨ m = 4 ∨ m = 5 ∨ m = 6 ∨ m = 7 ∨ m = 8 ∨
      m = 9 ∨ m = 10 ∨ m = 11 ∨ m = 12 := by omega
  rcases hm with h | h | h | h | h | h | h | h | h | h | h | h | h <;> subst h <;>
    norm_num only [v0, v1, v2, v3, v4, v5, v6, v7, v8, v9, v10, v11, v12] <;> rfl

theorem monthDay_exists (y yd : Int) (h0 : 0 ≤ yd) (h1 : yd < yearLength y) :
    ∃ m dd : Int, monthDay y yd = (m, dd) ∧ 1 ≤ m ∧ m ≤ 12 ∧ 1 ≤ dd ∧ dd ≤ daysIn y m ∧
      yearDayOf y m dd = yd := by
  unfold yearLength at h1
  unfold monthDay daysIn yearDayOf
  generalize isLeap y = L at h1 ⊢
  cases L
  · simp only [Bool.false_eq_true, false_and, and_false, if_false] at h1 ⊢
    obtain ⟨m, dd, h, hm1, hm2, hd1, hd2, hd3⟩ := monthOfDay_exists yd h0 h1
    exact ⟨m, dd, h, hm1, hm2, hd1, by omega, by omega⟩
  · simp only [if_true, true_and, and_true] at h1 ⊢
    by_cases h59 : yd = 31 + 29 - 1
    · subst h59
      refine ⟨2, 29, by simp, by omega, by omega, by omega, by simp, ?_⟩
      have := daysBefore_vals.2.1
      norm_num [this]
    · rw [if_neg h59]
      by_cases hgt : yd > 31 + 29 - 1
      · rw [if_pos hgt]
        obtain ⟨m, dd, h, hm1, hm2, hd1, hd2, hd3⟩ :=
          monthOfDay_exists (yd - 1) (by omega) (by omega)
        have e1 := daysBefore_eq (m - 1) (by omega) (by omega)
        have e2 := daysBefore_eq m (by omega) (by omega)
        have hm3 : 3 ≤ m := by
          by_contra hc
          split_ifs at e1 e2 <;> omega
        refine ⟨m, dd, h, hm1, hm2, hd1, ?_, ?_⟩
        · rw [if_neg (by omega)]; omega
        · rw [if_pos hm3]; omega
      · rw [if_neg hgt]
        obtain ⟨m, dd, h, hm1, hm2, hd1, hd2, hd3⟩ :=
          monthOfDay_exists yd (by omega) (by omega)
        have e1 := daysBefore_eq (m - 1) (by omega) (by omega)
        have e2 := daysBefore_eq m (by omega) (by omega)
        have hm3 : m ≤ 2 := by
          by_contra hc
          split_ifs at e1 e2 <;> omega
        refine ⟨m, dd, h, hm1, hm2, hd1, ?_, ?_⟩
        · split_ifs <;> omega
        · rw [if_neg (by omega)]; omega

theorem yearDayOf_range (y m d : Int) (hm1 : 1 ≤ m) (hm2 : m ≤ 12) (hd1 : 1 ≤ d)
    (hd2 : d ≤ daysIn y m) : 0 ≤ yearDayOf y m d ∧ yearDayOf y m d < yearLength y := by
  unfold daysIn at hd2
  unfold yearDayOf yearLength
  have e1 := daysBefore_eq (m - 1) (by omega) (by omega)
  have e2 := daysBefore_eq m (by omega) (by omega)
  generalize isLeap y = L at hd2 ⊢
  cases L <;> simp only [Bool.false_eq_true, and_false, false_and, if_false, if_true, and_true,
    true_and] at hd2 ⊢ <;> split_ifs at e1 e2 hd2 ⊢ <;> omega

theorem yearDayOf_inj (y m d m' d' : Int) (hm1 : 1 ≤ m) (hm2 : m ≤ 12) (hd1 : 1 ≤ d)
    (hd2 : d ≤ daysIn y m) (hm1' : 1 ≤ m') (hm2' : m' ≤ 12) (hd1' : 1 ≤ d')
    (hd2' : d' ≤ daysIn y m') (h : yearDayOf y m d = yearDayOf y m' d') :
    m = m' ∧ d = d' := by
  unfold daysIn at hd2 hd2'
  unfold yearDayOf at h
  have e1 := daysBefore_eq (m - 1) (by omega) (by omega)
  have e2 := daysBefore_eq m (by omega) (by omega)
  have e1' := daysBefore_eq (m' - 1) (by omega) (by omega)
  have e2' := daysBefore_eq m' (by omega) (by omega)
  generalize isLeap y = L at hd2 hd2' h
  have hmm : m = m' := by
    cases L <;> simp only [Bool.false_eq_true, and_false, false_and, if_false, if_true,
      and_true, true_and] at hd2 hd2' h <;> split_ifs at e1 e2 e1' e2' hd2 hd2' h <;> omega
  subst hmm
  exact ⟨rfl, by omega⟩

theorem monthDay_of_valid (y m d : Int) (hm1 : 1 ≤ m) (hm2 : m ≤ 12) (hd1 : 1 ≤ d)
    (hd2 : d ≤ daysIn y m) : monthDay y (yearDayOf y m d) = (m, d) := by
  obtain ⟨h0, h1⟩ := yearDayOf_range y m d hm1 hm2 hd1 hd2
  obtain ⟨m', d', h, hm1', hm2', hd1', hd2', he⟩ := monthDay_exists y (yearDayOf y m d) h0 h1
  obtain ⟨h1, h2⟩ := yearDayOf_inj y m' d' m d hm1' hm2' hd1' hd2' hm1 hm2 hd1 hd2 he
  rw [h, h1, h2]

theorem norm_of_range (hi lo base : Int) (h0 : 0 ≤ lo) (h1 : lo < base) :
    norm hi lo base = (hi, lo) := by
  have h2 : ¬ lo < 0 := by omega
  have h3 : ¬ lo ≥ base := by omega
  simp [norm, h2, h3]

theorem norm_month (y m : Int) (h0 : 0 ≤ m) (h1 : m ≤ 13) :
    norm y (m - 1) 12 =
      if m = 0 then (y - 1, 11) else if m = 13 then (y + 1, 0) else (y, m - 1) := by
  have hm : m = 0 ∨ m = 13 ∨ (1 ≤ m ∧ m ≤ 12) := by omega
  rcases hm with h | h | h
  · subst h; simp [norm]
  · subst h; simp [norm]
  · rw [if_neg (by omega), if_neg (by omega)]
    exact norm_of_range y (m - 1) 12 (by omega) (by omega)

theorem absYearDay_spec (abs : Int) :
    daysSinceEpoch (absYearDay abs).1 + (absYearDay abs).2 = abs / 86400 ∧
      0 ≤ (absYearDay abs).2 ∧ (absYearDay abs).2 < yearLength (absYearDay abs).1 := by
  obtain ⟨q, b, c, e, k, hb1, hb2, hc1, hc2, he1, he2, hk, hkk, hd, habs⟩ :=
    yearDay_decomp (abs / 86400)
  rw [absYearDay_days abs, habs]
  have hleap := isLeap_decomp q b c e ⟨hb1, hb2⟩ ⟨hc1, hc2⟩ ⟨he1, he2⟩
  have hds := daysSinceEpoch_decomp q b c e ⟨hb1, hb2⟩ ⟨hc1, hc2⟩ ⟨he1, he2⟩
  refine ⟨?_, hk, ?_⟩
  · simp only [hds]; omega
  · simp only [yearLength]
    by_cases hl : isLeap (400 * q + 100 * b + 4 * c + e + 1) = true
    · rw [if_pos hl]
      have := hleap.mp hl
      clear hleap hds hl habs hd
      omega
    · rw [if_neg hl]
      rcases hkk with h | ⟨_, h2, h3⟩
      · exact h
      · exact absurd (hleap.mpr ⟨h2, h3⟩) hl

theorem Time.fields_days (t : Time) :
    1 ≤ t.Month ∧ t.Month ≤ 12 ∧ 1 ≤ t.Day ∧ t.Day ≤ daysIn t.Year t.Month ∧
      daysSinceEpoch t.Year + yearDayOf t.Year t.Month t.Day = t.abs / 86400 := by
  obtain ⟨h1, h2, h3⟩ := absYearDay_spec t.abs
  obtain ⟨m, dd, h, hm1, hm2, hd1, hd2, he⟩ :=
    monthDay_exists (absYearDay t.abs).1 (absYearDay t.abs).2 h2 h3
  simp only [Time.Month, Time.Day, Time.Year, h]
  exact ⟨hm1, hm2, hd1, hd2, by rw [he]; exact h1⟩

theorem Time.fields_clock (t : Time) :
    0 ≤ t.Hour ∧ t.Hour < 24 ∧ 0 ≤ t.Minute ∧ t.Minute < 60 ∧ 0 ≤ t.Sec ∧ t.Sec < 60 ∧
      t.Hour * 3600 + t.Minute * 60 + t.Sec = t.abs % 86400 := by
  simp only [Time.Hour, Time.Minute, Time.Sec, secondsPerDay, secondsPerHour,
    secondsPerMinute]
  omega

theorem Time.civil_fields (t : Time) :
    civilSeconds t.Year t.Month t.Day t.Hour t.Minute t.Sec = t.abs := by
  obtain ⟨_, _, _, _, h1⟩ := t.fields_days
  obtain ⟨_, _, _, _, _, _, h2⟩ := t.fields_clock
  simp only [civilSeconds, h1]
  omega

theorem civilSeconds_add_days (y m d k h mi s : Int) :
    civilSeconds y m (d + k) h mi s = civilSeconds y m d h mi s + 86400 * k := by
  simp only [civilSeconds, yearDayOf]
  ring

theorem fields_of_civil (t : Time) (Y M d h mi s : Int) (hM : 1 ≤ M ∧ M ≤ 12)
    (hd : 1 ≤ d ∧ d ≤ daysIn Y M) (hh : 0 ≤ h ∧ h < 24) (hmi : 0 ≤ mi ∧ mi < 60)
    (hs : 0 ≤ s ∧ s < 60) (habs : t.abs = civilSeconds Y M d h mi s) :
    t.Year = Y ∧ t.Month = M ∧ t.Day = d ∧ t.Hour = h ∧ t.Minute = mi ∧ t.Sec = s := by
  obtain ⟨r0, r1⟩ := yearDayOf_range Y M d hM.1 hM.2 hd.1 hd.2
  have hday : t.abs / 86400 * 86400 = (daysSinceEpoch Y + yearDayOf Y M d) * 86400 := by
    rw [habs]; simp only [civilSeconds]; omega
  have hy : absYearDay t.abs = (Y, yearDayOf Y M d) := by
    rw [absYearDay_days, hday]
    exact absYearDay_of_yearDay Y _ r0 r1
  have hmd := monthDay_of_valid Y M d hM.1 hM.2 hd.1 hd.2
  refine ⟨?_, ?_, ?_, ?_, ?_, ?_⟩
  · simp only [Time.Year, hy]
  · simp only [Time.Month, hy, hmd]
  · simp only [Time.Day, hy, hmd]
  · simp only [Time.Hour, habs, civilSeconds, secondsPerDay, secondsPerHour]; omega
  · simp only [Time.Minute, habs, civilSeconds, secondsPerHour, secondsPerMinute]; omega
  · simp only [Time.Sec, habs, civilSeconds, secondsPerMinute]; omega

theorem daysSinceEpoch_succ (Y : Int) :
    daysSinceEpoch (Y + 1) = daysSinceEpoch Y + yearLength Y := by
  obtain ⟨q, b, c, e, hb1, hb2, hc1, hc2, he1, he2, hY⟩ := year_decomp Y
  subst hY
  have hleap := isLeap_decomp q b c e ⟨hb1, hb2⟩ ⟨hc1, hc2⟩ ⟨he1, he2⟩
  have hds := daysSinceEpoch_decomp q b c e ⟨hb1, hb2⟩ ⟨hc1, hc2⟩ ⟨he1, he2⟩
  rw [hds]
  unfold yearLength
  by_cases h1 : e < 3
  · have := daysSinceEpoch_decomp q b c (e + 1) ⟨hb1, hb2⟩ ⟨hc1, hc2⟩ (by omega)
    have e2 : 400 * q + 100 * b + 4 * c + e + 1 + 1 = 400 * q + 100 * b + 4 * c + (e + 1) + 1 := by
      omega
    rw [e2, this, if_neg (by rw [hleap]; omega)]
    omega
  · have he3 : e = 3 := by omega
    subst he3
    by_cases h2 : c < 24
    · have := daysSinceEpoch_decomp q b (c + 1) 0 ⟨hb1, hb2⟩ (by omega) (by omega)
      have e2 : 400 * q + 100 * b + 4 * c + 3 + 1 + 1 = 400 * q + 100 * b + 4 * (c + 1) + 0 + 1 := by
        omega
      rw [e2, this, if_pos (by rw [hleap]; omega)]
      omega
    · have hc3 : c = 24 := by omega
      subst hc3
      by_cases h3 : b < 3
      · have := daysSinceEpoch_decomp q (b + 1) 0 0 (by omega) (by omega) (by omega)
        have e2 : 400 * q + 100 * b + 4 * 24 + 3 + 1 + 1 =
            400 * q + 100 * (b + 1) + 4 * 0 + 0 + 1 := by omega
        rw [e2, this, if_neg (by rw [hleap]; omega)]
        omega
      · have hb3 : b = 3 := by omega
        subst hb3
        have := daysSinceEpoch_decomp (q + 1) 0 0 0 (by omega) (by omega) (by omega)
        have e2 : 400 * q + 100 * 3 + 4 * 24 + 3 + 1 + 1 =
            400 * (q + 1) + 100 * 0 + 4 * 0 + 0 + 1 := by omega
        rw [e2, this, if_pos (by rw [hleap]; omega)]
        omega

theorem daysIn_range (Y M : Int) (hM : 1 ≤ M ∧ M ≤ 12) : 28 ≤ daysIn Y M ∧ daysIn Y M ≤ 31 := by
  unfold daysIn
  have e1 := daysBefore_eq (M - 1) (by omega) (by omega)
  have e2 := daysBefore_eq M (by omega) (by omega)
  split_ifs at e1 e2 ⊢ <;> omega

theorem daysIn_december (Y : Int) : daysIn Y 12 = 31 := by
  have h : ¬ ((12 : Int) = 2 ∧ isLeap Y = true) := by omega
  simp only [daysIn, if_neg h]
  rfl

theorem daysIn_table (Y M : Int) (hM : 1 ≤ M ∧ M ≤ 12) :
    daysIn Y M =
      if M = 2 then (if isLeap Y then 29 else 28)
      else if M = 4 ∨ M = 6 ∨ M = 9 ∨ M = 11 then 30 else 31 := by
  obtain ⟨v0, v1, v2, v3, v4, v5, v6, v7, v8, v9, v10, v11, v12⟩ := daysBefore_vals
  unfold daysIn
  have hm : M = 1 ∨ M = 2 ∨ M = 3 ∨ M = 4 ∨ M = 5 ∨ M = 6 ∨ M = 7 ∨ M = 8 ∨
      M = 9 ∨ M = 10 ∨ M = 11 ∨ M = 12 := by omega
  generalize isLeap Y = L
  rcases hm with h | h | h | h | h | h | h | h | h | h | h | h <;> subst h <;>
    cases L <;>
    norm_num only [v0, v1, v2, v3, v4, v5, v6, v7, v8, v9, v10, v11, v12] <;> simp

theorem yearLength_range (Y : Int) : 365 ≤ yearLength Y ∧ yearLength Y ≤ 366 := by
  unfold yearLength
  split_ifs <;> omega

theorem Date_month_13 (y d h mi s n : Int) (loc : Location) :
    Date y 13 d h mi s n loc = Date (y + 1) 1 d h mi s n loc := by
  have e1 : norm y (13 - 1) 12 = (y + 1, 0) := by simp [norm]
  have e2 : norm (y + 1) (1 - 1) 12 = (y + 1, 0) := by simp [norm]
  simp only [Date, e1, e2]

theorem Date_month_0 (y d h mi s n : Int) (loc : Location) :
    Date y 0 d h mi s n loc = Date (y - 1) 12 d h mi s n loc := by
  have e1 : norm y (0 - 1) 12 = (y - 1, 11) := by simp [norm]
  have e2 : norm (y - 1) (12 - 1) 12 = (y - 1, 11) := by simp [norm]
  simp only [Date, e1, e2]

theorem Date_prev_month (Y M d h mi s n : Int) (loc : Location) :
    Date Y (M - 1) d h mi s n loc =
      Date (prevMonth Y M).1 (prevMonth Y M).2 d h mi s n loc := by
  unfold prevMonth
  by_cases h1 : M = 1
  · subst h1
    rw [if_pos rfl]
    exact Date_month_0 Y d h mi s n loc
  · rw [if_neg h1]

theorem Date_next_month (Y M d h mi s n : Int) (loc : Location) :
    Date Y (M + 1) d h mi s n loc =
      Date (nextMonth Y M).1 (nextMonth Y M).2 d h mi s n loc := by
  unfold nextMonth
  by_cases h1 : M = 12
  · subst h1
    rw [if_pos rfl]
    exact Date_month_13 Y d h mi s n loc
  · rw [if_neg h1]

theorem civilSeconds_next_month (Y M : Int) (hM : 1 ≤ M ∧ M ≤ 11) :
    civilSeconds Y (M + 1) 1 0 0 0 = civilSeconds Y M 1 0 0 0 + daysIn Y M * 86400 := by
  simp only [civilSeconds, yearDayOf, daysIn]
  have e1 := daysBefore_eq (M - 1) (by omega) (by omega)
  have e2 := daysBefore_eq M (by omega) (by omega)
  have e3 : M + 1 - 1 = M := by omega
  rw [e3]
  generalize isLeap Y = L
  cases L <;> simp only [Bool.false_eq_true, and_false, false_and, if_false, if_true,
    and_true, true_and] <;> split_ifs at e1 e2 ⊢ <;> omega

theorem civilSeconds_next_year (Y : Int) :
    civilSeconds (Y + 1) 1 1 0 0 0 = civilSeconds Y 1 1 0 0 0 + yearLength Y * 86400 ∧
    civilSeconds (Y + 1) 1 1 0 0 0 = civilSeconds Y 12 1 0 0 0 + daysIn Y 12 * 86400 ∧
    civilSeconds (Y + 1) 1 1 0 0 0 = civilSeconds Y 12 31 23 59 59 + 1 := by
  obtain ⟨v0, v1, v2, v3, v4, v5, v6, v7, v8, v9, v10, v11, v12⟩ := daysBefore_vals
  have hs := daysSinceEpoch_succ Y
  simp only [civilSeconds, yearDayOf, daysIn, hs, yearLength]
  norm_num only [v0, v11, v12]
  generalize isLeap Y = L
  generalize daysSinceEpoch Y = D
  cases L <;> simp <;> omega

theorem prevMonth_range (Y M : Int) (hM : 1 ≤ M ∧ M ≤ 12) :
    1 ≤ (prevMonth Y M).2 ∧ (prevMonth Y M).2 ≤ 12 ∧
      civilSeconds (prevMonth Y M).1 (prevMonth Y M).2 1 0 0 0 +
        daysIn (prevMonth Y M).1 (prevMonth Y M).2 * 86400 = civilSeconds Y M 1 0 0 0 := by
  unfold prevMonth
  by_cases h1 : M = 1
  · subst h1
    simp only [if_true]
    have := (civilSeconds_next_year (Y - 1)).2.1
    have e : Y - 1 + 1 = Y := by omega
    rw [e] at this
    exact ⟨by omega, by omega, this.symm⟩
  · simp only [if_neg h1]
    have := civilSeconds_next_month Y (M - 1) (by omega)
    have e : M - 1 + 1 = M := by omega
    rw [e] at this
    exact ⟨by omega, by omega, this.symm⟩

theorem nextMonth_range (Y M : Int) (hM : 1 ≤ M ∧ M ≤ 12) :
    1 ≤ (nextMonth Y M).2 ∧ (nextMonth Y M).2 ≤ 12 ∧
      civilSeconds Y M 1 0 0 0 + daysIn Y M * 86400 =
        civilSeconds (nextMonth Y M).1 (nextMonth Y M).2 1 0 0 0 := by
  unfold nextMonth
  by_cases h1 : M = 12
  · subst h1
    simp only [if_true]
    exact ⟨by omega, by omega, (civilSeconds_next_year Y).2.1.symm⟩
  · simp only [if_neg h1]
    exact ⟨by omega, by omega, (civilSeconds_next_month Y M (by omega)).symm⟩

theorem civilSeconds_last_second (Y M : Int) :
    civilSeconds Y M 1 0 0 0 + daysIn Y M * 86400 - 1 =
      civilSeconds Y M (daysIn Y M) 23 59 59 := by
  simp only [civilSeconds, yearDayOf]
  ring

theorem civilSeconds_first_of_month (t : Time) :
    civilSeconds t.Year t.Month 1 0 0 0 = (t.abs / 86400 - (t.Day - 1)) * 86400 := by
  obtain ⟨_, _, _, _, h⟩ := t.fields_days
  rw [← h]
  simp only [civilSeconds, yearDayOf]
  ring

theorem civilSeconds_first_of_year (t : Time) :
    ∃ yd : Int, 0 ≤ yd ∧ yd < yearLength t.Year ∧
      civilSeconds t.Year 1 1 0 0 0 = (t.abs / 86400 - yd) * 86400 := by
  obtain ⟨h1, h2, h3⟩ := absYearDay_spec t.abs
  refine ⟨(absYearDay t.abs).2, h2, h3, ?_⟩
  rw [← h1]
  have hv : daysBefore 0 = 0 := daysBefore_vals.1
  have hi : ¬ (isLeap (absYearDay t.abs).1 = true ∧ (1 : Int) ≥ 3) := by omega
  simp only [civilSeconds, yearDayOf, Time.Year, sub_self, hv]
  rw [if_neg hi]
  ring

theorem civilSeconds_day_start (u : Time) :
    civilSeconds u.Year u.Month u.Day 0 0 0 = u.abs / 86400 * 86400 := by
  obtain ⟨_, _, _, _, hd⟩ := u.fields_days
  simp only [civilSeconds, hd]
  omega

theorem civilSeconds_month_lt (Y M : Int) (hM : 1 ≤ M ∧ M ≤ 12) :
    civilSeconds Y M 1 0 0 0 < civilSeconds (nextMonth Y M).1 (nextMonth Y M).2 1 0 0 0 := by
  obtain ⟨_, _, n3⟩ := nextMonth_range Y M hM
  have := daysIn_range Y M hM
  omega

theorem civilSeconds_year_lt (Y : Int) :
    civilSeconds Y 1 1 0 0 0 < civilSeconds (Y + 1) 1 1 0 0 0 := by
  have := (civilSeconds_next_year Y).1
  have := yearLength_range Y
  omega

theorem Time.Weekday_range (t : Time) :
    0 ≤ t.Weekday ∧ t.Weekday ≤ 6 ∧ (t.abs / 86400 - t.Weekday + 1) % 7 = 0 := by
  simp only [Time.Weekday, secondsPerDay, secondsPerWeek]
  omega

theorem abs_clock_shift (k : Int) (t u : Time) (ha : u.abs = t.abs + 86400 * k) :
    u.Hour = t.Hour ∧ u.Minute = t.Minute ∧ u.Sec = t.Sec := by
  refine ⟨?_, ?_, ?_⟩
  · simp only [Time.Hour, ha, secondsPerDay, secondsPerHour]; omega
  · simp only [Time.Minute, ha, secondsPerHour, secondsPerMinute]; omega
  · simp only [Time.Sec, ha, secondsPerMinute]; omega

/-! ## Lemmas on instants and zone transitions -/

theorem Date_zoned (y m d h mi s n : Int) (loc : Location) (hm : 1 ≤ m ∧ m ≤ 12)
    (hh : 0 ≤ h ∧ h < 24) (hmi : 0 ≤ mi ∧ mi < 60) (hs : 0 ≤ s ∧ s < 60)
    (hn : 0 ≤ n ∧ n < 1000000000) :
    Date y m d h mi s n loc = zoned (civilSeconds y m d h mi s) n loc := by
  have e1 : norm y (m - 1) 12 = (y, m - 1) := norm_of_range _ _ _ (by omega) (by omega)
  have e2 : norm s n 1000000000 = (s, n) := norm_of_range _ _ _ hn.1 hn.2
  have e3 : norm mi s 60 = (mi, s) := norm_of_range _ _ _ hs.1 hs.2
  have e4 : norm h mi 60 = (h, mi) := norm_of_range _ _ _ hmi.1 hmi.2
  have e5 : norm d h 24 = (d, h) := norm_of_range _ _ _ hh.1 hh.2
  have hsub : m - 1 + 1 = m := by omega
  have hc : (daysSinceEpoch y + daysBefore (m - 1) + (if isLeap y = true ∧ m ≥ 3 then 1 else 0) +
      (d - 1)) * 86400 + (h * 3600 + mi * 60 + s) = civilSeconds y m d h mi s := by
    simp only [civilSeconds, yearDayOf]
    ring
  simp only [Date, e1, e2, e3, e4, e5, zoned, secondsPerDay, secondsPerHour, secondsPerMinute,
    hsub, hc]

theorem steadyAt_offset (loc : Location) (c off : Int) (h : loc.steadyAt c off) :
    (loc.lookup (c - unixToInternal - off)).offset = off ∧
      (loc.lookup (c - unixToInternal)).offset = off :=
  ⟨h _ (min_le_left _ _) (le_max_left _ _), h _ (min_le_right _ _) (le_max_right _ _)⟩

theorem zoned_of_steadyAt (loc : Location) (c off n : Int) (h : loc.steadyAt c off) :
    zoned c n loc = ⟨c - unixToInternal - off, n, loc⟩ := by
  obtain ⟨h1, h2⟩ := steadyAt_offset loc c off h
  simp only [zoned, h2, h1]
  by_cases h0 : off = 0
  · simp [h0]
  · simp [h0]

theorem abs_of_steadyAt (loc : Location) (c off n : Int) (h : loc.steadyAt c off) :
    (⟨c - unixToInternal - off, n, loc⟩ : Time).abs = c := by
  simp only [Time.abs, (steadyAt_offset loc c off h).1]
  omega

theorem steadyAt_of_fixedOffset (loc : Location) (c off : Int) (h : loc.fixedOffset off) :
    loc.steadyAt c off := fun s _ _ => h s

theorem fixedOffset_FixedZone (off : Int) : (FixedZone off).fixedOffset off := fun _ => rfl

theorem steadyAt_unique (loc : Location) (c o1 o2 : Int) (h1 : loc.steadyAt c o1)
    (h2 : loc.steadyAt c o2) : o1 = o2 :=
  (steadyAt_offset loc c o1 h1).2.symm.trans (steadyAt_offset loc c o2 h2).2

theorem steadyAt_lt (loc : Location) (c1 o1 c2 o2 : Int) (h1 : loc.steadyAt c1 o1)
    (h2 : loc.steadyAt c2 o2) (hc : c1 < c2) : c1 - o1 < c2 - o2 := by
  by_cases ho : o1 = o2
  · omega
  · by_contra hlt
    have key : ∀ s : Int,
        (min (c1 - unixToInternal - o1) (c1 - unixToInternal) ≤ s ∧
          s ≤ max (c1 - unixToInternal - o1) (c1 - unixToInternal)) →
        (min (c2 - unixToInternal - o2) (c2 - unixToInternal) ≤ s ∧
          s ≤ max (c2 - unixToInternal - o2) (c2 - unixToInternal)) → False :=
      fun s a b => ho ((h1 s a.1 a.2).symm.trans (h2 s b.1 b.2))
    by_cases hp : 0 ≤ o1
    · exact key (c1 - unixToInternal - o1) (by constructor <;> omega) (by constructor <;> omega)
    · by_cases hq : c1 - unixToInternal ≤ c2 - unixToInternal - o2
      · exact key (c2 - unixToInternal - o2) (by constructor <;> omega)
          (by constructor <;> omega)
      · exact key (c1 - unixToInternal) (by constructor <;> omega) (by constructor <;> omega)

theorem steadyAt_le (loc : Location) (c1 o1 c2 o2 : Int) (h1 : loc.steadyAt c1 o1)
    (h2 : loc.steadyAt c2 o2) (hc : c1 ≤ c2) : c1 - o1 ≤ c2 - o2 := by
  by_cases he : c1 = c2
  · subst he
    have := steadyAt_unique loc c1 o1 o2 h1 h2
    omega
  · have := steadyAt_lt loc c1 o1 c2 o2 h1 h2 (by omega)
    omega

theorem Time.steady_unix (t : Time) :
    t.abs - unixToInternal - (t.loc.lookup t.unix).offset = t.unix := by
  simp only [Time.abs]
  omega

theorem steady_of_steadyAt (t : Time) (off : Int) (ho : (t.loc.lookup t.unix).offset = off)
    (h : t.loc.steadyAt t.abs off) : t.steady := by
  unfold Time.steady
  rw [ho]
  exact h

theorem zoned_steady (t : Time) (hs : t.steady) : zoned t.abs t.nsec t.loc = t := by
  rw [zoned_of_steadyAt _ _ _ _ hs, t.steady_unix]

theorem berlin_steadyAt (c : Int) :
    (c - unixToInternal < 1711846800 → berlin.steadyAt c 3600) ∧
    (1711846800 + 7200 ≤ c - unixToInternal ∧ c - unixToInternal < 1729990800 →
      berlin.steadyAt c 7200) ∧
    (1729990800 + 3600 ≤ c - unixToInternal → berlin.steadyAt c 3600) := by
  refine ⟨?_, ?_, ?_⟩
  · intro h s h1 h2
    have : s < 1711846800 := by omega
    simp only [berlin, this, if_true]
  · intro h s h1 h2
    have a : ¬ s < 1711846800 := by omega
    have b : s < 1729990800 := by omega
    simp only [berlin, a, b, if_true, if_false]
  · intro h s h1 h2
    have a : ¬ s < 1711846800 := by omega
    have b : ¬ s < 1729990800 := by omega
    simp only [berlin, a, b, if_false]

theorem Time.Add_neg_second (t : Time) (hn : t.validNsec) :
    t.Add (-Second) = ⟨t.unix - 1, t.nsec, t.loc⟩ := by
  obtain ⟨h0, h1⟩ := hn
  have e1 : Int.tdiv (-Second) 1000000000 = -1 := by decide
  have e2 : Int.tmod (-Second) 1000000000 = 0 := by decide
  have h2 : ¬ t.nsec + 0 ≥ 1000000000 := by omega
  have h3 : ¬ t.nsec + 0 < 0 := by omega
  simp only [Time.Add, e1, e2, if_neg h2, if_neg h3]
  congr 1
  omega

theorem validNsec_zero (u : Int) (loc : Location) : (⟨u, 0, loc⟩ : Time).validNsec :=
  ⟨le_refl 0, by norm_num⟩

theorem Add_neg_second_zero (u : Int) (loc : Location) :
    (⟨u, 0, loc⟩ : Time).Add (-Second) = ⟨u - 1, 0, loc⟩ :=
  Time.Add_neg_second _ (validNsec_zero u loc)

theorem Add_neg_second_unix (t : Time) (hn : t.validNsec) :
    (t.Add (-Second)).unix = t.unix - 1 ∧ (t.Add (-Second)).nsec = t.nsec := by
  rw [Time.Add_neg_second t hn]
  exact ⟨rfl, rfl⟩

theorem zoned_validNsec (c : Int) (loc : Location) : (zoned c 0 loc).validNsec :=
  validNsec_zero _ loc

theorem AddDate_days_zoned (t : Time) (k : Int) (hn : t.validNsec) :
    t.AddDate 0 0 k = zoned (t.abs + 86400 * k) t.nsec t.loc := by
  obtain ⟨hm1, hm2, _, _, _⟩ := t.fields_days
  obtain ⟨c1, c2, c3, c4, c5, c6, _⟩ := t.fields_clock
  simp only [Time.AddDate, add_zero, Time.Location]
  rw [Date_zoned _ _ _ _ _ _ _ _ ⟨hm1, hm2⟩ ⟨c1, c2⟩ ⟨c3, c4⟩ ⟨c5, c6⟩ hn,
    civilSeconds_add_days, t.civil_fields]

theorem AddDate_days_of_steady (loc : Location) (c off n k : Int) (h : loc.steadyAt c off)
    (hn : 0 ≤ n ∧ n < 1000000000) :
    (Time.mk (c - unixToInternal - off) n loc).AddDate 0 0 k = zoned (c + 86400 * k) n loc := by
  have hv : (Time.mk (c - unixToInternal - off) n loc).validNsec := hn
  rw [AddDate_days_zoned _ k hv, abs_of_steadyAt loc c off n h]

/-- The instant one calendar day away from `now` and the way back, when the same
wall-clock reading on the neighbouring day is clear of zone transitions. -/
theorem AddDate_day_steady (now : Time) (k off : Int) (hn : now.validNsec) (hs : now.steady)
    (hk : now.loc.steadyAt (now.abs + 86400 * k) off) :
    now.AddDate 0 0 k = ⟨now.abs + 86400 * k - unixToInternal - off, now.nsec, now.loc⟩ ∧
    (now.AddDate 0 0 k).abs = now.abs + 86400 * k ∧
    (now.AddDate 0 0 k).AddDate 0 0 (-k) = now := by
  have h1 : now.AddDate 0 0 k =
      ⟨now.abs + 86400 * k - unixToInternal - off, now.nsec, now.loc⟩ := by
    rw [AddDate_days_zoned now k hn, zoned_of_steadyAt _ _ off _ hk]
  have h2 : (now.AddDate 0 0 k).abs = now.abs + 86400 * k := by
    rw [h1]; exact abs_of_steadyAt _ _ off _ hk
  refine ⟨h1, h2, ?_⟩
  have hv : (now.AddDate 0 0 k).validNsec := by rw [h1]; exact hn
  have hl : (now.AddDate 0 0 k).loc = now.loc := by rw [h1]
  have hc : (now.AddDate 0 0 k).nsec = now.nsec := by rw [h1]
  have e : now.abs + 86400 * k + 86400 * -k = now.abs := by ring
  rw [AddDate_days_zoned _ (-k) hv, h2, hl, hc, e]
  exact zoned_steady now hs

theorem startOfDay_zoned (u : Time) :
    Date u.Year u.Month u.Day 0 0 0 0 u.loc = zoned (u.abs / 86400 * 86400) 0 u.loc := by
  obtain ⟨hm1, hm2, _, _, _⟩ := u.fields_days
  rw [Date_zoned u.Year u.Month u.Day 0 0 0 0 u.loc ⟨hm1, hm2⟩ (by omega) (by omega)
    (by omega) (by omega), civilSeconds_day_start]

theorem Date_first_zoned (Y M : Int) (loc : Location) (hM : 1 ≤ M ∧ M ≤ 12) :
    Date Y M 1 0 0 0 0 loc = zoned (civilSeconds Y M 1 0 0 0) 0 loc :=
  Date_zoned Y M 1 0 0 0 0 loc hM (by omega) (by omega) (by omega) (by omega)

theorem format_of_civil (t : Time) (off Y M d h mi s : Int)
    (hoff : (t.loc.lookup t.unix).offset = off)
    (hM : 1 ≤ M ∧ M ≤ 12) (hd : 1 ≤ d ∧ d ≤ daysIn Y M) (hh : 0 ≤ h ∧ h < 24)
    (hmi : 0 ≤ mi ∧ mi < 60) (hs : 0 ≤ s ∧ s < 60) (habs : t.abs = civilSeconds Y M d h mi s) :
    t.FormatRFC3339 = rfc3339 Y M d h mi s off := by
  obtain ⟨f1, f2, f3, f4, f5, f6⟩ := fields_of_civil t Y M d h mi s hM hd hh hmi hs habs
  simp only [Time.FormatRFC3339, rfc3339, f1, f2, f3, f4, f5, f6, hoff]

theorem reading_fields (loc : Location) (Y M d h mi s off u n : Int)
    (hM : 1 ≤ M ∧ M ≤ 12) (hd : 1 ≤ d ∧ d ≤ daysIn Y M) (hh : 0 ≤ h ∧ h < 24)
    (hmi : 0 ≤ mi ∧ mi < 60) (hs : 0 ≤ s ∧ s < 60)
    (hst : loc.steadyAt (civilSeconds Y M d h mi s) off)
    (hu : u = civilSeconds Y M d h mi s - unixToInternal - off) :
    (Time.mk u n loc).abs = civilSeconds Y M d h mi s ∧
    ((Time.mk u n loc).Year = Y ∧ (Time.mk u n loc).Month = M ∧ (Time.mk u n loc).Day = d ∧
      (Time.mk u n loc).Hour = h ∧ (Time.mk u n loc).Minute = mi ∧
      (Time.mk u n loc).Sec = s) ∧
    (Time.mk u n loc).FormatRFC3339 = rfc3339 Y M d h mi s off := by
  subst hu
  have ha := abs_of_steadyAt loc _ off n hst
  exact ⟨ha, fields_of_civil _ Y M d h mi s hM hd hh hmi hs ha,
    format_of_civil _ off Y M d h mi s (steadyAt_offset loc _ off hst).1 hM hd hh hmi hs ha⟩

theorem endOfSpan_steady (loc : Location) (cN off1 : Int) (h2 : loc.steadyAt cN off1) :
    (zoned cN 0 loc).Add (-Second) = ⟨cN - unixToInternal - off1 - 1, 0, loc⟩ := by
  rw [zoned_of_steadyAt loc cN off1 0 h2, Add_neg_second_zero]

theorem span_bounds (loc : Location) (cS cN off0 : Int) (h0 : loc.steadyAt cS off0)
    (hN : loc.steady cN) (hlt : cS < cN) :
    (Time.mk (cS - unixToInternal - off0) 0 loc).unix ≤
      ((zoned cN 0 loc).Add (-Second)).unix := by
  obtain ⟨off1, h1⟩ := hN
  rw [endOfSpan_steady loc cN off1 h1]
  have := steadyAt_lt loc cS off0 cN off1 h0 h1 hlt
  show cS - unixToInternal - off0 ≤ cN - unixToInternal - off1 - 1
  omega

theorem span_holds (now : Time) (cS cN off0 : Int) (hst : now.steady)
    (h0 : now.loc.steadyAt cS off0) (hN : now.loc.steady cN) (h1 : cS ≤ now.abs)
    (h2 : now.abs < cN) :
    (Time.mk (cS - unixToInternal - off0) 0 now.loc).unix ≤ now.unix ∧
      now.unix ≤ ((zoned cN 0 now.loc).Add (-Second)).unix := by
  obtain ⟨off1, hN1⟩ := hN
  rw [endOfSpan_steady now.loc cN off1 hN1]
  have a := steadyAt_le now.loc cS off0 _ _ h0 hst h1
  have b := steadyAt_lt now.loc _ _ cN off1 hst hN1 h2
  have hu := now.steady_unix
  constructor
  · show cS - unixToInternal - off0 ≤ now.unix
    omega
  · show now.unix ≤ cN - unixToInternal - off1 - 1
    omega

/-! ## Lemmas on the date resolver -/

theorem convert_eq_interval (field humanDate : String) (now : Time) :
    convertHumanDateToTypesenseDatetime field humanDate now =
      match resolveInterval humanDate now with
      | some p => generateDatetimeCondition field p.1 p.2
      | none => "" := by
  unfold convertHumanDateToTypesenseDatetime resolveInterval
  by_cases h0 : humanDate = "yesterday"
  · rw [if_pos h0, if_pos h0]
  rw [if_neg h0, if_neg h0]
  by_cases h1 : humanDate = "tomorrow"
  · rw [if_pos h1, if_pos h1]
  rw [if_neg h1, if_neg h1]
  by_cases h2 : humanDate = "last_week"
  · rw [if_pos h2, if_pos h2]
  rw [if_neg h2, if_neg h2]
  by_cases h3 : humanDate = "next_week"
  · rw [if_pos h3, if_pos h3]
  rw [if_neg h3, if_neg h3]
  by_cases h4 : humanDate = "last_month"
  · rw [if_pos h4, if_pos h4]
  rw [if_neg h4, if_neg h4]
  by_cases h5 : humanDate = "next_month"
  · rw [if_pos h5, if_pos h5]
  rw [if_neg h5, if_neg h5]
  by_cases h6 : humanDate = "last_year"
  · rw [if_pos h6, if_pos h6]
  rw [if_neg h6, if_neg h6]
  by_cases h7 : humanDate = "next_year"
  · rw [if_pos h7, if_pos h7]
  rw [if_neg h7, if_neg h7]
  by_cases h8 : humanDate = "today"
  · rw [if_pos h8, if_pos h8]
  rw [if_neg h8, if_neg h8]
  by_cases h9 : humanDate = "this_week"
  · rw [if_pos h9, if_pos h9]
  rw [if_neg h9, if_neg h9]
  by_cases h10 : humanDate = "this_month"
  · rw [if_pos h10, if_pos h10]
  rw [if_neg h10, if_neg h10]
  by_cases h11 : humanDate = "this_year"
  · rw [if_pos h11, if_pos h11]
  rw [if_neg h11, if_neg h11]

theorem convert_of_interval (field humanDate : String) (now start stop : Time)
    (h : resolveInterval humanDate now = some (start, stop)) :
    convertHumanDateToTypesenseDatetime field humanDate now =
      field ++ ":>=:" ++ start.FormatRFC3339 ++ " AND " ++ field ++ ":<=:" ++
        stop.FormatRFC3339 := by
  rw [convert_eq_interval, h]
  rfl

theorem today_raw (now : Time) (off0 : Int)
    (h0 : now.loc.steadyAt (civilSeconds now.Year now.Month now.Day 0 0 0) off0) :
    resolveInterval "today" now =
      some (⟨civilSeconds now.Year now.Month now.Day 0 0 0 - unixToInternal - off0, 0, now.loc⟩,
        (zoned (civilSeconds now.Year now.Month (now.Day + 1) 0 0 0) 0 now.loc).Add
          (-Second)) := by
  obtain ⟨hm1, hm2, _, _, _⟩ := now.fields_days
  have hS : Date now.Year now.Month now.Day 0 0 0 0 now.loc =
      ⟨civilSeconds now.Year now.Month now.Day 0 0 0 - unixToInternal - off0, 0, now.loc⟩ := by
    rw [Date_zoned now.Year now.Month now.Day 0 0 0 0 now.loc ⟨hm1, hm2⟩ (by omega) (by omega)
      (by omega) (by omega), zoned_of_steadyAt _ _ off0 0 h0]
  have h : resolveInterval "today" now =
      some (Date now.Year now.Month now.Day 0 0 0 0 now.loc,
        ((Date now.Year now.Month now.Day 0 0 0 0 now.loc).AddDate 0 0 1).Add (-Second)) := rfl
  rw [h, hS, AddDate_days_of_steady _ _ off0 0 1 h0 (by omega), civilSeconds_add_days]

theorem month_raw (Y M : Int) (loc : Location) (off0 : Int) (hM : 1 ≤ M ∧ M ≤ 12)
    (h0 : loc.steadyAt (civilSeconds Y M 1 0 0 0) off0) :
    Date Y M 1 0 0 0 0 loc = ⟨civilSeconds Y M 1 0 0 0 - unixToInternal - off0, 0, loc⟩ ∧
    (Date Y M 1 0 0 0 0 loc).AddDate 0 1 0 =
      zoned (civilSeconds (nextMonth Y M).1 (nextMonth Y M).2 1 0 0 0) 0 loc := by
  have hS : Date Y M 1 0 0 0 0 loc =
      ⟨civilSeconds Y M 1 0 0 0 - unixToInternal - off0, 0, loc⟩ := by
    rw [Date_zoned Y M 1 0 0 0 0 loc hM (by omega) (by omega) (by omega) (by omega),
      zoned_of_steadyAt _ _ off0 0 h0]
  have hr := daysIn_range Y M hM
  obtain ⟨_, ⟨f1, f2, f3, f4, f5, f6⟩, _⟩ := reading_fields loc Y M 1 0 0 0 off0 _ 0 hM
    ⟨by omega, by omega⟩ (by omega) (by omega) (by omega) h0 rfl
  obtain ⟨n1, n2, _⟩ := nextMonth_range Y M hM
  refine ⟨hS, ?_⟩
  rw [hS]
  simp only [Time.AddDate, f1, f2, f3, f4, f5, f6, Time.Location, add_zero]
  rw [Date_next_month, Date_zoned _ _ 1 0 0 0 0 loc ⟨n1, n2⟩ (by omega) (by omega) (by omega)
    (by omega)]

theorem year_raw (Y : Int) (loc : Location) (off0 : Int)
    (h0 : loc.steadyAt (civilSeconds Y 1 1 0 0 0) off0) :
    Date Y 1 1 0 0 0 0 loc = ⟨civilSeconds Y 1 1 0 0 0 - unixToInternal - off0, 0, loc⟩ ∧
    (Date Y 1 1 0 0 0 0 loc).AddDate 1 0 0 = zoned (civilSeconds (Y + 1) 1 1 0 0 0) 0 loc := by
  have hS : Date Y 1 1 0 0 0 0 loc =
      ⟨civilSeconds Y 1 1 0 0 0 - unixToInternal - off0, 0, loc⟩ := by
    rw [Date_zoned Y 1 1 0 0 0 0 loc (by omega) (by omega) (by omega) (by omega) (by omega),
      zoned_of_steadyAt _ _ off0 0 h0]
  have hr := daysIn_range Y 1 (by omega)
  obtain ⟨_, ⟨f1, f2, f3, f4, f5, f6⟩, _⟩ := reading_fields loc Y 1 1 0 0 0 off0 _ 0 (by omega)
    ⟨by omega, by omega⟩ (by omega) (by omega) (by omega) h0 rfl
  refine ⟨hS, ?_⟩
  rw [hS]
  simp only [Time.AddDate, f1, f2, f3, f4, f5, f6, Time.Location, add_zero]
  rw [Date_zoned _ 1 1 0 0 0 0 loc (by omega) (by omega) (by omega) (by omega) (by omega)]

theorem week_zoned (t : Time) (offA : Int) (hn : t.validNsec)
    (hA : t.loc.steadyAt (t.abs - 86400 * t.Weekday) offA) :
    getStartOfWeek t = zoned ((t.abs / 86400 - t.Weekday) * 86400) 0 t.loc := by
  have e1 : t.abs + 86400 * -t.Weekday = t.abs - 86400 * t.Weekday := by ring
  have hu : t.AddDate 0 0 (-t.Weekday) =
      ⟨t.abs - 86400 * t.Weekday - unixToInternal - offA, t.nsec, t.loc⟩ := by
    rw [AddDate_days_zoned t _ hn, e1, zoned_of_steadyAt _ _ offA _ hA]
  have ha : (t.AddDate 0 0 (-t.Weekday)).abs = t.abs - 86400 * t.Weekday := by
    rw [hu]; exact abs_of_steadyAt _ _ offA _ hA
  have hl : (t.AddDate 0 0 (-t.Weekday)).loc = t.loc := rfl
  have e2 : (t.abs - 86400 * t.Weekday) / 86400 * 86400 =
      (t.abs / 86400 - t.Weekday) * 86400 := by omega
  simp only [getStartOfWeek, Time.Location]
  rw [startOfDay_zoned, hl, ha, e2]

theorem week_raw (t : Time) (offA off0 : Int) (hn : t.validNsec)
    (hA : t.loc.steadyAt (t.abs - 86400 * t.Weekday) offA)
    (h0 : t.loc.steadyAt ((t.abs / 86400 - t.Weekday) * 86400) off0) :
    getStartOfWeek t =
      ⟨(t.abs / 86400 - t.Weekday) * 86400 - unixToInternal - off0, 0, t.loc⟩ ∧
    (getStartOfWeek t).AddDate 0 0 7 =
      zoned ((t.abs / 86400 - t.Weekday + 7) * 86400) 0 t.loc := by
  have e1 : t.abs + 86400 * -t.Weekday = t.abs - 86400 * t.Weekday := by ring
  have hu : t.AddDate 0 0 (-t.Weekday) =
      ⟨t.abs - 86400 * t.Weekday - unixToInternal - offA, t.nsec, t.loc⟩ := by
    rw [AddDate_days_zoned t _ hn, e1, zoned_of_steadyAt _ _ offA _ hA]
  have ha : (t.AddDate 0 0 (-t.Weekday)).abs = t.abs - 86400 * t.Weekday := by
    rw [hu]; exact abs_of_steadyAt _ _ offA _ hA
  have hl : (t.AddDate 0 0 (-t.Weekday)).loc = t.loc := rfl
  have e2 : (t.abs - 86400 * t.Weekday) / 86400 * 86400 =
      (t.abs / 86400 - t.Weekday) * 86400 := by omega
  have hs : getStartOfWeek t =
      ⟨(t.abs / 86400 - t.Weekday) * 86400 - unixToInternal - off0, 0, t.loc⟩ := by
    simp only [getStartOfWeek, Time.Location]
    rw [startOfDay_zoned, hl, ha, e2, zoned_of_steadyAt _ _ off0 0 h0]
  refine ⟨hs, ?_⟩
  rw [hs, AddDate_days_of_steady _ _ off0 0 7 h0 (by omega)]
  congr 1
  ring

theorem week_next_zoned (now : Time) (offB offC : Int) (hn : now.validNsec)
    (hB : now.loc.steadyAt (now.abs + 86400 * 7) offB)
    (hC : now.loc.steadyAt (now.abs + 86400 * 7 - 86400 * now.Weekday) offC) :
    getStartOfWeek (now.AddDate 0 0 7) =
      zoned ((now.abs / 86400 - now.Weekday + 7) * 86400) 0 now.loc := by
  have h1 : now.AddDate 0 0 7 =
      ⟨now.abs + 86400 * 7 - unixToInternal - offB, now.nsec, now.loc⟩ := by
    rw [AddDate_days_zoned now 7 hn, zoned_of_steadyAt _ _ offB _ hB]
  have ha : (now.AddDate 0 0 7).abs = now.abs + 86400 * 7 := by
    rw [h1]; exact abs_of_steadyAt _ _ offB _ hB
  have hw : (now.AddDate 0 0 7).Weekday = now.Weekday := by
    simp only [Time.Weekday, ha, secondsPerDay, secondsPerWeek]
    omega
  have hv : (now.AddDate 0 0 7).validNsec := by rw [h1]; exact hn
  have hl : (now.AddDate 0 0 7).loc = now.loc := by rw [h1]
  have hC2 : (now.AddDate 0 0 7).loc.steadyAt
      ((now.AddDate 0 0 7).abs - 86400 * (now.AddDate 0 0 7).Weekday) offC := by
    rw [hl, ha, hw]; exact hC
  rw [week_zoned _ offC hv hC2, ha, hw, hl]
  congr 1
  omega

theorem month_form (Y M : Int) (loc : Location) (hM : 1 ≤ M ∧ M ≤ 12)
    (h0 : loc.steady (civilSeconds Y M 1 0 0 0)) :
    ∃ off0 : Int, loc.steadyAt (civilSeconds Y M 1 0 0 0) off0 ∧
      some (Date Y M 1 0 0 0 0 loc, ((Date Y M 1 0 0 0 0 loc).AddDate 0 1 0).Add (-Second)) =
        some ((⟨civilSeconds Y M 1 0 0 0 - unixToInternal - off0, 0, loc⟩ : Time),
          (zoned (civilSeconds (nextMonth Y M).1 (nextMonth Y M).2 1 0 0 0) 0 loc).Add
            (-Second)) := by
  obtain ⟨off0, h0⟩ := h0
  obtain ⟨m1, m2⟩ := month_raw Y M loc off0 hM h0
  exact ⟨off0, h0, by rw [m2, m1]⟩

theorem year_form (Y : Int) (loc : Location) (h0 : loc.steady (civilSeconds Y 1 1 0 0 0)) :
    ∃ off0 : Int, loc.steadyAt (civilSeconds Y 1 1 0 0 0) off0 ∧
      some (Date Y 1 1 0 0 0 0 loc, ((Date Y 1 1 0 0 0 0 loc).AddDate 1 0 0).Add (-Second)) =
        some ((⟨civilSeconds Y 1 1 0 0 0 - unixToInternal - off0, 0, loc⟩ : Time),
          (zoned (civilSeconds (Y + 1) 1 1 0 0 0) 0 loc).Add (-Second)) := by
  obtain ⟨off0, h0⟩ := h0
  obtain ⟨m1, m2⟩ := year_raw Y loc off0 h0
  exact ⟨off0, h0, by rw [m2, m1]⟩

theorem this_week_form (now : Time) (hn : now.validNsec)
    (h : ∀ c ∈ readingsOf "this_week" now, now.loc.steady c) :
    ∃ off0 : Int, now.loc.steadyAt ((now.abs / 86400 - now.Weekday) * 86400) off0 ∧
      now.loc.steady ((now.abs / 86400 - now.Weekday + 7) * 86400) ∧
      resolveInterval "this_week" now =
        some (⟨(now.abs / 86400 - now.Weekday) * 86400 - unixToInternal - off0, 0, now.loc⟩,
          (zoned ((now.abs / 86400 - now.Weekday + 7) * 86400) 0 now.loc).Add (-Second)) := by
  have hr : readingsOf "this_week" now =
      [now.abs - 86400 * now.Weekday, (now.abs / 86400 - now.Weekday) * 86400,
        (now.abs / 86400 - now.Weekday + 7) * 86400] := rfl
  rw [hr] at h
  obtain ⟨offA, hA⟩ := h (now.abs - 86400 * now.Weekday) (by simp)
  obtain ⟨off0, h0⟩ := h ((now.abs / 86400 - now.Weekday) * 86400) (by simp)
  have hN := h ((now.abs / 86400 - now.Weekday + 7) * 86400) (by simp)
  obtain ⟨w1, w2⟩ := week_raw now offA off0 hn hA h0
  have h1 : resolveInterval "this_week" now =
      some (getStartOfWeek now, ((getStartOfWeek now).AddDate 0 0 7).Add (-Second)) := rfl
  rw [w2, w1] at h1
  exact ⟨off0, h0, hN, h1⟩

theorem next_week_form (now : Time) (hn : now.validNsec)
    (h : ∀ c ∈ readingsOf "next_week" now, now.loc.steady c) :
    ∃ off0 : Int, now.loc.steadyAt ((now.abs / 86400 - now.Weekday + 7) * 86400) off0 ∧
      now.loc.steady ((now.abs / 86400 - now.Weekday + 14) * 86400) ∧
      resolveInterval "next_week" now =
        some (⟨(now.abs / 86400 - now.Weekday + 7) * 86400 - unixToInternal - off0, 0,
            now.loc⟩,
          (zoned ((now.abs / 86400 - now.Weekday + 14) * 86400) 0 now.loc).Add (-Second)) := by
  have hr : readingsOf "next_week" now =
      [now.abs + 86400 * 7, now.abs + 86400 * 7 - 86400 * now.Weekday,
        (now.abs / 86400 - now.Weekday + 7) * 86400,
        (now.abs / 86400 - now.Weekday + 14) * 86400] := rfl
  rw [hr] at h
  obtain ⟨offB, hB⟩ := h (now.abs + 86400 * 7) (by simp)
  obtain ⟨offC, hC⟩ := h (now.abs + 86400 * 7 - 86400 * now.Weekday) (by simp)
  obtain ⟨off0, h0⟩ := h ((now.abs / 86400 - now.Weekday + 7) * 86400) (by simp)
  have hN := h ((now.abs / 86400 - now.Weekday + 14) * 86400) (by simp)
  have hx := week_next_zoned now offB offC hn hB hC
  have h1 : resolveInterval "next_week" now =
      some (getStartOfWeek (now.AddDate 0 0 7),
        ((getStartOfWeek (now.AddDate 0 0 7)).AddDate 0 0 7).Add (-Second)) := rfl
  have e : (now.abs / 86400 - now.Weekday + 7) * 86400 + 86400 * 7 =
      (now.abs / 86400 - now.Weekday + 14) * 86400 := by ring
  rw [hx, zoned_of_steadyAt _ _ off0 0 h0, AddDate_days_of_steady _ _ off0 0 7 h0 (by omega),
    e] at h1
  exact ⟨off0, h0, hN, h1⟩

/-- The text and the fields of the interval of a month whose first midnight, last second
and following midnight are clear of zone transitions: from midnight of the first day to
23:59:59 of the last day. -/
theorem monthSpan_text (field : String) (Y M : Int) (loc : Location) (off0 off1 : Int)
    (hM : 1 ≤ M ∧ M ≤ 12)
    (h0 : loc.steadyAt (civilSeconds Y M 1 0 0 0) off0)
    (h1 : loc.steadyAt (civilSeconds Y M (daysIn Y M) 23 59 59) off1)
    (h2 : loc.steadyAt (civilSeconds (nextMonth Y M).1 (nextMonth Y M).2 1 0 0 0) off1)
    (start stop : Time) (hS : start = Date Y M 1 0 0 0 0 loc)
    (hE : stop = ((Date Y M 1 0 0 0 0 loc).AddDate 0 1 0).Add (-Second)) :
    generateDatetimeCondition field start stop =
      field ++ ":>=:" ++ rfc3339 Y M 1 0 0 0 off0 ++ " AND " ++
        field ++ ":<=:" ++ rfc3339 Y M (daysIn Y M) 23 59 59 off1 ∧
    (start.Year = Y ∧ start.Month = M ∧ start.Day = 1 ∧
      start.Hour = 0 ∧ start.Minute = 0 ∧ start.Sec = 0) ∧
    (stop.Year = Y ∧ stop.Month = M ∧ stop.Day = daysIn Y M ∧
      stop.Hour = 23 ∧ stop.Minute = 59 ∧ stop.Sec = 59) ∧
    start.abs = civilSeconds Y M 1 0 0 0 ∧
    stop.abs + 1 = civilSeconds (nextMonth Y M).1 (nextMonth Y M).2 1 0 0 0 ∧
    (off0 = off1 → stop.unix + 1 = start.unix + daysIn Y M * 86400) := by
  obtain ⟨e1, e2⟩ := month_raw Y M loc off0 hM h0
  rw [e1] at hS
  rw [e2, endOfSpan_steady _ _ off1 h2] at hE
  subst hS hE
  have hr := daysIn_range Y M hM
  obtain ⟨_, _, n3⟩ := nextMonth_range Y M hM
  have hl := civilSeconds_last_second Y M
  obtain ⟨aS, fS, tS⟩ := reading_fields loc Y M 1 0 0 0 off0 _ 0 hM ⟨by omega, by omega⟩
    (by omega) (by omega) (by omega) h0 rfl
  obtain ⟨aE, fE, tE⟩ := reading_fields loc Y M (daysIn Y M) 23 59 59 off1
    (civilSeconds (nextMonth Y M).1 (nextMonth Y M).2 1 0 0 0 - unixToInternal - off1 - 1) 0
    hM ⟨by omega, le_refl _⟩ (by omega) (by omega) (by omega) h1 (by omega)
  refine ⟨?_, fS, fE, aS, ?_, ?_⟩
  · simp only [generateDatetimeCondition, tS, tE]
  · rw [aE]; omega
  · intro ho
    show _ - _ - _ - 1 + 1 = _ - _ - _ + _
    omega

/-! ## The date resolver: days, months and years -/

/-- C11, amended: for every now such that the local midnight that starts now's calendar
day, the last second 23:59:59 of that day and the midnight that ends it are clear of zone
transitions, the token `today` resolves to start = local midnight of now's calendar day
and end = 23:59:59 of that same calendar day, one second before the next midnight. -/
theorem C11_today_steady (field : String) (now : Time) (off0 off1 : Int)
    (h0 : now.loc.steadyAt (civilSeconds now.Year now.Month now.Day 0 0 0) off0)
    (h1 : now.loc.steadyAt (civilSeconds now.Year now.Month now.Day 23 59 59) off1)
    (h2 : now.loc.steadyAt (civilSeconds now.Year now.Month (now.Day + 1) 0 0 0) off1) :
    convertHumanDateToTypesenseDatetime field "today" now =
      field ++ ":>=:" ++ rfc3339 now.Year now.Month now.Day 0 0 0 off0 ++ " AND " ++
        field ++ ":<=:" ++ rfc3339 now.Year now.Month now.Day 23 59 59 off1 ∧
    ∃ start stop : Time, resolveInterval "today" now = some (start, stop) ∧
      (start.Year = now.Year ∧ start.Month = now.Month ∧ start.Day = now.Day ∧
        start.Hour = 0 ∧ start.Minute = 0 ∧ start.Sec = 0) ∧
      (stop.Year = now.Year ∧ stop.Month = now.Month ∧ stop.Day = now.Day ∧
        stop.Hour = 23 ∧ stop.Minute = 59 ∧ stop.Sec = 59) ∧
      (Time.mk (stop.unix + 1) 0 now.loc).abs =
        civilSeconds now.Year now.Month (now.Day + 1) 0 0 0 ∧
      stop.abs + 1 = start.abs + 86400 ∧
      (off0 = off1 → stop.unix + 1 = start.unix + 86400) := by
  obtain ⟨hm1, hm2, hd1, hd2, _⟩ := now.fields_days
  have hr := today_raw now off0 h0
  rw [endOfSpan_steady _ _ off1 h2] at hr
  have hc : civilSeconds now.Year now.Month (now.Day + 1) 0 0 0 =
      civilSeconds now.Year now.Month now.Day 0 0 0 + 86400 := by
    rw [civilSeconds_add_days]; omega
  have hl : civilSeconds now.Year now.Month now.Day 23 59 59 =
      civilSeconds now.Year now.Month now.Day 0 0 0 + 86399 := by
    simp only [civilSeconds]; omega
  obtain ⟨aS, fS, tS⟩ := reading_fields now.loc now.Year now.Month now.Day 0 0 0 off0 _ 0
    ⟨hm1, hm2⟩ ⟨hd1, hd2⟩ (by omega) (by omega) (by omega) h0 rfl
  obtain ⟨aE, fE, tE⟩ := reading_fields now.loc now.Year now.Month now.Day 23 59 59 off1
    (civilSeconds now.Year now.Month (now.Day + 1) 0 0 0 - unixToInternal - off1 - 1) 0
    ⟨hm1, hm2⟩ ⟨hd1, hd2⟩ (by omega) (by omega) (by omega) h1 (by omega)
  refine ⟨?_, _, _, hr, fS, fE, ?_, ?_, ?_⟩
  · rw [convert_of_interval field "today" now _ _ hr, tS, tE]
  · have := abs_of_steadyAt now.loc _ off1 0 h2
    have e : civilSeconds now.Year now.Month (now.Day + 1) 0 0 0 - unixToInternal - off1 - 1 + 1 =
        civilSeconds now.Year now.Month (now.Day + 1) 0 0 0 - unixToInternal - off1 := by omega
    simp only [e]
    exact this
  · rw [aS, aE]; omega
  · intro ho
    show _ - _ - _ - 1 + 1 = _ - _ - _ + 86400
    omega

set_option maxRecDepth 100000 in
/-- C11, as stated, fails: at now = 2018-11-04T10:00:00-02:00 in a location with the zone
transition of America/Sao_Paulo, where the local midnight of that day never occurred,
`today` resolves to a start at 23:00:00 of November 3, the day before now's calendar day,
and to an end at 22:59:59. -/
theorem C11_counterexample_missing_midnight :
    (Date 2018 11 4 10 0 0 0 saoPaulo).FormatRFC3339 = "2018-11-04T10:00:00-02:00" ∧
    convertHumanDateToTypesenseDatetime "date" "today" (Date 2018 11 4 10 0 0 0 saoPaulo) =
      "date:>=:2018-11-03T23:00:00-03:00 AND date:<=:2018-11-04T22:59:59-02:00" ∧
    ∃ start stop : Time,
      resolveInterval "today" (Date 2018 11 4 10 0 0 0 saoPaulo) = some (start, stop) ∧
      (Date 2018 11 4 10 0 0 0 saoPaulo).Day = 4 ∧ start.Day = 3 ∧ start.Hour = 23 ∧
      stop.Hour = 22 :=
  ⟨by decide, by decide, _, _, rfl, by decide, by decide, by decide, by decide⟩

set_option maxRecDepth 100000 in
/-- Witness of C11: now = 2024-03-15T10:00:00 in a location with the zone transitions of
Europe/Berlin, now on the day of a transition, 2024-03-31, in the same location, and now
in UTC. -/
theorem C11_today_steady_witness :
    convertHumanDateToTypesenseDatetime "date" "today" (Date 2024 3 15 10 0 0 0 berlin) =
      "date:>=:2024-03-15T00:00:00+01:00 AND date:<=:2024-03-15T23:59:59+01:00" ∧
    convertHumanDateToTypesenseDatetime "date" "today" (Date 2024 3 31 10 0 0 0 berlin) =
      "date:>=:2024-03-31T00:00:00+01:00 AND date:<=:2024-03-31T23:59:59+02:00" ∧
    convertHumanDateToTypesenseDatetime "date" "today" (Date 2024 3 15 10 0 0 0 UTC) =
      "date:>=:2024-03-15T00:00:00Z AND date:<=:2024-03-15T23:59:59Z" :=
  ⟨(C11_today_steady "date" (Date 2024 3 15 10 0 0 0 berlin) 3600 3600
      ((berlin_steadyAt _).1 (by decide)) ((berlin_steadyAt _).1 (by decide))
      ((berlin_steadyAt _).1 (by decide))).1.trans (by decide),
    (C11_today_steady "date" (Date 2024 3 31 10 0 0 0 berlin) 3600 7200
      ((berlin_steadyAt _).1 (by decide)) ((berlin_steadyAt _).2.1 (by decide))
      ((berlin_steadyAt _).2.1 (by decide))).1.trans (by decide),
    (C11_today_steady "date" (Date 2024 3 15 10 0 0 0 UTC) 0 0
      (steadyAt_of_fixedOffset _ _ 0 (fixedOffset_FixedZone 0))
      (steadyAt_of_fixedOffset _ _ 0 (fixedOffset_FixedZone 0))
      (steadyAt_of_fixedOffset _ _ 0 (fixedOffset_FixedZone 0))).1.trans (by decide)⟩

/-- C12, amended: for every now in year Y such that the midnight that starts January 1 of
Y, the last second of December 31 of Y and the midnight that starts January 1 of Y+1 are
clear of zone transitions, the token `this_year` resolves to start = Y-01-01T00:00:00 and
end = Y-12-31T23:59:59, one second before January 1 of Y+1, for leap and non-leap years
alike. -/
theorem C12_this_year_steady (field : String) (now : Time) (off0 off1 : Int)
    (h0 : now.loc.steadyAt (civilSeconds now.Year 1 1 0 0 0) off0)
    (h1 : now.loc.steadyAt (civilSeconds now.Year 12 31 23 59 59) off1)
    (h2 : now.loc.steadyAt (civilSeconds (now.Year + 1) 1 1 0 0 0) off1) :
    convertHumanDateToTypesenseDatetime field "this_year" now =
      field ++ ":>=:" ++ rfc3339 now.Year 1 1 0 0 0 off0 ++ " AND " ++
        field ++ ":<=:" ++ rfc3339 now.Year 12 31 23 59 59 off1 ∧
    ∃ start stop : Time, resolveInterval "this_year" now = some (start, stop) ∧
      (start.Year = now.Year ∧ start.Month = 1 ∧ start.Day = 1 ∧
        start.Hour = 0 ∧ start.Minute = 0 ∧ start.Sec = 0) ∧
      (stop.Year = now.Year ∧ stop.Month = 12 ∧ stop.Day = 31 ∧
        stop.Hour = 23 ∧ stop.Minute = 59 ∧ stop.Sec = 59) ∧
      stop.abs + 1 = civilSeconds (now.Year + 1) 1 1 0 0 0 ∧
      stop.abs + 1 = start.abs + yearLength now.Year * 86400 ∧
      (off0 = off1 → stop.unix + 1 = start.unix + yearLength now.Year * 86400) := by
  obtain ⟨e1, e2⟩ := year_raw now.Year now.loc off0 h0
  have hr : resolveInterval "this_year" now =
      some (Date now.Year 1 1 0 0 0 0 now.loc,
        ((Date now.Year 1 1 0 0 0 0 now.loc).AddDate 1 0 0).Add (-Second)) := rfl
  rw [e2, e1, endOfSpan_steady _ _ off1 h2] at hr
  obtain ⟨y1, _, y3⟩ := civilSeconds_next_year now.Year
  have hJ := daysIn_range now.Year 1 (by omega)
  have hD := daysIn_december now.Year
  obtain ⟨aS, fS, tS⟩ := reading_fields now.loc now.Year 1 1 0 0 0 off0 _ 0
    (by omega) ⟨by omega, by omega⟩ (by omega) (by omega) (by omega) h0 rfl
  obtain ⟨aE, fE, tE⟩ := reading_fields now.loc now.Year 12 31 23 59 59 off1
    (civilSeconds (now.Year + 1) 1 1 0 0 0 - unixToInternal - off1 - 1) 0
    (by omega) ⟨by omega, by omega⟩ (by omega) (by omega) (by omega) h1 (by omega)
  refine ⟨?_, _, _, hr, fS, fE, ?_, ?_, ?_⟩
  · rw [convert_of_interval field "this_year" now _ _ hr, tS, tE]
  · rw [aE]; omega
  · rw [aS, aE]; omega
  · intro ho
    show _ - _ - _ - 1 + 1 = _ - _ - _ + _
    omega

set_option maxRecDepth 100000 in
/-- C12, as stated, fails: in a location with the zone transition of Pacific/Kiritimati,
where the local day 1994-12-31 never occurred, `this_year` at 1994-06-01T12:00:00-10:00
ends at 1994-12-30T23:59:59, not at 1994-12-31T23:59:59. -/
theorem C12_counterexample_skipped_day :
    (Date 1994 6 1 12 0 0 0 kiritimati).FormatRFC3339 = "1994-06-01T12:00:00-10:00" ∧
    convertHumanDateToTypesenseDatetime "date" "this_year" (Date 1994 6 1 12 0 0 0 kiritimati) =
      "date:>=:1994-01-01T00:00:00-10:00 AND date:<=:1994-12-30T23:59:59-10:00" ∧
    ∃ start stop : Time,
      resolveInterval "this_year" (Date 1994 6 1 12 0 0 0 kiritimati) = some (start, stop) ∧
      stop.Month = 12 ∧ stop.Day = 30 :=
  ⟨by decide, by decide, _, _, rfl, by decide, by decide⟩

set_option maxRecDepth 100000 in
/-- Witness of C12: now = 2024-06-01, in a leap year, in a location with the two zone
transitions of Europe/Berlin in that year, and in UTC. -/
theorem C12_this_year_steady_witness :
    convertHumanDateToTypesenseDatetime "date" "this_year" (Date 2024 6 1 0 0 0 0 berlin) =
      "date:>=:2024-01-01T00:00:00+01:00 AND date:<=:2024-12-31T23:59:59+01:00" ∧
    convertHumanDateToTypesenseDatetime "date" "this_year" (Date 2024 6 1 0 0 0 0 UTC) =
      "date:>=:2024-01-01T00:00:00Z AND date:<=:2024-12-31T23:59:59Z" :=
  ⟨(C12_this_year_steady "date" (Date 2024 6 1 0 0 0 0 berlin) 3600 3600
      ((berlin_steadyAt _).1 (by decide)) ((berlin_steadyAt _).2.2 (by decide))
      ((berlin_steadyAt _).2.2 (by decide))).1.trans (by decide),
    (C12_this_year_steady "date" (Date 2024 6 1 0 0 0 0 UTC) 0 0
      (steadyAt_of_fixedOffset _ _ 0 (fixedOffset_FixedZone 0))
      (steadyAt_of_fixedOffset _ _ 0 (fixedOffset_FixedZone 0))
      (steadyAt_of_fixedOffset _ _ 0 (fixedOffset_FixedZone 0))).1.trans (by decide)⟩

set_option maxRecDepth 100000 in
/-- C13, evaluated on the code: the `last_week` branch computes exactly what the
`this_week` branch does. Its start is start-of-week(now) itself, not 7 days earlier, so
for every now the output for `last_week` is the output for `this_week`; at
2024-03-15T10:00:00Z it is the week of March 10, not the week of March 3. -/
theorem C13_last_week_is_this_week :
    (∀ (field : String) (now : Time),
      convertHumanDateToTypesenseDatetime field "last_week" now =
        convertHumanDateToTypesenseDatetime field "this_week" now) ∧
    (∀ now : Time, resolveInterval "last_week" now =
      some (getStartOfWeek now, ((getStartOfWeek now).AddDate 0 0 7).Add (-Second))) ∧
    convertHumanDateToTypesenseDatetime "date" "last_week" (Date 2024 3 15 10 0 0 0 UTC) =
      "date:>=:2024-03-10T00:00:00Z AND date:<=:2024-03-16T23:59:59Z" ∧
    (getStartOfWeek (Date 2024 3 15 10 0 0 0 UTC)).FormatRFC3339 = "2024-03-10T00:00:00Z" := by
  refine ⟨fun _ _ => rfl, fun _ => rfl, ?_, ?_⟩
  · decide
  · decide

/-- C14, amended: for every now such that the first midnight and the last second of the
month preceding now's month, and the first midnight of now's month, are clear of zone
transitions, the token `last_month` resolves to start = midnight of the first day of the
preceding month and end = one second before the first of now's month, which is 23:59:59
of the last day of the preceding month; when now is in January the start is December 1
and the end December 31 23:59:59 of the previous year. -/
theorem C14_last_month_steady (field : String) (now : Time) (off0 off1 : Int)
    (h0 : now.loc.steadyAt
      (civilSeconds (prevMonth now.Year now.Month).1 (prevMonth now.Year now.Month).2 1 0 0 0)
      off0)
    (h1 : now.loc.steadyAt
      (civilSeconds (prevMonth now.Year now.Month).1 (prevMonth now.Year now.Month).2
        (daysIn (prevMonth now.Year now.Month).1 (prevMonth now.Year now.Month).2) 23 59 59)
      off1)
    (h2 : now.loc.steadyAt (civilSeconds now.Year now.Month 1 0 0 0) off1) :
    convertHumanDateToTypesenseDatetime field "last_month" now =
      field ++ ":>=:" ++
        rfc3339 (prevMonth now.Year now.Month).1 (prevMonth now.Year now.Month).2 1 0 0 0 off0 ++
        " AND " ++ field ++ ":<=:" ++
        rfc3339 (prevMonth now.Year now.Month).1 (prevMonth now.Year now.Month).2
          (daysIn (prevMonth now.Year now.Month).1 (prevMonth now.Year now.Month).2)
          23 59 59 off1 ∧
    (∃ start stop : Time, resolveInterval "last_month" now = some (start, stop) ∧
      (start.Year = (prevMonth now.Year now.Month).1 ∧
        start.Month = (prevMonth now.Year now.Month).2 ∧ start.Day = 1 ∧
        start.Hour = 0 ∧ start.Minute = 0 ∧ start.Sec = 0) ∧
      (stop.Year = (prevMonth now.Year now.Month).1 ∧
        stop.Month = (prevMonth now.Year now.Month).2 ∧
        stop.Day = daysIn (prevMonth now.Year now.Month).1 (prevMonth now.Year now.Month).2 ∧
        stop.Hour = 23 ∧ stop.Minute = 59 ∧ stop.Sec = 59) ∧
      stop.abs + 1 = civilSeconds now.Year now.Month 1 0 0 0 ∧
      (now.Month = 1 →
        (start.Year = now.Year - 1 ∧ start.Month = 12 ∧ start.Day = 1) ∧
        (stop.Year = now.Year - 1 ∧ stop.Month = 12 ∧ stop.Day = 31 ∧
          stop.Hour = 23 ∧ stop.Minute = 59 ∧ stop.Sec = 59))) := by
  obtain ⟨hm1, hm2, _, _, _⟩ := now.fields_days
  obtain ⟨p1, p2, p3⟩ := prevMonth_range now.Year now.Month ⟨hm1, hm2⟩
  obtain ⟨_, _, n3⟩ := nextMonth_range (prevMonth now.Year now.Month).1
    (prevMonth now.Year now.Month).2 ⟨p1, p2⟩
  have hr : resolveInterval "last_month" now =
      some (Date now.Year (now.Month - 1) 1 0 0 0 0 now.loc,
        ((Date now.Year (now.Month - 1) 1 0 0 0 0 now.loc).AddDate 0 1 0).Add (-Second)) := rfl
  rw [Date_prev_month] at hr
  have hc : civilSeconds now.Year now.Month 1 0 0 0 =
      civilSeconds (nextMonth (prevMonth now.Year now.Month).1 (prevMonth now.Year now.Month).2).1
        (nextMonth (prevMonth now.Year now.Month).1 (prevMonth now.Year now.Month).2).2
        1 0 0 0 := by omega
  rw [hc] at h2
  obtain ⟨t1, fS, fE, _, t5, _⟩ := monthSpan_text field _ _ now.loc off0 off1 ⟨p1, p2⟩ h0 h1 h2
    _ _ rfl rfl
  refine ⟨?_, _, _, hr, fS, fE, ?_, ?_⟩
  · rw [convert_eq_interval, hr]
    exact t1
  · rw [t5, hc]
  · intro hJ
    have hp : prevMonth now.Year now.Month = (now.Year - 1, 12) := by
      simp only [prevMonth, hJ, if_true]
    have h1 : (prevMonth now.Year now.Month).1 = now.Year - 1 := by rw [hp]
    have h2 : (prevMonth now.Year now.Month).2 = 12 := by rw [hp]
    have h3 : daysIn (prevMonth now.Year now.Month).1 (prevMonth now.Year now.Month).2 = 31 := by
      rw [h1, h2]; exact daysIn_december _
    exact ⟨⟨fS.1.trans h1, fS.2.1.trans h2, fS.2.2.1⟩,
      fE.1.trans h1, fE.2.1.trans h2, fE.2.2.1.trans h3, fE.2.2.2⟩

set_option maxRecDepth 100000 in
/-- C14, as stated, fails: in a location with the zone transition of America/Asuncion,
where the local midnight of 2017-10-01 never occurred, `last_month` at
2017-11-15T12:00:00-03:00 starts at 23:00:00 of September 30 and ends at 22:59:59 of
October 30. -/
theorem C14_counterexample_missing_midnight :
    (Date 2017 11 15 12 0 0 0 asuncion).FormatRFC3339 = "2017-11-15T12:00:00-03:00" ∧
    convertHumanDateToTypesenseDatetime "date" "last_month" (Date 2017 11 15 12 0 0 0 asuncion) =
      "date:>=:2017-09-30T23:00:00-04:00 AND date:<=:2017-10-30T22:59:59-03:00" ∧
    ∃ start stop : Time,
      resolveInterval "last_month" (Date 2017 11 15 12 0 0 0 asuncion) = some (start, stop) ∧
      (Date 2017 11 15 12 0 0 0 asuncion).Month = 11 ∧ start.Month = 9 ∧ start.Day = 30 ∧
      stop.Month = 10 ∧ stop.Day = 30 :=
  ⟨by decide, by decide, _, _, rfl, by decide, by decide, by decide, by decide, by decide⟩

set_option maxRecDepth 100000 in
/-- Witness of C14: now in January 2024 in UTC, and now in April 2024 in a location with
the zone transitions of Europe/Berlin, where the preceding month, March, holds one. -/
theorem C14_last_month_steady_witness :
    convertHumanDateToTypesenseDatetime "date" "last_month" (Date 2024 1 15 10 0 0 0 UTC) =
      "date:>=:2023-12-01T00:00:00Z AND date:<=:2023-12-31T23:59:59Z" ∧
    convertHumanDateToTypesenseDatetime "date" "last_month" (Date 2024 4 15 10 0 0 0 berlin) =
      "date:>=:2024-03-01T00:00:00+01:00 AND date:<=:2024-03-31T23:59:59+02:00" :=
  ⟨(C14_last_month_steady "date" (Date 2024 1 15 10 0 0 0 UTC) 0 0
      (steadyAt_of_fixedOffset _ _ 0 (fixedOffset_FixedZone 0))
      (steadyAt_of_fixedOffset _ _ 0 (fixedOffset_FixedZone 0))
      (steadyAt_of_fixedOffset _ _ 0 (fixedOffset_FixedZone 0))).1.trans (by decide),
    (C14_last_month_steady "date" (Date 2024 4 15 10 0 0 0 berlin) 3600 7200
      ((berlin_steadyAt _).1 (by decide)) ((berlin_steadyAt _).2.1 (by decide))
      ((berlin_steadyAt _).2.1 (by decide))).1.trans (by decide)⟩

/-- C15, amended: for every now such that the first midnight and the last second of
now's month, and the first midnight of the next month, are clear of zone transitions,
the token `this_month` resolves to start = midnight of the first day of now's month and
end = 23:59:59 of the last calendar day of that month, one second before the first of
the next month, for every month length 28, 29, 30 and 31 and for December. -/
theorem C15_this_month_steady (field : String) (now : Time) (off0 off1 : Int)
    (h0 : now.loc.steadyAt (civilSeconds now.Year now.Month 1 0 0 0) off0)
    (h1 : now.loc.steadyAt
      (civilSeconds now.Year now.Month (daysIn now.Year now.Month) 23 59 59) off1)
    (h2 : now.loc.steadyAt
      (civilSeconds (nextMonth now.Year now.Month).1 (nextMonth now.Year now.Month).2 1 0 0 0)
      off1) :
    convertHumanDateToTypesenseDatetime field "this_month" now =
      field ++ ":>=:" ++ rfc3339 now.Year now.Month 1 0 0 0 off0 ++ " AND " ++
        field ++ ":<=:" ++
        rfc3339 now.Year now.Month (daysIn now.Year now.Month) 23 59 59 off1 ∧
    daysIn now.Year now.Month =
      (if now.Month = 2 then (if isLeap now.Year then 29 else 28)
        else if now.Month = 4 ∨ now.Month = 6 ∨ now.Month = 9 ∨ now.Month = 11 then 30
        else 31) ∧
    (∃ start stop : Time, resolveInterval "this_month" now = some (start, stop) ∧
      (start.Year = now.Year ∧ start.Month = now.Month ∧ start.Day = 1 ∧
        start.Hour = 0 ∧ start.Minute = 0 ∧ start.Sec = 0) ∧
      (stop.Year = now.Year ∧ stop.Month = now.Month ∧
        stop.Day = daysIn now.Year now.Month ∧
        stop.Hour = 23 ∧ stop.Minute = 59 ∧ stop.Sec = 59) ∧
      stop.abs + 1 =
        civilSeconds (nextMonth now.Year now.Month).1 (nextMonth now.Year now.Month).2
          1 0 0 0) := by
  obtain ⟨hm1, hm2, _, _, _⟩ := now.fields_days
  have hr : resolveInterval "this_month" now =
      some (Date now.Year now.Month 1 0 0 0 0 now.loc,
        ((Date now.Year now.Month 1 0 0 0 0 now.loc).AddDate 0 1 0).Add (-Second)) := rfl
  obtain ⟨t1, fS, fE, _, t5, _⟩ :=
    monthSpan_text field _ _ now.loc off0 off1 ⟨hm1, hm2⟩ h0 h1 h2 _ _ rfl rfl
  refine ⟨?_, daysIn_table _ _ ⟨hm1, hm2⟩, _, _, hr, fS, fE, t5⟩
  rw [convert_eq_interval, hr]
  exact t1

set_option maxRecDepth 100000 in
/-- C15, as stated, fails: in a location with the zone transition of America/Asuncion,
where the local midnight of 2017-10-01 never occurred, `this_month` at
2017-10-15T12:00:00-03:00 starts at 23:00:00 of September 30 and ends at 22:59:59 of
October 30, a day before the last day of October. -/
theorem C15_counterexample_missing_midnight :
    (Date 2017 10 15 12 0 0 0 asuncion).FormatRFC3339 = "2017-10-15T12:00:00-03:00" ∧
    convertHumanDateToTypesenseDatetime "date" "this_month" (Date 2017 10 15 12 0 0 0 asuncion) =
      "date:>=:2017-09-30T23:00:00-04:00 AND date:<=:2017-10-30T22:59:59-03:00" ∧
    ∃ start stop : Time,
      resolveInterval "this_month" (Date 2017 10 15 12 0 0 0 asuncion) = some (start, stop) ∧
      (Date 2017 10 15 12 0 0 0 asuncion).Month = 10 ∧ start.Month = 9 ∧ start.Day = 30 ∧
      stop.Month = 10 ∧ stop.Day = 30 :=
  ⟨by decide, by decide, _, _, rfl, by decide, by decide, by decide, by decide, by decide⟩

set_option maxRecDepth 100000 in
/-- Witness of C15: February of a leap year and of a common year, a month of 30 days and
December in UTC, and March 2024, which holds a zone transition, in a location with the
zone transitions of Europe/Berlin. -/
theorem C15_this_month_steady_witness :
    convertHumanDateToTypesenseDatetime "date" "this_month" (Date 2024 2 10 8 0 0 0 UTC) =
      "date:>=:2024-02-01T00:00:00Z AND date:<=:2024-02-29T23:59:59Z" ∧
    convertHumanDateToTypesenseDatetime "date" "this_month" (Date 2023 2 10 8 0 0 0 UTC) =
      "date:>=:2023-02-01T00:00:00Z AND date:<=:2023-02-28T23:59:59Z" ∧
    convertHumanDateToTypesenseDatetime "date" "this_month" (Date 2024 4 30 8 0 0 0 UTC) =
      "date:>=:2024-04-01T00:00:00Z AND date:<=:2024-04-30T23:59:59Z" ∧
    convertHumanDateToTypesenseDatetime "date" "this_month" (Date 2023 12 31 23 0 0 0 UTC) =
      "date:>=:2023-12-01T00:00:00Z AND date:<=:2023-12-31T23:59:59Z" ∧
    convertHumanDateToTypesenseDatetime "date" "this_month" (Date 2024 3 10 8 0 0 0 berlin) =
      "date:>=:2024-03-01T00:00:00+01:00 AND date:<=:2024-03-31T23:59:59+02:00" :=
  ⟨(C15_this_month_steady "date" (Date 2024 2 10 8 0 0 0 UTC) 0 0
      (steadyAt_of_fixedOffset _ _ 0 (fixedOffset_FixedZone 0))
      (steadyAt_of_fixedOffset _ _ 0 (fixedOffset_FixedZone 0))
      (steadyAt_of_fixedOffset _ _ 0 (fixedOffset_FixedZone 0))).1.trans (by decide),
    (C15_this_month_steady "date" (Date 2023 2 10 8 0 0 0 UTC) 0 0
      (steadyAt_of_fixedOffset _ _ 0 (fixedOffset_FixedZone 0))
      (steadyAt_of_fixedOffset _ _ 0 (fixedOffset_FixedZone 0))
      (steadyAt_of_fixedOffset _ _ 0 (fixedOffset_FixedZone 0))).1.trans (by decide),
    (C15_this_month_steady "date" (Date 2024 4 30 8 0 0 0 UTC) 0 0
      (steadyAt_of_fixedOffset _ _ 0 (fixedOffset_FixedZone 0))
      (steadyAt_of_fixedOffset _ _ 0 (fixedOffset_FixedZone 0))
      (steadyAt_of_fixedOffset _ _ 0 (fixedOffset_FixedZone 0))).1.trans (by decide),
    (C15_this_month_steady "date" (Date 2023 12 31 23 0 0 0 UTC) 0 0
      (steadyAt_of_fixedOffset _ _ 0 (fixedOffset_FixedZone 0))
      (steadyAt_of_fixedOffset _ _ 0 (fixedOffset_FixedZone 0))
      (steadyAt_of_fixedOffset _ _ 0 (fixedOffset_FixedZone 0))).1.trans (by decide),
    (C15_this_month_steady "date" (Date 2024 3 10 8 0 0 0 berlin) 3600 7200
      ((berlin_steadyAt _).1 (by decide)) ((berlin_steadyAt _).2.1 (by decide))
      ((berlin_steadyAt _).2.1 (by decide))).1.trans (by decide)⟩

/-- C16, amended: for every now clear of zone transitions, the token `yesterday` resolves
to the interval [now - 1 day, now] when now's wall-clock reading on the previous day is
clear of zone transitions, and the token `tomorrow` to the interval [now, now + 1 day]
when that reading on the next day is, with the time of day unchanged: subtracting one
calendar day and adding it back, and adding then subtracting, returns exactly now,
whatever the date. -/
theorem C16_yesterday_tomorrow_steady (field : String) (now : Time) (hn : now.validNsec)
    (hs : now.steady) :
    (∀ offY : Int, now.loc.steadyAt (now.abs - 86400) offY →
      (now.AddDate 0 0 (-1)).AddDate 0 0 1 = now ∧
      resolveInterval "yesterday" now = some (now.AddDate 0 0 (-1), now) ∧
      convertHumanDateToTypesenseDatetime field "yesterday" now =
        field ++ ":>=:" ++ (now.AddDate 0 0 (-1)).FormatRFC3339 ++ " AND " ++
          field ++ ":<=:" ++ now.FormatRFC3339 ∧
      ((now.AddDate 0 0 (-1)).abs = now.abs - 86400 ∧
        (now.AddDate 0 0 (-1)).Hour = now.Hour ∧ (now.AddDate 0 0 (-1)).Minute = now.Minute ∧
        (now.AddDate 0 0 (-1)).Sec = now.Sec ∧ (now.AddDate 0 0 (-1)).nsec = now.nsec) ∧
      (offY = (now.loc.lookup now.unix).offset →
        now.AddDate 0 0 (-1) = ⟨now.unix - 86400, now.nsec, now.loc⟩)) ∧
    (∀ offT : Int, now.loc.steadyAt (now.abs + 86400) offT →
      (now.AddDate 0 0 1).AddDate 0 0 (-1) = now ∧
      resolveInterval "tomorrow" now = some (now, now.AddDate 0 0 1) ∧
      convertHumanDateToTypesenseDatetime field "tomorrow" now =
        field ++ ":>=:" ++ now.FormatRFC3339 ++ " AND " ++
          field ++ ":<=:" ++ (now.AddDate 0 0 1).FormatRFC3339 ∧
      ((now.AddDate 0 0 1).abs = now.abs + 86400 ∧
        (now.AddDate 0 0 1).Hour = now.Hour ∧ (now.AddDate 0 0 1).Minute = now.Minute ∧
        (now.AddDate 0 0 1).Sec = now.Sec ∧ (now.AddDate 0 0 1).nsec = now.nsec) ∧
      (offT = (now.loc.lookup now.unix).offset →
        now.AddDate 0 0 1 = ⟨now.unix + 86400, now.nsec, now.loc⟩)) := by
  have hu := now.steady_unix
  constructor
  · intro offY hY
    have e : now.abs - 86400 = now.abs + 86400 * -1 := by ring
    rw [e] at hY
    obtain ⟨h1, h2, h3⟩ := AddDate_day_steady now (-1) offY hn hs hY
    have e1 : (-(-1 : Int)) = 1 := by norm_num
    rw [e1] at h3
    have ry : resolveInterval "yesterday" now =
        some (now.AddDate 0 0 (-1), (now.AddDate 0 0 (-1)).AddDate 0 0 1) := rfl
    rw [h3] at ry
    obtain ⟨c1, c2, c3⟩ := abs_clock_shift (-1) now _ h2
    refine ⟨h3, ry, ?_, ⟨by rw [h2]; ring, c1, c2, c3, by rw [h1]⟩, ?_⟩
    · rw [convert_of_interval field "yesterday" now _ _ ry]
    · intro ho
      rw [h1]
      congr 1
      omega
  · intro offT hT
    have e : now.abs + 86400 = now.abs + 86400 * 1 := by ring
    rw [e] at hT
    obtain ⟨h1, h2, h3⟩ := AddDate_day_steady now 1 offT hn hs hT
    have rt : resolveInterval "tomorrow" now =
        some ((now.AddDate 0 0 1).AddDate 0 0 (-1), now.AddDate 0 0 1) := rfl
    rw [h3] at rt
    obtain ⟨c1, c2, c3⟩ := abs_clock_shift 1 now _ h2
    refine ⟨h3, rt, ?_, ⟨by rw [h2]; ring, c1, c2, c3, by rw [h1]⟩, ?_⟩
    · rw [convert_of_interval field "tomorrow" now _ _ rt]
    · intro ho
      rw [h1]
      congr 1
      omega

set_option maxRecDepth 100000 in
/-- C16, as stated, fails. In a location with the zone transition of America/Sao_Paulo,
at now = 2018-11-05T00:30:00-02:00 the local time 00:30 of the day before never occurred;
subtracting one calendar day and adding it back gives 2018-11-04T23:30:00-02:00, and
`yesterday` resolves to an interval that ends there, not at now. In a location with the
zone transitions of Europe/Berlin, at now = 2024-10-27T02:30:00+02:00, a local time that
occurs a second time one hour later, subtracting one calendar day and adding it back
gives that second occurrence, 2024-10-27T02:30:00+01:00. -/
theorem C16_counterexample_day_not_restored :
    ((Date 2018 11 5 0 30 0 0 saoPaulo).FormatRFC3339 = "2018-11-05T00:30:00-02:00" ∧
      (((Date 2018 11 5 0 30 0 0 saoPaulo).AddDate 0 0 (-1)).AddDate 0 0 1).FormatRFC3339 =
        "2018-11-04T23:30:00-02:00" ∧
      (((Date 2018 11 5 0 30 0 0 saoPaulo).AddDate 0 0 (-1)).AddDate 0 0 1).unix ≠
        (Date 2018 11 5 0 30 0 0 saoPaulo).unix ∧
      convertHumanDateToTypesenseDatetime "date" "yesterday"
          (Date 2018 11 5 0 30 0 0 saoPaulo) =
        "date:>=:2018-11-03T23:30:00-03:00 AND date:<=:2018-11-04T23:30:00-02:00") ∧
    ((Time.mk 1729989000 0 berlin).FormatRFC3339 = "2024-10-27T02:30:00+02:00" ∧
      (((Time.mk 1729989000 0 berlin).AddDate 0 0 (-1)).AddDate 0 0 1).unix = 1729992600 ∧
      convertHumanDateToTypesenseDatetime "date" "yesterday" (Time.mk 1729989000 0 berlin) =
        "date:>=:2024-10-26T02:30:00+02:00 AND date:<=:2024-10-27T02:30:00+01:00") := by
  decide

set_option maxRecDepth 100000 in
/-- Witness of C16: `yesterday` on the first day of a year and `tomorrow` on the last day
of February of a leap year in UTC, and `yesterday` on the day after a zone transition in a
location with the zone transitions of Europe/Berlin. -/
theorem C16_yesterday_tomorrow_steady_witness :
    convertHumanDateToTypesenseDatetime "date" "yesterday" (Date 2024 1 1 10 0 0 0 UTC) =
      "date:>=:2023-12-31T10:00:00Z AND date:<=:2024-01-01T10:00:00Z" ∧
    convertHumanDateToTypesenseDatetime "date" "tomorrow" (Date 2024 2 29 10 0 0 0 UTC) =
      "date:>=:2024-02-29T10:00:00Z AND date:<=:2024-03-01T10:00:00Z" ∧
    convertHumanDateToTypesenseDatetime "date" "yesterday" (Date 2024 3 31 10 0 0 0 berlin) =
      "date:>=:2024-03-30T10:00:00+01:00 AND date:<=:2024-03-31T10:00:00+02:00" ∧
    ((Date 2024 3 31 10 0 0 0 berlin).AddDate 0 0 (-1)).AddDate 0 0 1 =
      Date 2024 3 31 10 0 0 0 berlin :=
  ⟨((C16_yesterday_tomorrow_steady "date" (Date 2024 1 1 10 0 0 0 UTC) (by decide)
      (steadyAt_of_fixedOffset _ _ _ (fixedOffset_FixedZone 0))).1 0
      (steadyAt_of_fixedOffset _ _ 0 (fixedOffset_FixedZone 0))).2.2.1.trans (by decide),
    ((C16_yesterday_tomorrow_steady "date" (Date 2024 2 29 10 0 0 0 UTC) (by decide)
      (steadyAt_of_fixedOffset _ _ _ (fixedOffset_FixedZone 0))).2 0
      (steadyAt_of_fixedOffset _ _ 0 (fixedOffset_FixedZone 0))).2.2.1.trans (by decide),
    ((C16_yesterday_tomorrow_steady "date" (Date 2024 3 31 10 0 0 0 berlin) (by decide)
      (steady_of_steadyAt _ 7200 (by decide) ((berlin_steadyAt _).2.1 (by decide)))).1 3600
      ((berlin_steadyAt _).1 (by decide))).2.2.1.trans (by decide),
    ((C16_yesterday_tomorrow_steady "date" (Date 2024 3 31 10 0 0 0 berlin) (by decide)
      (steady_of_steadyAt _ 7200 (by decide) ((berlin_steadyAt _).2.1 (by decide)))).1 3600
      ((berlin_steadyAt _).1 (by decide))).1⟩

/-! ## The output as a function of the list and the clock -/

theorem generateCondition_congr (clock clock2 : Clock) (f : FilterRequest) (k : Nat)
    (h : clock k = clock2 k) : generateCondition clock f k = generateCondition clock2 f k := by
  simp only [generateCondition, handleDateConditions, h]

theorem generateCondition_index (clock : Clock) (f : FilterRequest) (k k1 : Nat) (c : String)
    (h : generateCondition clock f k = some (c, k1)) : k ≤ k1 ∧ k1 ≤ k + 1 := by
  unfold generateCondition at h
  split_ifs at h with h1 h2 h3
  · simp only [Option.some.injEq, Prod.mk.injEq] at h; omega
  · cases hn : handleNumberConditions f with
    | none => rw [hn] at h; simp at h
    | some s => rw [hn] at h; simp only [Option.some.injEq, Prod.mk.injEq] at h; omega
  · simp only [handleDateConditions] at h
    split_ifs at h <;> simp only [Option.some.injEq, Prod.mk.injEq] at h <;> omega
  · simp only [Option.some.injEq, Prod.mk.injEq] at h; omega

theorem collectConditions_congr (clock clock2 : Clock) (fs : List FilterRequest)
    (acc : List String) (k : Nat)
    (h : ∀ j, k ≤ j → j < k + fs.length → clock j = clock2 j) :
    collectConditions clock fs acc k = collectConditions clock2 fs acc k := by
  induction fs generalizing acc k with
  | nil => rfl
  | cons f rest ih =>
    have hk : clock k = clock2 k := h k (le_refl k) (by simp)
    simp only [collectConditions, ← generateCondition_congr clock clock2 f k hk]
    cases hg : generateCondition clock f k with
    | none => rfl
    | some p =>
      obtain ⟨c, k1⟩ := p
      obtain ⟨i1, i2⟩ := generateCondition_index clock f k k1 c hg
      have h2 : ∀ j, k1 ≤ j → j < k1 + rest.length → clock j = clock2 j := by
        intro j hj1 hj2
        apply h j (by omega)
        simp only [List.length_cons]
        omega
      simp only [ih _ k1 h2]

theorem generateCondition_of_not_resolves (clock clock2 : Clock) (f : FilterRequest) (k : Nat)
    (h : ¬ resolvesToken f) : generateCondition clock f k = generateCondition clock2 f k := by
  by_cases hd : f.Field = DateType ∨ f.Field = DateTimeType
  · by_cases ho : f.Operator = OperatorNoData ∨ f.Operator = OperatorHasData
    · have h1 : ¬ f.Field = TextType := by rcases hd with hd | hd <;> rw [hd] <;> decide
      have h2 : ¬ f.Field = NumberType := by rcases hd with hd | hd <;> rw [hd] <;> decide
      simp only [generateCondition, h1, h2, hd, if_true, if_false, handleDateConditions, ho]
    · have ho1 : f.Operator ≠ OperatorNoData := fun e => ho (Or.inl e)
      have ho2 : f.Operator ≠ OperatorHasData := fun e => ho (Or.inr e)
      have ht : f.HumanDate ∉ recognisedTokens := fun e => h ⟨hd, ho1, ho2, e⟩
      rw [generateCondition_date clock f k hd ho1 ho2,
        generateCondition_date clock2 f k hd ho1 ho2,
        convert_of_unrecognised _ _ _ ht, convert_of_unrecognised _ _ _ ht]
  · simp only [generateCondition, hd, if_false]

theorem collectConditions_of_not_resolves (clock clock2 : Clock) (fs : List FilterRequest)
    (acc : List String) (k : Nat) (h : ∀ f ∈ fs, ¬ resolvesToken f) :
    collectConditions clock fs acc k = collectConditions clock2 fs acc k := by
  induction fs generalizing acc k with
  | nil => rfl
  | cons f rest ih =>
    have hf := h f (List.mem_cons_self f rest)
    have hr : ∀ g ∈ rest, ¬ resolvesToken g := fun g hg => h g (List.mem_cons_of_mem f hg)
    simp only [collectConditions, ← generateCondition_of_not_resolves clock clock2 f k hf]
    cases hg : generateCondition clock f k with
    | none => rfl
    | some p => simp only [ih _ _ hr]

/-- C17: the output is a function of the filter list and of the clock readings the call
makes (at most one per filter): two runs whose clocks agree on these readings, in
particular two runs at the same now, yield the identical result; and for every list in
which no date or datetime filter resolves a recognised relative-date token, the output is
the same for every two clocks. -/
theorem C17_output_depends_on_list_and_now :
    (∀ (fs : List FilterRequest) (clock clock2 : Clock),
      (∀ k, k < fs.length → clock k = clock2 k) →
      GenerateTypesenseQuery clock fs = GenerateTypesenseQuery clock2 fs) ∧
    (∀ (fs : List FilterRequest) (clock clock2 : Clock) (now : Time),
      (∀ k, clock k = now) → (∀ k, clock2 k = now) →
      GenerateTypesenseQuery clock fs = GenerateTypesenseQuery clock2 fs) ∧
    (∀ fs : List FilterRequest, (∀ f ∈ fs, ¬ resolvesToken f) →
      ∀ clock clock2 : Clock,
        GenerateTypesenseQuery clock fs = GenerateTypesenseQuery clock2 fs) := by
  refine ⟨?_, ?_, ?_⟩
  · intro fs clock clock2 h
    simp only [GenerateTypesenseQuery,
      collectConditions_congr clock clock2 fs [] 0 (fun j _ hj => h j (by omega))]
  · intro fs clock clock2 now h1 h2
    simp only [GenerateTypesenseQuery,
      collectConditions_congr clock clock2 fs [] 0 (fun j _ _ => (h1 j).trans (h2 j).symm)]
  · intro fs h clock clock2
    simp only [GenerateTypesenseQuery, collectConditions_of_not_resolves clock clock2 fs [] 0 h]

set_option maxRecDepth 100000 in
/-- Witness of C17: a list without a resolved token gives the same query at two different
instants, and a list with the token `today` gives the same query in two runs at the same
instant. -/
theorem C17_output_depends_on_list_and_now_witness :
    GenerateTypesenseQuery (fun _ => Date 2024 3 15 10 0 0 0 UTC)
        [textIsFoo, dateHasData, ⟨"date", "is", "", [], .ofNat 0, [], [], "next_decade"⟩] =
      GenerateTypesenseQuery epochClock
        [textIsFoo, dateHasData, ⟨"date", "is", "", [], .ofNat 0, [], [], "next_decade"⟩] ∧
    GenerateTypesenseQuery (fun _ => Date 2024 3 15 10 0 0 0 UTC)
        [⟨"date", "is", "", [], .ofNat 0, [], [], "today"⟩] =
      GenerateTypesenseQuery (fun k => if k < 5 then Date 2024 3 15 10 0 0 0 UTC else ⟨0, 0, UTC⟩)
        [⟨"date", "is", "", [], .ofNat 0, [], [], "today"⟩] :=
  ⟨C17_output_depends_on_list_and_now.2.2 _ (by decide) _ _,
    C17_output_depends_on_list_and_now.1 _ _ _ (by
      intro k hk
      have hk1 : k < 1 := hk
      have hk5 : k < 5 := by omega
      simp only [hk5, if_true])⟩

/-! ## The date resolver: weeks, contiguity and containment -/

/-- C18, amended: for every instant t such that t's wall-clock reading on the Sunday of
its week and the midnight that starts that Sunday are clear of zone transitions,
getStartOfWeek(t) is at local midnight (hour, minute, second all 0), falls on weekday
index 0 (Sunday), and on the wall clock is not after t and less than 7 days before t; as
an instant it is not after t when t itself is clear of zone transitions, and less than
7 times 86400 seconds before t when the offset at t is the offset at that midnight; when
t is already on weekday 0 it is midnight of t's own day. -/
theorem C18_start_of_week_steady (t : Time) (offA off0 : Int) (hn : t.validNsec)
    (hA : t.loc.steadyAt (t.abs - 86400 * t.Weekday) offA)
    (h0 : t.loc.steadyAt ((t.abs / 86400 - t.Weekday) * 86400) off0) :
    ((getStartOfWeek t).Hour = 0 ∧ (getStartOfWeek t).Minute = 0 ∧
      (getStartOfWeek t).Sec = 0 ∧ (getStartOfWeek t).nsec = 0) ∧
    (getStartOfWeek t).Weekday = 0 ∧
    ((getStartOfWeek t).abs ≤ t.abs ∧ t.abs - (getStartOfWeek t).abs < 7 * 86400) ∧
    (t.steady → (getStartOfWeek t).unix ≤ t.unix) ∧
    (off0 = (t.loc.lookup t.unix).offset →
      (getStartOfWeek t).unix ≤ t.unix ∧ t.unix - (getStartOfWeek t).unix < 7 * 86400) ∧
    (getStartOfWeek t).abs = (t.abs / 86400 - t.Weekday) * 86400 ∧
    (t.Weekday = 0 →
      (getStartOfWeek t).Year = t.Year ∧ (getStartOfWeek t).Month = t.Month ∧
        (getStartOfWeek t).Day = t.Day) := by
  obtain ⟨w1, w2, w3⟩ := t.Weekday_range
  have hs0 := (week_raw t offA off0 hn hA h0).1
  have ha : (getStartOfWeek t).abs = (t.abs / 86400 - t.Weekday) * 86400 := by
    rw [hs0]; exact abs_of_steadyAt _ _ off0 0 h0
  have hu : (getStartOfWeek t).unix =
      (t.abs / 86400 - t.Weekday) * 86400 - unixToInternal - off0 := by rw [hs0]
  have hta := t.steady_unix
  refine ⟨⟨?_, ?_, ?_, ?_⟩, ?_, ⟨?_, ?_⟩, ?_, ?_, ha, ?_⟩
  · simp only [Time.Hour, ha, secondsPerDay, secondsPerHour]; omega
  · simp only [Time.Minute, ha, secondsPerHour, secondsPerMinute]; omega
  · simp only [Time.Sec, ha, secondsPerMinute]; omega
  · rw [hs0]
  · simp only [Time.Weekday, ha, secondsPerDay, secondsPerWeek]; omega
  · rw [ha]; omega
  · rw [ha]; omega
  · intro hs
    have hle := steadyAt_le t.loc _ off0 _ _ h0 hs (by omega)
    rw [hu]; omega
  · intro ho
    rw [hu]
    constructor <;> omega
  · intro h0
    have hy : absYearDay (getStartOfWeek t).abs = absYearDay t.abs := by
      rw [ha, h0, absYearDay_days t.abs]
      simp only [sub_zero]
    simp only [Time.Year, Time.Month, Time.Day, hy, and_self]

set_option maxRecDepth 100000 in
/-- C18, as stated, fails: in a location with the zone transition of America/Sao_Paulo,
where the local midnight of Sunday 2018-11-04 never occurred, the start of the week of
Tuesday 2018-11-06T10:00:00-02:00 is Saturday 2018-11-03T23:00:00-03:00: hour 23 and
weekday index 6. And in a location with the zone transitions of Europe/Berlin the start
of the week of Saturday 2024-11-02T23:30:00+01:00 is Sunday 2024-10-27T00:00:00+02:00,
which lies 7 days and 30 minutes of elapsed time before it, the week of a transition
back being 7 days and 1 hour long. -/
theorem C18_counterexample_missing_midnight :
    ((Date 2018 11 6 10 0 0 0 saoPaulo).FormatRFC3339 = "2018-11-06T10:00:00-02:00" ∧
      (getStartOfWeek (Date 2018 11 6 10 0 0 0 saoPaulo)).FormatRFC3339 =
        "2018-11-03T23:00:00-03:00" ∧
      (getStartOfWeek (Date 2018 11 6 10 0 0 0 saoPaulo)).Hour = 23 ∧
      (getStartOfWeek (Date 2018 11 6 10 0 0 0 saoPaulo)).Weekday = 6) ∧
    ((Date 2024 11 2 23 30 0 0 berlin).FormatRFC3339 = "2024-11-02T23:30:00+01:00" ∧
      (getStartOfWeek (Date 2024 11 2 23 30 0 0 berlin)).FormatRFC3339 =
        "2024-10-27T00:00:00+02:00" ∧
      (Date 2024 11 2 23 30 0 0 berlin).unix -
        (getStartOfWeek (Date 2024 11 2 23 30 0 0 berlin)).unix = 7 * 86400 + 1800) := by
  decide

set_option maxRecDepth 100000 in
/-- Witness of C18: Friday 2024-03-15T10:00:00Z, whose week starts on Sunday March 10;
Sunday 2024-03-10T18:30:00+05:30, whose week starts at midnight of the same day; and
Saturday 2024-11-02T23:30:00+01:00 in a location with the zone transitions of
Europe/Berlin, whose week starts on Sunday 2024-10-27 at 00:00:00+02:00, the day of a
transition. -/
theorem C18_start_of_week_steady_witness :
    ((getStartOfWeek (Date 2024 3 15 10 0 0 0 UTC)).Weekday = 0 ∧
      (getStartOfWeek (Date 2024 3 15 10 0 0 0 UTC)).FormatRFC3339 = "2024-03-10T00:00:00Z") ∧
    ((getStartOfWeek (Date 2024 3 10 18 30 0 0 (FixedZone 19800))).Day =
        (Date 2024 3 10 18 30 0 0 (FixedZone 19800)).Day ∧
      (getStartOfWeek (Date 2024 3 10 18 30 0 0 (FixedZone 19800))).FormatRFC3339 =
        "2024-03-10T00:00:00+05:30") ∧
    ((getStartOfWeek (Date 2024 11 2 23 30 0 0 berlin)).Weekday = 0 ∧
      (getStartOfWeek (Date 2024 11 2 23 30 0 0 berlin)).FormatRFC3339 =
        "2024-10-27T00:00:00+02:00") ∧
    (getStartOfWeek (Date 2024 11 2 23 30 0 0 berlin)).unix ≤
      (Date 2024 11 2 23 30 0 0 berlin).unix :=
  ⟨⟨(C18_start_of_week_steady (Date 2024 3 15 10 0 0 0 UTC) 0 0 (by decide)
      (steadyAt_of_fixedOffset _ _ 0 (fixedOffset_FixedZone 0))
      (steadyAt_of_fixedOffset _ _ 0 (fixedOffset_FixedZone 0))).2.1, by decide⟩,
    ⟨((C18_start_of_week_steady (Date 2024 3 10 18 30 0 0 (FixedZone 19800)) 19800 19800
      (by decide) (steadyAt_of_fixedOffset _ _ 19800 (fixedOffset_FixedZone 19800))
      (steadyAt_of_fixedOffset _ _ 19800 (fixedOffset_FixedZone 19800))).2.2.2.2.2.2
        (by decide)).2.2, by decide⟩,
    ⟨(C18_start_of_week_steady (Date 2024 11 2 23 30 0 0 berlin) 3600 7200 (by decide)
      ((berlin_steadyAt _).2.2 (by decide)) ((berlin_steadyAt _).2.1 (by decide))).2.1,
      by decide⟩,
    (C18_start_of_week_steady (Date 2024 11 2 23 30 0 0 berlin) 3600 7200 (by decide)
      ((berlin_steadyAt _).2.2 (by decide)) ((berlin_steadyAt _).2.1 (by decide))).2.2.2.1
      (steady_of_steadyAt _ 3600 (by decide) ((berlin_steadyAt _).2.2 (by decide)))⟩

/-- C19, amended: the `this` and `next` intervals are contiguous when the readings the
`this` interval starts from are clear of zone transitions. For the week these are now's
wall-clock reading on the Sunday of its week, the midnight of that Sunday, and now's
reading 7 days later and on the Sunday of that later week: then
getStartOfWeek(now + 7 days) = getStartOfWeek(now) + 7 days and `next_week` starts exactly
1 second after `this_week` ends. For the month it is the first midnight of now's month,
for the year the first midnight of now's year: then `next_month` and `next_year` start
exactly 1 second after `this_month` and `this_year` end. -/
theorem C19_this_next_contiguous_steady (now : Time) (hn : now.validNsec) :
    (now.loc.steady (now.abs - 86400 * now.Weekday) →
      now.loc.steady ((now.abs / 86400 - now.Weekday) * 86400) →
      now.loc.steady (now.abs + 86400 * 7) →
      now.loc.steady (now.abs + 86400 * 7 - 86400 * now.Weekday) →
      getStartOfWeek (now.AddDate 0 0 7) = (getStartOfWeek now).AddDate 0 0 7 ∧
      ∃ s1 e1 s2 e2 : Time, resolveInterval "this_week" now = some (s1, e1) ∧
        resolveInterval "next_week" now = some (s2, e2) ∧
        s2.unix = e1.unix + 1 ∧ s2.nsec = e1.nsec) ∧
    (now.loc.steady (civilSeconds now.Year now.Month 1 0 0 0) →
      ∃ s1 e1 s2 e2 : Time, resolveInterval "this_month" now = some (s1, e1) ∧
        resolveInterval "next_month" now = some (s2, e2) ∧
        s2.unix = e1.unix + 1 ∧ s2.nsec = e1.nsec) ∧
    (now.loc.steady (civilSeconds now.Year 1 1 0 0 0) →
      ∃ s1 e1 s2 e2 : Time, resolveInterval "this_year" now = some (s1, e1) ∧
        resolveInterval "next_year" now = some (s2, e2) ∧
        s2.unix = e1.unix + 1 ∧ s2.nsec = e1.nsec) := by
  obtain ⟨hm1, hm2, _, _, _⟩ := now.fields_days
  obtain ⟨n1, n2, n3⟩ := nextMonth_range now.Year now.Month ⟨hm1, hm2⟩
  refine ⟨?_, ?_, ?_⟩
  · rintro ⟨offA, hA⟩ ⟨off0, h0⟩ ⟨offB, hB⟩ ⟨offC, hC⟩
    obtain ⟨_, w2⟩ := week_raw now offA off0 hn hA h0
    have hx := week_next_zoned now offB offC hn hB hC
    have h1 : resolveInterval "this_week" now =
        some (getStartOfWeek now, ((getStartOfWeek now).AddDate 0 0 7).Add (-Second)) := rfl
    have h2 : resolveInterval "next_week" now =
        some (getStartOfWeek (now.AddDate 0 0 7),
          ((getStartOfWeek (now.AddDate 0 0 7)).AddDate 0 0 7).Add (-Second)) := rfl
    refine ⟨hx.trans w2.symm, _, _, _, _, h1, h2, ?_⟩
    rw [hx, w2]
    obtain ⟨a1, a2⟩ := Add_neg_second_unix _ (zoned_validNsec
      ((now.abs / 86400 - now.Weekday + 7) * 86400) now.loc)
    rw [a1, a2]
    exact ⟨by omega, rfl⟩
  · rintro ⟨off0, h0⟩
    obtain ⟨_, m2⟩ := month_raw now.Year now.Month now.loc off0 ⟨hm1, hm2⟩ h0
    have h1 : resolveInterval "this_month" now =
        some (Date now.Year now.Month 1 0 0 0 0 now.loc,
          ((Date now.Year now.Month 1 0 0 0 0 now.loc).AddDate 0 1 0).Add (-Second)) := rfl
    have h2 : resolveInterval "next_month" now =
        some (Date now.Year (now.Month + 1) 1 0 0 0 0 now.loc,
          ((Date now.Year (now.Month + 1) 1 0 0 0 0 now.loc).AddDate 0 1 0).Add
            (-Second)) := rfl
    refine ⟨_, _, _, _, h1, h2, ?_⟩
    rw [m2, Date_next_month, Date_first_zoned _ _ _ ⟨n1, n2⟩]
    obtain ⟨a1, a2⟩ := Add_neg_second_unix _ (zoned_validNsec
      (civilSeconds (nextMonth now.Year now.Month).1 (nextMonth now.Year now.Month).2 1 0 0 0)
      now.loc)
    rw [a1, a2]
    exact ⟨by omega, rfl⟩
  · rintro ⟨off0, h0⟩
    obtain ⟨_, y2⟩ := year_raw now.Year now.loc off0 h0
    have h1 : resolveInterval "this_year" now =
        some (Date now.Year 1 1 0 0 0 0 now.loc,
          ((Date now.Year 1 1 0 0 0 0 now.loc).AddDate 1 0 0).Add (-Second)) := rfl
    have h2 : resolveInterval "next_year" now =
        some (Date (now.Year + 1) 1 1 0 0 0 0 now.loc,
          ((Date (now.Year + 1) 1 1 0 0 0 0 now.loc).AddDate 1 0 0).Add (-Second)) := rfl
    refine ⟨_, _, _, _, h1, h2, ?_⟩
    rw [y2, Date_first_zoned _ _ _ (by omega)]
    obtain ⟨a1, a2⟩ := Add_neg_second_unix _ (zoned_validNsec
      (civilSeconds (now.Year + 1) 1 1 0 0 0) now.loc)
    rw [a1, a2]
    exact ⟨by omega, rfl⟩

set_option maxRecDepth 100000 in
/-- C19, as stated, fails. In a location with the zone transition of America/Asuncion,
`this_month` at 2017-10-15T12:00:00-03:00 ends at 2017-10-30T22:59:59 while `next_month`
starts at 2017-11-01T00:00:00, 90001 seconds later. In a location with the zone
transition of America/Sao_Paulo, at 2018-10-28T00:30:00-03:00 the start of the week of
now + 7 days is the start of the week of now, and `next_week` is the same interval as
`this_week`. -/
theorem C19_counterexample_gap_between_months :
    (convertHumanDateToTypesenseDatetime "date" "this_month"
        (Date 2017 10 15 12 0 0 0 asuncion) =
      "date:>=:2017-09-30T23:00:00-04:00 AND date:<=:2017-10-30T22:59:59-03:00" ∧
    convertHumanDateToTypesenseDatetime "date" "next_month"
        (Date 2017 10 15 12 0 0 0 asuncion) =
      "date:>=:2017-11-01T00:00:00-03:00 AND date:<=:2017-11-30T23:59:59-03:00" ∧
    ∃ s1 e1 s2 e2 : Time,
      resolveInterval "this_month" (Date 2017 10 15 12 0 0 0 asuncion) = some (s1, e1) ∧
      resolveInterval "next_month" (Date 2017 10 15 12 0 0 0 asuncion) = some (s2, e2) ∧
      s2.unix = e1.unix + 90001) ∧
    ((Date 2018 10 28 0 30 0 0 saoPaulo).FormatRFC3339 = "2018-10-28T00:30:00-03:00" ∧
      (getStartOfWeek ((Date 2018 10 28 0 30 0 0 saoPaulo).AddDate 0 0 7)).unix =
        (getStartOfWeek (Date 2018 10 28 0 30 0 0 saoPaulo)).unix ∧
      convertHumanDateToTypesenseDatetime "date" "this_week"
          (Date 2018 10 28 0 30 0 0 saoPaulo) =
        "date:>=:2018-10-28T00:00:00-03:00 AND date:<=:2018-11-03T22:59:59-03:00" ∧
      convertHumanDateToTypesenseDatetime "date" "next_week"
          (Date 2018 10 28 0 30 0 0 saoPaulo) =
        "date:>=:2018-10-28T00:00:00-03:00 AND date:<=:2018-11-03T22:59:59-03:00") :=
  ⟨⟨by decide, by decide, _, _, _, _, rfl, rfl, by decide⟩, by decide⟩

set_option maxRecDepth 100000 in
/-- Witness of C19: Thursday 2024-03-28T10:00:00+01:00 in a location with the zone
transitions of Europe/Berlin, three days before one of them: the week that follows starts
on Sunday March 31 at 00:00:00+01:00, and `next_month` starts one second after
`this_month` ends; and 2023-12-31T23:59:59Z, the last second of a year. -/
theorem C19_this_next_contiguous_steady_witness :
    (getStartOfWeek ((Date 2024 3 28 10 0 0 0 berlin).AddDate 0 0 7)).FormatRFC3339 =
      "2024-03-31T00:00:00+01:00" ∧
    (∃ s1 e1 s2 e2 : Time,
      resolveInterval "this_month" (Date 2024 3 28 10 0 0 0 berlin) = some (s1, e1) ∧
      resolveInterval "next_month" (Date 2024 3 28 10 0 0 0 berlin) = some (s2, e2) ∧
      s2.unix = e1.unix + 1 ∧ s2.nsec = e1.nsec) ∧
    (∃ s1 e1 s2 e2 : Time,
      resolveInterval "this_year" (Date 2023 12 31 23 59 59 0 UTC) = some (s1, e1) ∧
      resolveInterval "next_year" (Date 2023 12 31 23 59 59 0 UTC) = some (s2, e2) ∧
      s2.unix = e1.unix + 1 ∧ s2.nsec = e1.nsec) :=
  ⟨(congrArg Time.FormatRFC3339 ((C19_this_next_contiguous_steady
      (Date 2024 3 28 10 0 0 0 berlin) (by decide)).1
      ⟨3600, (berlin_steadyAt _).1 (by decide)⟩ ⟨3600, (berlin_steadyAt _).1 (by decide)⟩
      ⟨7200, (berlin_steadyAt _).2.1 (by decide)⟩
      ⟨7200, (berlin_steadyAt _).2.1 (by decide)⟩).1).trans (by decide),
    (C19_this_next_contiguous_steady (Date 2024 3 28 10 0 0 0 berlin) (by decide)).2.1
      ⟨3600, (berlin_steadyAt _).1 (by decide)⟩,
    (C19_this_next_contiguous_steady (Date 2023 12 31 23 59 59 0 UTC) (by decide)).2.2
      ⟨0, steadyAt_of_fixedOffset _ _ 0 (fixedOffset_FixedZone 0)⟩⟩

theorem span_today (now : Time) (hst : now.steady)
    (h : ∀ c ∈ readingsOf "today" now, now.loc.steady c) :
    ∃ s e : Time, resolveInterval "today" now = some (s, e) ∧
      s.unix ≤ now.unix ∧ now.unix ≤ e.unix := by
  have hr : readingsOf "today" now =
      [civilSeconds now.Year now.Month now.Day 0 0 0,
        civilSeconds now.Year now.Month (now.Day + 1) 0 0 0] := rfl
  rw [hr] at h
  obtain ⟨off0, h0⟩ := h (civilSeconds now.Year now.Month now.Day 0 0 0) (by simp)
  have hN := h (civilSeconds now.Year now.Month (now.Day + 1) 0 0 0) (by simp)
  have h1 := civilSeconds_day_start now
  have h2 : civilSeconds now.Year now.Month (now.Day + 1) 0 0 0 =
      civilSeconds now.Year now.Month now.Day 0 0 0 + 86400 := by
    rw [civilSeconds_add_days]; omega
  obtain ⟨a, b⟩ := span_holds now _ _ off0 hst h0 hN (by omega) (by omega)
  exact ⟨_, _, today_raw now off0 h0, a, b⟩

theorem span_this_week (now : Time) (hn : now.validNsec) (hst : now.steady)
    (h : ∀ c ∈ readingsOf "this_week" now, now.loc.steady c) :
    ∃ s e : Time, resolveInterval "this_week" now = some (s, e) ∧
      s.unix ≤ now.unix ∧ now.unix ≤ e.unix := by
  obtain ⟨off0, h0, hN, hr⟩ := this_week_form now hn h
  obtain ⟨w1, w2, _⟩ := now.Weekday_range
  obtain ⟨a, b⟩ := span_holds now _ _ off0 hst h0 hN (by omega) (by omega)
  exact ⟨_, _, hr, a, b⟩

theorem span_this_month (now : Time) (hst : now.steady)
    (h : ∀ c ∈ readingsOf "this_month" now, now.loc.steady c) :
    ∃ s e : Time, resolveInterval "this_month" now = some (s, e) ∧
      s.unix ≤ now.unix ∧ now.unix ≤ e.unix := by
  obtain ⟨hm1, hm2, hd1, hd2, _⟩ := now.fields_days
  have hr : readingsOf "this_month" now =
      [civilSeconds now.Year now.Month 1 0 0 0,
        civilSeconds (nextMonth now.Year now.Month).1 (nextMonth now.Year now.Month).2
          1 0 0 0] := rfl
  rw [hr] at h
  obtain ⟨off0, h0, hf⟩ := month_form now.Year now.Month now.loc ⟨hm1, hm2⟩
    (h (civilSeconds now.Year now.Month 1 0 0 0) (by simp))
  have hN := h (civilSeconds (nextMonth now.Year now.Month).1 (nextMonth now.Year now.Month).2
    1 0 0 0) (by simp)
  have h3 := civilSeconds_first_of_month now
  obtain ⟨_, _, n3⟩ := nextMonth_range now.Year now.Month ⟨hm1, hm2⟩
  obtain ⟨a, b⟩ := span_holds now _ _ off0 hst h0 hN (by omega) (by omega)
  exact ⟨_, _, hf, a, b⟩

theorem span_this_year (now : Time) (hst : now.steady)
    (h : ∀ c ∈ readingsOf "this_year" now, now.loc.steady c) :
    ∃ s e : Time, resolveInterval "this_year" now = some (s, e) ∧
      s.unix ≤ now.unix ∧ now.unix ≤ e.unix := by
  have hr : readingsOf "this_year" now =
      [civilSeconds now.Year 1 1 0 0 0, civilSeconds (now.Year + 1) 1 1 0 0 0] := rfl
  rw [hr] at h
  obtain ⟨off0, h0, hf⟩ := year_form now.Year now.loc
    (h (civilSeconds now.Year 1 1 0 0 0) (by simp))
  have hN := h (civilSeconds (now.Year + 1) 1 1 0 0 0) (by simp)
  obtain ⟨yd, y1, y2, y3⟩ := civilSeconds_first_of_year now
  have y4 := (civilSeconds_next_year now.Year).1
  obtain ⟨a, b⟩ := span_holds now _ _ off0 hst h0 hN (by omega) (by omega)
  exact ⟨_, _, hf, a, b⟩

theorem order_day (now : Time) (hn : now.validNsec) (k : Int)
    (h1 : now.loc.steady (now.abs + 86400 * k)) (h2 : now.loc.steady now.abs) :
    ∃ a b : Time, now.AddDate 0 0 k = a ∧ (now.AddDate 0 0 k).AddDate 0 0 (-k) = b ∧
      (k = 1 → b.unix ≤ a.unix) ∧ (k = -1 → a.unix ≤ b.unix) := by
  obtain ⟨off1, h1⟩ := h1
  obtain ⟨off2, h2⟩ := h2
  have e1 : now.AddDate 0 0 k =
      ⟨now.abs + 86400 * k - unixToInternal - off1, now.nsec, now.loc⟩ := by
    rw [AddDate_days_zoned now k hn, zoned_of_steadyAt _ _ off1 _ h1]
  have e : now.abs + 86400 * k + 86400 * -k = now.abs := by ring
  have e2 : (now.AddDate 0 0 k).AddDate 0 0 (-k) =
      ⟨now.abs - unixToInternal - off2, now.nsec, now.loc⟩ := by
    rw [e1, AddDate_days_of_steady _ _ off1 _ (-k) h1 hn, e, zoned_of_steadyAt _ _ off2 _ h2]
  refine ⟨_, _, e1, e2, ?_, ?_⟩
  · intro hk1
    have := steadyAt_lt now.loc _ off2 _ off1 h2 h1 (by omega)
    show now.abs - unixToInternal - off2 ≤ now.abs + 86400 * k - unixToInternal - off1
    omega
  · intro hk1
    have := steadyAt_lt now.loc _ off1 _ off2 h1 h2 (by omega)
    show now.abs + 86400 * k - unixToInternal - off1 ≤ now.abs - unixToInternal - off2
    omega

/-- C20, amended: for every now clear of zone transitions and each of the tokens today,
this_week, this_month and this_year whose readings (those the resolver asks `time.Date`
for) are clear of zone transitions, the resolved interval contains the current instant
truncated to whole seconds, start ≤ now ≤ end; and start ≤ end holds for every now and
every one of the 12 recognised tokens whose readings are clear of zone transitions. -/
theorem C20_interval_contains_now_steady (now : Time) (hn : now.validNsec) :
    (now.steady → ∀ token ∈ ["today", "this_week", "this_month", "this_year"],
      (∀ c ∈ readingsOf token now, now.loc.steady c) →
      ∃ s e : Time, resolveInterval token now = some (s, e) ∧
        s.unix ≤ now.unix ∧ now.unix ≤ e.unix) ∧
    (∀ token ∈ recognisedTokens,
      (∀ c ∈ readingsOf token now, now.loc.steady c) →
      ∃ s e : Time, resolveInterval token now = some (s, e) ∧ s.unix ≤ e.unix) := by
  obtain ⟨hm1, hm2, _, _, _⟩ := now.fields_days
  obtain ⟨p1, p2, p3⟩ := prevMonth_range now.Year now.Month ⟨hm1, hm2⟩
  obtain ⟨n1, n2, _⟩ := nextMonth_range now.Year now.Month ⟨hm1, hm2⟩
  refine ⟨?_, ?_⟩
  · intro hst token ht h
    simp only [List.mem_cons, List.mem_singleton, List.not_mem_nil, or_false] at ht
    rcases ht with e | e | e | e <;> subst e
    · exact span_today now hst h
    · exact span_this_week now hn hst h
    · exact span_this_month now hst h
    · exact span_this_year now hst h
  · intro token ht h
    simp only [recognisedTokens, List.mem_cons, List.mem_singleton, List.not_mem_nil,
      or_false] at ht
    rcases ht with e | e | e | e | e | e | e | e | e | e | e | e <;> subst e
    · have hr : readingsOf "yesterday" now = [now.abs - 86400, now.abs] := rfl
      rw [hr] at h
      have e1 : now.abs - 86400 = now.abs + 86400 * -1 := by ring
      have hY := h (now.abs - 86400) (by simp)
      rw [e1] at hY
      obtain ⟨a, b, ea, eb, _, hab⟩ := order_day now hn (-1) hY
        (h now.abs (by simp))
      have e2 : (-(-1 : Int)) = 1 := by norm_num
      rw [e2] at eb
      have ry : resolveInterval "yesterday" now =
          some (now.AddDate 0 0 (-1), (now.AddDate 0 0 (-1)).AddDate 0 0 1) := rfl
      rw [eb, ea] at ry
      exact ⟨a, b, ry, hab rfl⟩
    · have hr : readingsOf "tomorrow" now = [now.abs + 86400, now.abs] := rfl
      rw [hr] at h
      have e1 : now.abs + 86400 = now.abs + 86400 * 1 := by ring
      have hT := h (now.abs + 86400) (by simp)
      rw [e1] at hT
      obtain ⟨a, b, ea, eb, hab, _⟩ := order_day now hn 1 hT
        (h now.abs (by simp))
      have rt : resolveInterval "tomorrow" now =
          some ((now.AddDate 0 0 1).AddDate 0 0 (-1), now.AddDate 0 0 1) := rfl
      rw [eb, ea] at rt
      exact ⟨b, a, rt, hab rfl⟩
    · have hr : readingsOf "today" now =
          [civilSeconds now.Year now.Month now.Day 0 0 0,
            civilSeconds now.Year now.Month (now.Day + 1) 0 0 0] := rfl
      rw [hr] at h
      obtain ⟨off0, h0⟩ := h (civilSeconds now.Year now.Month now.Day 0 0 0) (by simp)
      have hN := h (civilSeconds now.Year now.Month (now.Day + 1) 0 0 0) (by simp)
      have h2 : civilSeconds now.Year now.Month now.Day 0 0 0 <
          civilSeconds now.Year now.Month (now.Day + 1) 0 0 0 := by
        rw [civilSeconds_add_days]; omega
      exact ⟨_, _, today_raw now off0 h0, span_bounds now.loc _ _ off0 h0 hN h2⟩
    · obtain ⟨off0, h0, hN, hr⟩ := this_week_form now hn h
      exact ⟨_, _, hr, span_bounds now.loc _ _ off0 h0 hN (by omega)⟩
    · obtain ⟨off0, h0, hN, hr⟩ := this_week_form now hn h
      exact ⟨_, _, hr, span_bounds now.loc _ _ off0 h0 hN (by omega)⟩
    · obtain ⟨off0, h0, hN, hr⟩ := next_week_form now hn h
      exact ⟨_, _, hr, span_bounds now.loc _ _ off0 h0 hN (by omega)⟩
    · have hr : readingsOf "this_month" now =
          [civilSeconds now.Year now.Month 1 0 0 0,
            civilSeconds (nextMonth now.Year now.Month).1 (nextMonth now.Year now.Month).2
              1 0 0 0] := rfl
      rw [hr] at h
      obtain ⟨off0, h0, hf⟩ := month_form now.Year now.Month now.loc ⟨hm1, hm2⟩
        (h (civilSeconds now.Year now.Month 1 0 0 0) (by simp))
      have hN := h (civilSeconds (nextMonth now.Year now.Month).1
        (nextMonth now.Year now.Month).2 1 0 0 0) (by simp)
      exact ⟨_, _, hf, span_bounds now.loc _ _ off0 h0 hN
        (civilSeconds_month_lt _ _ ⟨hm1, hm2⟩)⟩
    · have hr : readingsOf "last_month" now =
          [civilSeconds (prevMonth now.Year now.Month).1 (prevMonth now.Year now.Month).2
            1 0 0 0, civilSeconds now.Year now.Month 1 0 0 0] := rfl
      rw [hr] at h
      obtain ⟨off0, h0, hf⟩ := month_form _ _ now.loc ⟨p1, p2⟩
        (h (civilSeconds (prevMonth now.Year now.Month).1 (prevMonth now.Year now.Month).2
          1 0 0 0) (by simp))
      have hN := h (civilSeconds now.Year now.Month 1 0 0 0) (by simp)
      obtain ⟨_, _, q3⟩ := nextMonth_range (prevMonth now.Year now.Month).1
        (prevMonth now.Year now.Month).2 ⟨p1, p2⟩
      have hc : civilSeconds now.Year now.Month 1 0 0 0 =
          civilSeconds
            (nextMonth (prevMonth now.Year now.Month).1 (prevMonth now.Year now.Month).2).1
            (nextMonth (prevMonth now.Year now.Month).1 (prevMonth now.Year now.Month).2).2
            1 0 0 0 := by omega
      rw [hc] at hN
      have h1 : resolveInterval "last_month" now =
          some (Date now.Year (now.Month - 1) 1 0 0 0 0 now.loc,
            ((Date now.Year (now.Month - 1) 1 0 0 0 0 now.loc).AddDate 0 1 0).Add
              (-Second)) := rfl
      rw [Date_prev_month, hf] at h1
      exact ⟨_, _, h1, span_bounds now.loc _ _ off0 h0 hN
        (civilSeconds_month_lt _ _ ⟨p1, p2⟩)⟩
    · have hr : readingsOf "next_month" now =
          [civilSeconds (nextMonth now.Year now.Month).1 (nextMonth now.Year now.Month).2
            1 0 0 0,
            civilSeconds
              (nextMonth (nextMonth now.Year now.Month).1 (nextMonth now.Year now.Month).2).1
              (nextMonth (nextMonth now.Year now.Month).1 (nextMonth now.Year now.Month).2).2
              1 0 0 0] := rfl
      rw [hr] at h
      obtain ⟨off0, h0, hf⟩ := month_form _ _ now.loc ⟨n1, n2⟩
        (h (civilSeconds (nextMonth now.Year now.Month).1 (nextMonth now.Year now.Month).2
          1 0 0 0) (by simp))
      have hN := h (civilSeconds
        (nextMonth (nextMonth now.Year now.Month).1 (nextMonth now.Year now.Month).2).1
        (nextMonth (nextMonth now.Year now.Month).1 (nextMonth now.Year now.Month).2).2
        1 0 0 0) (by simp)
      have h1 : resolveInterval "next_month" now =
          some (Date now.Year (now.Month + 1) 1 0 0 0 0 now.loc,
            ((Date now.Year (now.Month + 1) 1 0 0 0 0 now.loc).AddDate 0 1 0).Add
              (-Second)) := rfl
      rw [Date_next_month, hf] at h1
      exact ⟨_, _, h1, span_bounds now.loc _ _ off0 h0 hN
        (civilSeconds_month_lt _ _ ⟨n1, n2⟩)⟩
    · have hr : readingsOf "this_year" now =
          [civilSeconds now.Year 1 1 0 0 0, civilSeconds (now.Year + 1) 1 1 0 0 0] := rfl
      rw [hr] at h
      obtain ⟨off0, h0, hf⟩ := year_form now.Year now.loc
        (h (civilSeconds now.Year 1 1 0 0 0) (by simp))
      have hN := h (civilSeconds (now.Year + 1) 1 1 0 0 0) (by simp)
      exact ⟨_, _, hf, span_bounds now.loc _ _ off0 h0 hN (civilSeconds_year_lt _)⟩
    · have hr : readingsOf "last_year" now =
          [civilSeconds (now.Year - 1) 1 1 0 0 0, civilSeconds now.Year 1 1 0 0 0] := rfl
      rw [hr] at h
      obtain ⟨off0, h0, hf⟩ := year_form (now.Year - 1) now.loc
        (h (civilSeconds (now.Year - 1) 1 1 0 0 0) (by simp))
      have hN := h (civilSeconds now.Year 1 1 0 0 0) (by simp)
      have e : now.Year - 1 + 1 = now.Year := by ring
      rw [e] at hf
      have h1 : resolveInterval "last_year" now =
          some (Date (now.Year - 1) 1 1 0 0 0 0 now.loc,
            ((Date (now.Year - 1) 1 1 0 0 0 0 now.loc).AddDate 1 0 0).Add (-Second)) := rfl
      rw [hf] at h1
      have hlt := civilSeconds_year_lt (now.Year - 1)
      rw [e] at hlt
      exact ⟨_, _, h1, span_bounds now.loc _ _ off0 h0 hN hlt⟩
    · have hr : readingsOf "next_year" now =
          [civilSeconds (now.Year + 1) 1 1 0 0 0, civilSeconds (now.Year + 2) 1 1 0 0 0] := rfl
      rw [hr] at h
      obtain ⟨off0, h0, hf⟩ := year_form (now.Year + 1) now.loc
        (h (civilSeconds (now.Year + 1) 1 1 0 0 0) (by simp))
      have hN := h (civilSeconds (now.Year + 2) 1 1 0 0 0) (by simp)
      have e : now.Year + 1 + 1 = now.Year + 2 := by ring
      rw [e] at hf
      have h1 : resolveInterval "next_year" now =
          some (Date (now.Year + 1) 1 1 0 0 0 0 now.loc,
            ((Date (now.Year + 1) 1 1 0 0 0 0 now.loc).AddDate 1 0 0).Add (-Second)) := rfl
      rw [hf] at h1
      have hlt := civilSeconds_year_lt (now.Year + 1)
      rw [e] at hlt
      exact ⟨_, _, h1, span_bounds now.loc _ _ off0 h0 hN hlt⟩

set_option maxRecDepth 100000 in
/-- C20, as stated, fails. In a location with the zone transition of America/Sao_Paulo,
at now = 2018-11-04T23:30:00-02:00 the interval of `today` ends at 22:59:59 of that day,
before now. In a location with the zone transition of Asia/Gaza, at
now = 2017-10-28T00:30:00+03:00, in the hour that occurred twice, the interval of `today`
starts at the second occurrence of midnight, 2017-10-28T00:00:00+02:00, half an hour
after now. -/
theorem C20_counterexample_now_outside_interval :
    ((Date 2018 11 4 23 30 0 0 saoPaulo).FormatRFC3339 = "2018-11-04T23:30:00-02:00" ∧
      convertHumanDateToTypesenseDatetime "date" "today" (Date 2018 11 4 23 30 0 0 saoPaulo) =
        "date:>=:2018-11-03T23:00:00-03:00 AND date:<=:2018-11-04T22:59:59-02:00" ∧
      ∃ s e : Time, resolveInterval "today" (Date 2018 11 4 23 30 0 0 saoPaulo) = some (s, e) ∧
        e.unix < (Date 2018 11 4 23 30 0 0 saoPaulo).unix) ∧
    ((Time.mk 1509139800 0 gaza).FormatRFC3339 = "2017-10-28T00:30:00+03:00" ∧
      convertHumanDateToTypesenseDatetime "date" "today" (Time.mk 1509139800 0 gaza) =
        "date:>=:2017-10-28T00:00:00+02:00 AND date:<=:2017-10-28T23:59:59+02:00" ∧
      ∃ s e : Time, resolveInterval "today" (Time.mk 1509139800 0 gaza) = some (s, e) ∧
        (Time.mk 1509139800 0 gaza).unix + 1800 = s.unix) :=
  ⟨⟨by decide, by decide, _, _, rfl, by decide⟩, by decide, by decide, _, _, rfl, by decide⟩

set_option maxRecDepth 100000 in
/-- Witness of C20: the interval of `today` at 2024-03-31T10:00:00+02:00, the day of a
zone transition in a location with the zone transitions of Europe/Berlin, and the
intervals of `this_month` and of `next_year` at 2024-03-15T10:00:00Z. -/
theorem C20_interval_contains_now_steady_witness :
    (∃ s e : Time, resolveInterval "today" (Date 2024 3 31 10 0 0 0 berlin) = some (s, e) ∧
      s.unix ≤ (Date 2024 3 31 10 0 0 0 berlin).unix ∧
      (Date 2024 3 31 10 0 0 0 berlin).unix ≤ e.unix) ∧
    (∃ s e : Time, resolveInterval "this_month" (Date 2024 3 15 10 0 0 0 UTC) = some (s, e) ∧
      s.unix ≤ (Date 2024 3 15 10 0 0 0 UTC).unix ∧
      (Date 2024 3 15 10 0 0 0 UTC).unix ≤ e.unix) ∧
    (∃ s e : Time, resolveInterval "next_year" (Date 2024 3 15 10 0 0 0 UTC) = some (s, e) ∧
      s.unix ≤ e.unix) :=
  ⟨(C20_interval_contains_now_steady (Date 2024 3 31 10 0 0 0 berlin) (by decide)).1
      (steady_of_steadyAt _ 7200 (by decide) ((berlin_steadyAt _).2.1 (by decide)))
      "today" (by decide) (by
        intro c hc
        have hr : readingsOf "today" (Date 2024 3 31 10 0 0 0 berlin) =
            [civilSeconds (Date 2024 3 31 10 0 0 0 berlin).Year
                (Date 2024 3 31 10 0 0 0 berlin).Month (Date 2024 3 31 10 0 0 0 berlin).Day
                0 0 0,
              civilSeconds (Date 2024 3 31 10 0 0 0 berlin).Year
                (Date 2024 3 31 10 0 0 0 berlin).Month
                ((Date 2024 3 31 10 0 0 0 berlin).Day + 1) 0 0 0] := rfl
        rw [hr] at hc
        simp only [List.mem_cons, List.mem_singleton, List.not_mem_nil, or_false] at hc
        rcases hc with e | e <;> subst e
        · exact ⟨3600, (berlin_steadyAt _).1 (by decide)⟩
        · exact ⟨7200, (berlin_steadyAt _).2.1 (by decide)⟩),
    (C20_interval_contains_now_steady (Date 2024 3 15 10 0 0 0 UTC) (by decide)).1
      (steadyAt_of_fixedOffset _ _ _ (fixedOffset_FixedZone 0)) "this_month" (by decide)
      (fun c _ => ⟨0, steadyAt_of_fixedOffset _ c 0 (fixedOffset_FixedZone 0)⟩),
    (C20_interval_contains_now_steady (Date 2024 3 15 10 0 0 0 UTC) (by decide)).2
      "next_year" (by decide)
      (fun c _ => ⟨0, steadyAt_of_fixedOffset _ c 0 (fixedOffset_FixedZone 0)⟩)⟩

end TypesenseQuery
